import Mathlib

/-! DEVScan scan orchestration.

A shallow embedding of the scan orchestration code of the DEVScan DOM scanner
(`src/scanner.js`, `src/scanner_add.js` and the older variants under
`src/trial-oldver`) together with the properties of it that the design document states.

Conventions of the embedding.

* JavaScript strings are Lean strings; the string primitives the code uses
  (`replace` with a string pattern, `includes`, `join`) are defined on the underlying
  character lists.
* Every awaited call into the browser automation layer either returns or raises an
  `Error` carrying a message; its result is an `Except String α`, supplied by a world
  record that fixes, per attempt, what each call does.
* A run of `scanWithRetry` yields the list of calls it made, the accumulated
  `errorMsgs`, and either the returned object or the message of the raised error.
* Plain objects (`results` and its rows) are ordered finite maps from property names
  to values.
* The task wrappers of `scanUrls` run concurrently under `p-limit`; each writes
  `results` in one step at its end, and a world fixes the order in which they do.
* Positions in a string count its characters.
* A `while` loop runs on a fuel; the properties show that the fuel given is enough and
  that more fuel does not change the result.
-/

set_option autoImplicit false

namespace DevScan

deriving instance DecidableEq for Except

/-! ## JavaScript string primitives -/

/-- `String.prototype.replace(pat, rep)` for a string pattern and a replacement without
`$` patterns, on character lists: the first occurrence of `pat` (scanning from the left)
is replaced by `rep`, everything else is kept. -/
def replaceFirst (pat rep : List Char) : List Char → List Char
  | [] => if pat.isPrefixOf [] then rep else []
  | c :: cs =>
    if pat.isPrefixOf (c :: cs) then rep ++ (c :: cs).drop pat.length
    else c :: replaceFirst pat rep cs

/-- `String.prototype.includes(pat)` on character lists. -/
def includesChars (pat : List Char) : List Char → Bool
  | [] => pat.isPrefixOf []
  | c :: cs => pat.isPrefixOf (c :: cs) || includesChars pat cs

/-- `String.prototype.indexOf(pat)` on character lists (`none` for the result `-1`). -/
def indexOfChars (pat : List Char) : List Char → Option Nat
  | [] => if pat.isPrefixOf [] then some 0 else none
  | c :: cs =>
    if pat.isPrefixOf (c :: cs) then some 0
    else (indexOfChars pat cs).map (· + 1)

/-- `s.replace(pat, rep)`. -/
def jsReplace (s pat rep : String) : String :=
  ⟨replaceFirst pat.data rep.data s.data⟩

/-- `s.includes(pat)`. -/
def jsIncludes (s pat : String) : Bool :=
  includesChars pat.data s.data

/-- `s.indexOf(pat)`. -/
def jsIndexOf (s pat : String) : Option Nat :=
  indexOfChars pat.data s.data

/-- `s.startsWith(pat)`. -/
def jsStartsWith (s pat : String) : Bool :=
  pat.data.isPrefixOf s.data

/-- `xs.join(sep)`. -/
def jsJoin (sep : String) (xs : List String) : String :=
  sep.intercalate xs

/-- The characters `encodeURIComponent` leaves as they are. -/
def uriUnreserved (c : Char) : Bool :=
  c.isAlphanum || ['-', '_', '.', '!', '~', '*', Char.ofNat 39, '(', ')'].contains c

/-- The UTF-8 encoding of a code point, as byte values. -/
def utf8Bytes (c : Char) : List Nat :=
  let n := c.toNat
  if n < 0x80 then [n]
  else if n < 0x800 then [0xC0 + n / 64, 0x80 + n % 64]
  else if n < 0x10000 then [0xE0 + n / 4096, 0x80 + n / 64 % 64, 0x80 + n % 64]
  else [0xF0 + n / 262144, 0x80 + n / 4096 % 64, 0x80 + n / 64 % 64, 0x80 + n % 64]

/-- One upper-case hexadecimal digit. -/
def hexDigit (n : Nat) : Char :=
  if n < 10 then Char.ofNat (48 + n) else Char.ofNat (55 + n)

/-- The escape `%XX` of one byte. -/
def percentByte (b : Nat) : List Char :=
  ['%', hexDigit (b / 16), hexDigit (b % 16)]

/-- `encodeURIComponent(s)`: every character outside the unreserved set is replaced by
the percent-escapes of its UTF-8 bytes. -/
def encodeURIComponent (s : String) : String :=
  ⟨s.data.flatMap fun c =>
    if uriUnreserved c then [c] else (utf8Bytes c).flatMap percentByte⟩

/-! ## JavaScript objects as ordered records -/

/-- The values stored in result rows. -/
inductive Value where
  | num (n : Int)
  | str (s : String)
deriving DecidableEq

/-- A plain object: its own properties in insertion order. -/
abbrev Record := List (String × Value)

/-- Assignment of a property (also what a later key of an object literal does): an
existing property keeps its position and takes the new value, a new one is appended. -/
def setProp {β : Type} (k : String) (v : β) : List (String × β) → List (String × β)
  | [] => [(k, v)]
  | (k', v') :: r => if k' = k then (k', v) :: r else (k', v') :: setProp k v r

/-- Property read. -/
def getProp {β : Type} (k : String) : List (String × β) → Option β
  | [] => none
  | (k', v') :: r => if k' = k then some v' else getProp k r

/-- The own property names, in order. -/
def keysOf {β : Type} (r : List (String × β)) : List String :=
  r.map Prod.fst

/-- `k in r`. -/
def hasProp {β : Type} (k : String) (r : List (String × β)) : Bool :=
  (keysOf r).contains k

/-! ## The automation layer as one attempt sees it -/

/-- The calls a run of `scanWithRetry` makes into its collaborators, in the order made. -/
inductive Call where
  | newPage
  | setRequestInterception
  | tryScan (url : String) (sslBypass : Bool) (userAgent : String)
  | pageClose
  | launchBrowser
  | proxyLimit
deriving DecidableEq

/-- What the awaited calls of one attempt do: `browser.newPage()`, the installation of
the request filter, `tryScan(page, url, sslBypass, userAgent)`, the `page.close()` of
the `try` block, and the `launchBrowser()` of the `catch` block (consulted only when
that call is made). -/
structure AttemptWorld (φ : Type) where
  newPage : Except String Unit
  setRequestInterception : Except String Unit
  tryScan : Except String φ
  pageClose : Except String Unit
  launchBrowser : Except String Unit

/-- What the collaborators do during one task: the string `new UserAgent().toString()`
yields, and the behaviour of the k-th direct and the k-th proxy attempt. -/
structure World (φ : Type) where
  userAgent : String
  direct : Nat → AttemptWorld φ
  proxy : Nat → AttemptWorld φ

/-- An entry of the `versions` array. -/
structure Version where
  url : String
  sslBypass : Bool
deriving DecidableEq

/-- The object `scanWithRetry` returns. -/
structure ScanResult (φ : Type) where
  features : φ
  finalUrl : String
  sslBypassUsed : Nat
  usedProxy : Bool
  userAgent : String
deriving DecidableEq

/-- A run of the statements of a `try` block: the calls made, whether `page` was
assigned, and how the block ended. -/
structure TryRun (φ : Type) where
  calls : List Call
  page : Bool
  outcome : Except String φ

/-- The awaited statements of the `try` block of an attempt, up to and including its
`page.close()` (scanner.js lines 296-307 and 340-350). -/
def tryBlock {φ : Type} (a : AttemptWorld φ) (url : String) (sslBypass : Bool)
    (userAgent : String) : TryRun φ :=
  match a.newPage with
  | .error e => ⟨[.newPage], false, .error e⟩
  | .ok _ =>
    match a.setRequestInterception with
    | .error e => ⟨[.newPage, .setRequestInterception], true, .error e⟩
    | .ok _ =>
      match a.tryScan with
      | .error e =>
        ⟨[.newPage, .setRequestInterception, .tryScan url sslBypass userAgent], true, .error e⟩
      | .ok features =>
        match a.pageClose with
        | .error e =>
          ⟨[.newPage, .setRequestInterception, .tryScan url sslBypass userAgent, .pageClose],
            true, .error e⟩
        | .ok _ =>
          ⟨[.newPage, .setRequestInterception, .tryScan url sslBypass userAgent, .pageClose],
            true, .ok features⟩

/-- How the `try` block of an attempt ends, whatever arguments `tryScan` is given: with
the feature object when every awaited call returns, else with the message of the first
error raised. -/
def AttemptWorld.outcome {φ : Type} (a : AttemptWorld φ) : Except String φ :=
  match a.newPage with
  | .error e => .error e
  | .ok _ =>
    match a.setRequestInterception with
    | .error e => .error e
    | .ok _ =>
      match a.tryScan with
      | .error e => .error e
      | .ok features =>
        match a.pageClose with
        | .error e => .error e
        | .ok _ => .ok features

/-- The `finally` block: `if (page) await page.close().catch(() => {})`. -/
def finallyCalls (page : Bool) : List Call :=
  if page then [.pageClose] else []

/-- The statement of the `finally` block, `if (page) await page.close().catch(() => {})`,
given what that `page.close()` does: the calls made and how the statement ends. The
handler passed to `catch` turns a rejection into a fulfilled promise. -/
def finallyBlock (page : Bool) (pageClose : Except String Unit) :
    List Call × Except String Unit :=
  if page then
    ([.pageClose],
      match pageClose with
      | .ok _ => .ok ()
      | .error _ => .ok ())
  else ([], .ok ())

/-- Whether a sequence of calls releases every page it opens. Read from the left, with
`pending` telling whether a page is open: `setRequestInterception` is the first call
made on a page that `newPage` returned, `pageClose` releases the page, and no page may
be open when the next `newPage` is called or when the sequence ends. -/
def pagesReleased : Bool → List Call → Bool
  | pending, [] => !pending
  | pending, .newPage :: cs => !pending && pagesReleased false cs
  | _, .setRequestInterception :: cs => pagesReleased true cs
  | _, .pageClose :: cs => pagesReleased false cs
  | pending, .tryScan _ _ _ :: cs => pagesReleased pending cs
  | pending, .launchBrowser :: cs => pagesReleased pending cs
  | pending, .proxyLimit :: cs => pagesReleased pending cs

/-- The number of attempts a run started: every attempt begins with `browser.newPage()`. -/
def attemptsRun (calls : List Call) : Nat :=
  calls.count .newPage

/-- The number of attempts started inside the `proxyLimit` callback. -/
def proxyAttemptsRun (calls : List Call) : Nat :=
  attemptsRun (calls.dropWhile (· != .proxyLimit))

/-- `errorMsgs.map(msg => "- " + msg).join("\n")`, the message of the error a failed
task raises. -/
def failureMessage (errorMsgs : List String) : String :=
  jsJoin "\n" (errorMsgs.map fun msg => "- " ++ msg)

/-- The calls of the loop iteration of a direct attempt for version `v` whose `try` block
does not return: those of the `try` block, then `launchBrowser()` when the message raised
contains `Protocol error: Connection closed.`, then those of the `finally` block. -/
def attemptCalls {φ : Type} (a : AttemptWorld φ) (v : Version) (userAgent : String) :
    List Call :=
  (tryBlock a v.url v.sslBypass userAgent).calls ++
    (match a.outcome with
      | .error message =>
        if jsIncludes message "Protocol error: Connection closed." then [.launchBrowser]
        else []
      | .ok _ => []) ++
    finallyCalls (tryBlock a v.url v.sslBypass userAgent).page

/-! ## `src/scanner.js` -/

namespace Scanner

/-- The variables of a running `scanWithRetry`, with the calls made so far. -/
structure TaskState where
  calls : List Call
  errorMsgs : List String
  proxyNeeded : Bool
deriving DecidableEq

/-- How a piece of `scanWithRetry` ends: control goes on to the next statement, the
function returns an object, or an error leaves the function. -/
inductive Flow (φ : Type) where
  | next (st : TaskState)
  | returned (st : TaskState) (result : ScanResult φ)
  | raised (st : TaskState) (message : String)

/-- The variables at the point where a piece of `scanWithRetry` ends. -/
def Flow.state {φ : Type} : Flow φ → TaskState
  | .next st => st
  | .returned st _ => st
  | .raised st _ => st

/-- The constant `SCRAPER_API_PROXY_PASS`. -/
def SCRAPER_API_PROXY_PASS : String := "9c68321ea50eae9c33cfeb4aed9c1d10"

/-- Line 270: `originalUrl.replace('://www.', '://')`. -/
def baseUrl (originalUrl : String) : String :=
  jsReplace originalUrl "://www." "://"

/-- Lines 271-276: the `versions` array. -/
def versions (originalUrl : String) : List Version :=
  [ { url := originalUrl, sslBypass := false },
    { url := baseUrl originalUrl, sslBypass := false },
    { url := originalUrl, sslBypass := true },
    { url := baseUrl originalUrl, sslBypass := true } ]

/-- Lines 278-287: the `proxyRetryErrors` array. -/
def proxyRetryErrors : List String :=
  [ "net::ERR_BLOCKED_BY_CLIENT",
    "net::ERR_CONNECTION_REFUSED",
    "net::ERR_CONNECTION_TIMED_OUT",
    "ERR_SSL_VERSION_OR_CIPHER_MISMATCH",
    "net::ERR_SSL_PROTOCOL_ERROR",
    "net::ERR_SSL_UNRECOGNIZED_NAME_ALERT",
    "net::ERR_HTTP2_PROTOCOL_ERROR",
    "net::ERR_CONNECTION_RESET" ]

/-- Line 319: `err.message.includes('Protocol error: Connection closed.')`. -/
def connectionClosed (message : String) : Bool :=
  jsIncludes message "Protocol error: Connection closed."

/-- Line 325: `proxyRetryErrors.some(e => err.message.includes(e))`. -/
def proxyEligible (message : String) : Bool :=
  proxyRetryErrors.any fun e => jsIncludes message e

/-- Lines 317-325: the `catch` block of a direct attempt, entered with the message of
the caught error. It appends the attempt's entry to `errorMsgs`, relaunches the browser
when the message reports a closed connection, and then sets `proxyNeeded` when the
message matches the table. The second component is the message of the error that
leaves the block, if one does (only `launchBrowser()` can raise here). -/
def catchBlock (launchBrowser : Except String Unit) (sslBypass : Bool) (message : String)
    (st : TaskState) : TaskState × Option String :=
  let st1 : TaskState :=
    { st with errorMsgs :=
        st.errorMsgs ++ [(if sslBypass then "SSL Bypass" else "Try") ++ ": " ++ message] }
  let mark (s : TaskState) : TaskState :=
    if proxyEligible message then { s with proxyNeeded := true } else s
  if connectionClosed message then
    let st2 : TaskState := { st1 with calls := st1.calls ++ [.launchBrowser] }
    match launchBrowser with
    | .error e => (st2, some e)
    | .ok _ => (mark st2, none)
  else (mark st1, none)

/-- Whether the `catch` block of this attempt, if entered, completes: it does unless the
caught message reports a closed connection and the `launchBrowser()` it then awaits
raises. -/
def relaunchCompletes {φ : Type} (a : AttemptWorld φ) : Bool :=
  match a.outcome with
  | .ok _ => true
  | .error message =>
    if connectionClosed message then
      match a.launchBrowser with
      | .ok _ => true
      | .error _ => false
    else true

/-- Lines 294-328: one iteration of the loop over `versions`. -/
def directIteration {φ : Type} (a : AttemptWorld φ) (v : Version) (userAgent : String)
    (st : TaskState) : Flow φ :=
  let t := tryBlock a v.url v.sslBypass userAgent
  let st1 : TaskState := { st with calls := st.calls ++ t.calls }
  match t.outcome with
  | .ok features =>
    .returned { st1 with calls := st1.calls ++ finallyCalls t.page }
      { features := features
        finalUrl := v.url
        sslBypassUsed := if v.sslBypass then 1 else 0
        usedProxy := false
        userAgent := userAgent }
  | .error message =>
    match catchBlock a.launchBrowser v.sslBypass message st1 with
    | (st2, some e) => .raised { st2 with calls := st2.calls ++ finallyCalls t.page } e
    | (st2, none) => .next { st2 with calls := st2.calls ++ finallyCalls t.page }

/-- Lines 293-329: the loop over `versions`; `k` is the index of the next attempt. -/
def directLoop {φ : Type} (w : World φ) : List Version → Nat → TaskState → Flow φ
  | [], _, st => .next st
  | v :: vs, k, st =>
    match directIteration (w.direct k) v w.userAgent st with
    | .next st1 => directLoop w vs (k + 1) st1
    | .returned st1 r => .returned st1 r
    | .raised st1 e => .raised st1 e

/-- Line 338: the address that routes `url` through the proxy gateway. -/
def scraperApiUrl (url : String) : String :=
  "http://api.scraperapi.com/?api_key=" ++ SCRAPER_API_PROXY_PASS ++ "&url=" ++
    encodeURIComponent url

/-- The calls of the loop iteration of the proxy attempt for version `v` (lines 336-363):
those of the `try` block, run on the gateway address of `v.url` with the bypass flag
`false`, then those of the `finally` block. -/
def proxyAttemptCalls {φ : Type} (a : AttemptWorld φ) (v : Version) (userAgent : String) :
    List Call :=
  (tryBlock a (scraperApiUrl v.url) false userAgent).calls ++
    finallyCalls (tryBlock a (scraperApiUrl v.url) false userAgent).page

/-- Line 352, `result = { ... }`: scanner.js declares no `result` (it has no `let`,
`const` or `var` of that name, no parameter, and no import of it), and it is an ES
module (it starts with `import` declarations), so its code is strict: the assignment
raises a `ReferenceError` with this message instead of creating a variable. -/
def assignResult : Except String Unit :=
  .error "result is not defined"

/-- Lines 336-363: one iteration of the loop inside the `proxyLimit` callback. The
`try` block ends with the assignment to `result`; whatever is raised inside it is
caught and recorded, and the loop goes on. -/
def proxyIteration {φ : Type} (a : AttemptWorld φ) (v : Version) (userAgent : String)
    (st : TaskState) : TaskState :=
  let t := tryBlock a (scraperApiUrl v.url) false userAgent
  let outcome : Except String Unit :=
    match t.outcome with
    | .ok _ => assignResult
    | .error e => .error e
  let errorMsgs :=
    match outcome with
    | .ok _ => st.errorMsgs
    | .error message => st.errorMsgs ++ ["ScraperAPI (fallback): " ++ message]
  { st with calls := st.calls ++ t.calls ++ finallyCalls t.page, errorMsgs := errorMsgs }

/-- Lines 335-364: the loop inside the `proxyLimit` callback. -/
def proxyLoop {φ : Type} (w : World φ) : List Version → Nat → TaskState → TaskState
  | [], _, st => st
  | v :: vs, k, st => proxyLoop w vs (k + 1) (proxyIteration (w.proxy k) v w.userAgent st)

/-- Lines 269-369: `scanWithRetry(originalUrl)`. The result is the final state (calls
made, messages accumulated) with either the returned object or the message of the
error raised. -/
def scanWithRetry {φ : Type} (w : World φ) (originalUrl : String) :
    TaskState × Except String (ScanResult φ) :=
  match directLoop w (versions originalUrl) 0 { calls := [], errorMsgs := [], proxyNeeded := false } with
  | .returned st r => (st, .ok r)
  | .raised st e => (st, .error e)
  | .next st =>
    let st1 :=
      if st.proxyNeeded then
        proxyLoop w (versions originalUrl) 0 { st with calls := st.calls ++ [.proxyLimit] }
      else st
    (st1, .error (failureMessage st1.errorMsgs))

/-- The object `getDomFeatures` returns (lines 240-249): the spread of the eight signal
groups, twenty-five numeric properties in this order. -/
structure Features where
  totalNodes : Int
  uniqueTags : Int
  inlineEventHandlers : Int
  javascriptHref : Int
  loginFormCount : Int
  passwordFieldCount : Int
  externalFormActionBinary : Int
  externalFormActionNonBinary : Int
  suspiciousKeywords : Int
  hiddenIframeCount : Int
  suspiciousScriptTags : Int
  metaTagCount : Int
  externalScriptCount : Int
  inlineScriptCount : Int
  externalLinkCount : Int
  embeddedObjectCount : Int
  suspiciousInlineStyleCount : Int
  suspiciousLinkCount : Int
  scriptCount : Int
  linkCount : Int
  iframeCount : Int
  formCount : Int
  navigatedFrameCount : Int
  externalFrameCount : Int
  hasSuspiciousFrameUrl : Int
deriving DecidableEq

/-- The properties of a feature object, as `...features` copies them. -/
def Features.toRecord (f : Features) : Record :=
  [
    ("totalNodes", .num f.totalNodes),
    ("uniqueTags", .num f.uniqueTags),
    ("inlineEventHandlers", .num f.inlineEventHandlers),
    ("javascriptHref", .num f.javascriptHref),
    ("loginFormCount", .num f.loginFormCount),
    ("passwordFieldCount", .num f.passwordFieldCount),
    ("externalFormActionBinary", .num f.externalFormActionBinary),
    ("externalFormActionNonBinary", .num f.externalFormActionNonBinary),
    ("suspiciousKeywords", .num f.suspiciousKeywords),
    ("hiddenIframeCount", .num f.hiddenIframeCount),
    ("suspiciousScriptTags", .num f.suspiciousScriptTags),
    ("metaTagCount", .num f.metaTagCount),
    ("externalScriptCount", .num f.externalScriptCount),
    ("inlineScriptCount", .num f.inlineScriptCount),
    ("externalLinkCount", .num f.externalLinkCount),
    ("embeddedObjectCount", .num f.embeddedObjectCount),
    ("suspiciousInlineStyleCount", .num f.suspiciousInlineStyleCount),
    ("suspiciousLinkCount", .num f.suspiciousLinkCount),
    ("scriptCount", .num f.scriptCount),
    ("linkCount", .num f.linkCount),
    ("iframeCount", .num f.iframeCount),
    ("formCount", .num f.formCount),
    ("navigatedFrameCount", .num f.navigatedFrameCount),
    ("externalFrameCount", .num f.externalFrameCount),
    ("hasSuspiciousFrameUrl", .num f.hasSuspiciousFrameUrl) ]

/-! ### The page-level functions `getDomFeatures` and `tryScan` -/

/-- The object the page function of `tagCounts` returns (lines 83-94). -/
structure TagCounts where
  totalNodes : Int
  uniqueTags : Int
deriving DecidableEq

/-- The fallback object passed to `safeEval` for `tagCounts`. -/
def TagCounts.fallback : TagCounts :=
  { totalNodes := -1, uniqueTags := -1 }

/-- The object the page function of `inlineJS` returns (lines 96-106). -/
structure InlineJS where
  inlineEventHandlers : Int
  javascriptHref : Int
deriving DecidableEq

/-- The fallback object passed to `safeEval` for `inlineJS`. -/
def InlineJS.fallback : InlineJS :=
  { inlineEventHandlers := -1, javascriptHref := -1 }

/-- The object the page function of `loginForms` returns (lines 108-141). -/
structure LoginForms where
  loginFormCount : Int
  passwordFieldCount : Int
  externalFormActionBinary : Int
  externalFormActionNonBinary : Int
deriving DecidableEq

/-- The fallback object passed to `safeEval` for `loginForms`. -/
def LoginForms.fallback : LoginForms :=
  { loginFormCount := -1, passwordFieldCount := -1, externalFormActionBinary := -1, externalFormActionNonBinary := -1 }

/-- The object the page function of `suspiciousKeywords` returns (lines 143-150). -/
structure SuspiciousKeywords where
  suspiciousKeywords : Int
deriving DecidableEq

/-- The fallback object passed to `safeEval` for `suspiciousKeywords`. -/
def SuspiciousKeywords.fallback : SuspiciousKeywords :=
  { suspiciousKeywords := -1 }

/-- The object the page function of `hiddenIframes` returns (lines 152-159). -/
structure HiddenIframes where
  hiddenIframeCount : Int
deriving DecidableEq

/-- The fallback object passed to `safeEval` for `hiddenIframes`. -/
def HiddenIframes.fallback : HiddenIframes :=
  { hiddenIframeCount := -1 }

/-- The object the page function of `suspiciousScripts` returns (lines 161-168). -/
structure SuspiciousScripts where
  suspiciousScriptTags : Int
deriving DecidableEq

/-- The fallback object passed to `safeEval` for `suspiciousScripts`. -/
def SuspiciousScripts.fallback : SuspiciousScripts :=
  { suspiciousScriptTags := -1 }

/-- The object the page function of `otherFeatures` returns (lines 170-205). -/
structure OtherFeatures where
  metaTagCount : Int
  externalScriptCount : Int
  inlineScriptCount : Int
  externalLinkCount : Int
  embeddedObjectCount : Int
  suspiciousInlineStyleCount : Int
  suspiciousLinkCount : Int
  scriptCount : Int
  linkCount : Int
  iframeCount : Int
  formCount : Int
deriving DecidableEq

/-- The fallback object passed to `safeEval` for `otherFeatures`. -/
def OtherFeatures.fallback : OtherFeatures :=
  { metaTagCount := -1, externalScriptCount := -1, inlineScriptCount := -1, externalLinkCount := -1, embeddedObjectCount := -1, suspiciousInlineStyleCount := -1, suspiciousLinkCount := -1, scriptCount := -1, linkCount := -1, iframeCount := -1, formCount := -1 }

/-- The object the page function of `frameNavigationFeatures` returns (lines 207-237). -/
structure FrameNavigationFeatures where
  navigatedFrameCount : Int
  externalFrameCount : Int
  hasSuspiciousFrameUrl : Int
deriving DecidableEq

/-- The fallback object passed to `safeEval` for `frameNavigationFeatures`. -/
def FrameNavigationFeatures.fallback : FrameNavigationFeatures :=
  { navigatedFrameCount := -1, externalFrameCount := -1, hasSuspiciousFrameUrl := -1 }

/-- The eight page functions `getDomFeatures` evaluates, in the order evaluated. -/
inductive Signal where
  | tagCounts
  | inlineJS
  | loginForms
  | suspiciousKeywords
  | hiddenIframes
  | suspiciousScripts
  | otherFeatures
  | frameNavigationFeatures
deriving DecidableEq

/-- The calls `tryScan` and `getDomFeatures` make on the page and its CDP session, in
the order made. `setIgnoreCertificateErrors` is
`client.send('Security.setIgnoreCertificateErrors', { ignore: true })`. -/
inductive PageCall where
  | createCDPSession
  | setIgnoreCertificateErrors
  | setUserAgent (userAgent : String)
  | setViewport
  | setExtraHTTPHeaders
  | setJavaScriptEnabled
  | goto (url : String) (waitUntil : String)
  | evaluate (signal : Signal)
deriving DecidableEq

/-- Whether a call is a `page.goto`. -/
def PageCall.isGoto : PageCall → Bool
  | .goto _ _ => true
  | _ => false

/-- Whether a call is a `page.evaluate`. -/
def PageCall.isEvaluate : PageCall → Bool
  | .evaluate _ => true
  | _ => false

/-- What the page does during one call of `tryScan`: the result of each awaited call
(the two `page.goto` calls and the eight `page.evaluate` calls separately) and the value
of `page.isClosed()`. -/
structure PageWorld where
  createCDPSession : Except String Unit
  setIgnoreCertificateErrors : Except String Unit
  isClosed : Bool
  setUserAgent : Except String Unit
  setViewport : Except String Unit
  setExtraHTTPHeaders : Except String Unit
  setJavaScriptEnabled : Except String Unit
  gotoPrimary : Except String Unit
  gotoFallback : Except String Unit
  tagCounts : Except String TagCounts
  inlineJS : Except String InlineJS
  loginForms : Except String LoginForms
  suspiciousKeywords : Except String SuspiciousKeywords
  hiddenIframes : Except String HiddenIframes
  suspiciousScripts : Except String SuspiciousScripts
  otherFeatures : Except String OtherFeatures
  frameNavigationFeatures : Except String FrameNavigationFeatures

/-- Lines 49-55: `safeEval(fn, fallback)`, given what `page.evaluate(fn)` does. -/
def safeEval {α : Type} (evaluated : Except String α) (fallback : α) : α :=
  match evaluated with
  | .ok value => value
  | .error _ => fallback

/-- Lines 57-67: the statements of `getDomFeatures` before the navigation. A failure of
`page.setUserAgent` is caught and logged; the three calls after it are not guarded. -/
def prepare (p : PageWorld) (userAgent : String) : List PageCall × Except String Unit :=
  let c0 : List PageCall := if p.isClosed then [] else [.setUserAgent userAgent]
  match p.setViewport with
  | .error e => (c0 ++ [.setViewport], .error e)
  | .ok _ =>
    match p.setExtraHTTPHeaders with
    | .error e => (c0 ++ [.setViewport, .setExtraHTTPHeaders], .error e)
    | .ok _ =>
      match p.setJavaScriptEnabled with
      | .error e =>
        (c0 ++ [.setViewport, .setExtraHTTPHeaders, .setJavaScriptEnabled], .error e)
      | .ok _ =>
        (c0 ++ [.setViewport, .setExtraHTTPHeaders, .setJavaScriptEnabled], .ok ())

/-- Lines 72-80: the navigation, first waiting for `domcontentloaded`, then, if that
raised, for `networkidle2`; an error of the second call is wrapped in a new `Error`. -/
def navigate (p : PageWorld) (url : String) : List PageCall × Except String Unit :=
  match p.gotoPrimary with
  | .ok _ => ([.goto url "domcontentloaded"], .ok ())
  | .error _ =>
    match p.gotoFallback with
    | .ok _ => ([.goto url "domcontentloaded", .goto url "networkidle2"], .ok ())
    | .error e =>
      ([.goto url "domcontentloaded", .goto url "networkidle2"],
        .error ("Navigation failed (fallback too): " ++ e))

/-- Lines 83-249: the eight guarded evaluations and the object built from their
results by spreading them in order. -/
def extract (p : PageWorld) : Features :=
  let tagCounts := safeEval p.tagCounts TagCounts.fallback
  let inlineJS := safeEval p.inlineJS InlineJS.fallback
  let loginForms := safeEval p.loginForms LoginForms.fallback
  let suspiciousKeywords := safeEval p.suspiciousKeywords SuspiciousKeywords.fallback
  let hiddenIframes := safeEval p.hiddenIframes HiddenIframes.fallback
  let suspiciousScripts := safeEval p.suspiciousScripts SuspiciousScripts.fallback
  let otherFeatures := safeEval p.otherFeatures OtherFeatures.fallback
  let frameNavigationFeatures := safeEval p.frameNavigationFeatures FrameNavigationFeatures.fallback
  {
    totalNodes := tagCounts.totalNodes
    uniqueTags := tagCounts.uniqueTags
    inlineEventHandlers := inlineJS.inlineEventHandlers
    javascriptHref := inlineJS.javascriptHref
    loginFormCount := loginForms.loginFormCount
    passwordFieldCount := loginForms.passwordFieldCount
    externalFormActionBinary := loginForms.externalFormActionBinary
    externalFormActionNonBinary := loginForms.externalFormActionNonBinary
    suspiciousKeywords := suspiciousKeywords.suspiciousKeywords
    hiddenIframeCount := hiddenIframes.hiddenIframeCount
    suspiciousScriptTags := suspiciousScripts.suspiciousScriptTags
    metaTagCount := otherFeatures.metaTagCount
    externalScriptCount := otherFeatures.externalScriptCount
    inlineScriptCount := otherFeatures.inlineScriptCount
    externalLinkCount := otherFeatures.externalLinkCount
    embeddedObjectCount := otherFeatures.embeddedObjectCount
    suspiciousInlineStyleCount := otherFeatures.suspiciousInlineStyleCount
    suspiciousLinkCount := otherFeatures.suspiciousLinkCount
    scriptCount := otherFeatures.scriptCount
    linkCount := otherFeatures.linkCount
    iframeCount := otherFeatures.iframeCount
    formCount := otherFeatures.formCount
    navigatedFrameCount := frameNavigationFeatures.navigatedFrameCount
    externalFrameCount := frameNavigationFeatures.externalFrameCount
    hasSuspiciousFrameUrl := frameNavigationFeatures.hasSuspiciousFrameUrl }

/-- Lines 83-237: the `page.evaluate` calls of the eight `safeEval` calls. -/
def extractCalls : List PageCall :=
  [ .evaluate .tagCounts, .evaluate .inlineJS, .evaluate .loginForms,
    .evaluate .suspiciousKeywords, .evaluate .hiddenIframes, .evaluate .suspiciousScripts,
    .evaluate .otherFeatures, .evaluate .frameNavigationFeatures ]

/-- Lines 48-250: `getDomFeatures(page, url, userAgent)`, with the calls it makes. -/
def getDomFeatures (p : PageWorld) (url userAgent : String) :
    List PageCall × Except String Features :=
  match prepare p userAgent with
  | (c1, .error e) => (c1, .error e)
  | (c1, .ok _) =>
    match navigate p url with
    | (c2, .error e) => (c1 ++ c2, .error e)
    | (c2, .ok _) => (c1 ++ c2 ++ extractCalls, .ok (extract p))

/-- Lines 253-259: `tryScan(page, url, sslBypass, userAgent)`, with the calls it
makes. -/
def tryScan (p : PageWorld) (url : String) (sslBypass : Bool) (userAgent : String) :
    List PageCall × Except String Features :=
  match p.createCDPSession with
  | .error e => ([.createCDPSession], .error e)
  | .ok _ =>
    if sslBypass && jsStartsWith url "https://" then
      match p.setIgnoreCertificateErrors with
      | .error e => ([.createCDPSession, .setIgnoreCertificateErrors], .error e)
      | .ok _ =>
        let r := getDomFeatures p url userAgent
        ([.createCDPSession, .setIgnoreCertificateErrors] ++ r.1, r.2)
    else
      let r := getDomFeatures p url userAgent
      ([.createCDPSession] ++ r.1, r.2)

/-- An element of the `urls` argument of `scanUrls`. -/
structure ScanTask where
  url : String
  label : Value
deriving DecidableEq

/-- Lines 375-381: the row stored for a task whose `scanWithRetry` returned. -/
def successRow (r : ScanResult Features) (label : Value) : Record :=
  setProp "label" label
    (setProp "finalUrlTried" (.str r.finalUrl)
      (setProp "usedProxy" (.num (if r.usedProxy then 1 else 0))
        (setProp "sslBypassUsed" (.num r.sslBypassUsed) r.features.toRecord)))

/-- The object literal of lines 375-381 for any feature object: the spread of
`features`, then `sslBypassUsed`, `usedProxy: Number(usedProxy)`,
`finalUrlTried: finalUrl` and `label`; a later property of a literal replaces an
earlier one of the same name. -/
def successRecord (features : Record) (sslBypassUsed : Nat) (usedProxy : Bool)
    (finalUrl : String) (label : Value) : Record :=
  setProp "label" label
    (setProp "finalUrlTried" (.str finalUrl)
      (setProp "usedProxy" (.num (if usedProxy then 1 else 0))
        (setProp "sslBypassUsed" (.num sslBypassUsed) features)))

/-- Line 386: the row stored for a task whose `scanWithRetry` raised. -/
def failureRow (message url : String) (label : Value) : Record :=
  [("error", .str message), ("finalUrlTried", .str url), ("label", label)]

/-- The rows a task wrapper can store for task `t`: a Success row, which has no `error`
property, or a Failure row, which has one. -/
def IsTaskRow (t : ScanTask) (row : Record) : Prop :=
  (∃ r : ScanResult Features, row = successRow r t.label ∧ hasProp "error" row = false) ∨
    (∃ message : String,
      row = failureRow message t.url t.label ∧ hasProp "error" row = true)

/-- The variables `results` and `errorLog` of `scanUrls`. -/
structure Batch where
  results : List (String × Record)
  errorLog : List (String × String)
deriving DecidableEq

/-- Lines 373-388: the `try`/`catch` of the task wrapper, given how the awaited
`scanWithRetry(url)` ended. -/
def recordOutcome (outcome : Except String (ScanResult Features)) (t : ScanTask)
    (b : Batch) : Batch :=
  match outcome with
  | .ok r => { b with results := setProp t.url (successRow r t.label) b.results }
  | .error message =>
    { results := setProp t.url (failureRow message t.url t.label) b.results
      errorLog := b.errorLog ++ [(t.url, message)] }

/-- Lines 372-389: the function `limit` runs for one task. -/
def taskWrapper (w : World Features) (t : ScanTask) (b : Batch) : Batch :=
  recordOutcome (scanWithRetry w t.url).2 t b

/-- What the collaborators do during one call of `scanUrls`: the first
`launchBrowser()` (line 267), the world of the task at each index of `urls`, the order
in which the task wrappers reach their final assignment (the wrappers run concurrently
under `limit`, and each writes `results` in one step when its `scanWithRetry` has
ended), and `writeResultsToCsv`. -/
structure BatchWorld where
  launchBrowser : Except String Unit
  task : Nat → World Features
  completion : List Nat
  writeResultsToCsv : Except String Unit

/-- The wrapper of the task at index `i` of `urls` reaches its end. -/
def finishTask (urls : List ScanTask) (bw : BatchWorld) (b : Batch) (i : Nat) : Batch :=
  match urls[i]? with
  | some t => taskWrapper (bw.task i) t b
  | none => b

/-- The state of `results` and `errorLog` once every wrapper has ended (line 392). -/
def runTasks (urls : List ScanTask) (bw : BatchWorld) : Batch :=
  bw.completion.foldl (finishTask urls bw) { results := [], errorLog := [] }

/-- Lines 261-400: `scanUrls(urls)`, with a concurrency limit `p-limit` accepts. -/
def scanUrls (urls : List ScanTask) (bw : BatchWorld) :
    Except String (List (String × Record)) :=
  match bw.launchBrowser with
  | .error e => .error e
  | .ok _ =>
    let b := runTasks urls bw
    match bw.writeResultsToCsv with
    | .error e => .error e
    | .ok _ => .ok b.results

end Scanner

/-! ## `src/scanner_add.js` -/

namespace ScannerAdd

/-- The variables of a running `scanWithRetry` (lines 245-252), with the calls made so
far. -/
structure TaskState (φ : Type) where
  calls : List Call
  errorMsgs : List String
  proxyNeeded : Bool
  errNameNotResolvedCount : Nat
  result : Option (ScanResult φ)

/-- How a piece of `scanWithRetry` ends: control goes on to the next statement, the
function returns an object, or an error leaves the function. -/
inductive Flow (φ : Type) where
  | next (st : TaskState φ)
  | returned (st : TaskState φ) (result : ScanResult φ)
  | raised (st : TaskState φ) (message : String)

/-- The constant `SCRAPER_API_PROXY_PASS`. -/
def SCRAPER_API_PROXY_PASS : String := "2f166849bbacd4dd40e13da70cb9bbe2"

/-- Line 225: `originalUrl.replace('://www.', '://')`. -/
def baseUrl (originalUrl : String) : String :=
  jsReplace originalUrl "://www." "://"

/-- Lines 226-231: the `versions` array. -/
def versions (originalUrl : String) : List Version :=
  [ { url := originalUrl, sslBypass := false },
    { url := baseUrl originalUrl, sslBypass := false },
    { url := originalUrl, sslBypass := true },
    { url := baseUrl originalUrl, sslBypass := true } ]

/-- Lines 233-243: the `proxyRetryErrors` array. -/
def proxyRetryErrors : List String :=
  [ "net::ERR_BLOCKED_BY_CLIENT",
    "net::ERR_CONNECTION_REFUSED",
    "ERR_SSL_VERSION_OR_CIPHER_MISMATCH",
    "net::ERR_SSL_PROTOCOL_ERROR",
    "net::ERR_SSL_UNRECOGNIZED_NAME_ALERT",
    "net::ERR_HTTP2_PROTOCOL_ERROR",
    "net::ERR_CONNECTION_RESET",
    "ERR_NETWORK_CHANGED" ]

/-- Lines 275-304 and 341-350: the `catch` block of a direct attempt. In the first loop
(`countNameErrors`) it also counts the messages that contain `ERR_NAME_NOT_RESOLVED`.
The second component is the message of the error that leaves the block, if one does. -/
def catchBlock {φ : Type} (countNameErrors : Bool) (launchBrowser : Except String Unit)
    (sslBypass : Bool) (message : String) (st : TaskState φ) : TaskState φ × Option String :=
  let st1 : TaskState φ :=
    { st with errorMsgs :=
        st.errorMsgs ++ [(if sslBypass then "SSL Bypass" else "Try") ++ ": " ++ message] }
  let st2 : TaskState φ :=
    if countNameErrors && jsIncludes message "ERR_NAME_NOT_RESOLVED" then
      { st1 with errNameNotResolvedCount := st1.errNameNotResolvedCount + 1 }
    else st1
  let mark (s : TaskState φ) : TaskState φ :=
    if proxyRetryErrors.any (fun e => jsIncludes message e) then
      { s with proxyNeeded := true }
    else s
  if jsIncludes message "Protocol error: Connection closed." then
    let st3 : TaskState φ := { st2 with calls := st2.calls ++ [.launchBrowser] }
    match launchBrowser with
    | .error e => (st3, some e)
    | .ok _ => (mark st3, none)
  else (mark st2, none)

/-- Lines 256-308 and 321-354: one iteration of a loop over direct attempts. The
installation of the request filter (`setupRequestInterception(page)`, preceded in the
second loop by `page.setRequestInterception(true)`) is one step of the attempt. -/
def directIteration {φ : Type} (countNameErrors : Bool) (a : AttemptWorld φ) (v : Version)
    (userAgent : String) (st : TaskState φ) : Flow φ :=
  let t := tryBlock a v.url v.sslBypass userAgent
  let st1 : TaskState φ := { st with calls := st.calls ++ t.calls }
  match t.outcome with
  | .ok features =>
    .returned { st1 with calls := st1.calls ++ finallyCalls t.page }
      { features := features
        finalUrl := v.url
        sslBypassUsed := if v.sslBypass then 1 else 0
        usedProxy := false
        userAgent := userAgent }
  | .error message =>
    match catchBlock countNameErrors a.launchBrowser v.sslBypass message st1 with
    | (st2, some e) => .raised { st2 with calls := st2.calls ++ finallyCalls t.page } e
    | (st2, none) => .next { st2 with calls := st2.calls ++ finallyCalls t.page }

/-- Lines 255-309 and 320-355: a loop over direct attempts; `k` is the index the next
attempt has among all direct attempts of the task. -/
def directLoop {φ : Type} (countNameErrors : Bool) (w : World φ) :
    List Version → Nat → TaskState φ → Flow φ
  | [], _, st => .next st
  | v :: vs, k, st =>
    match directIteration countNameErrors (w.direct k) v w.userAgent st with
    | .next st1 => directLoop countNameErrors w vs (k + 1) st1
    | .returned st1 r => .returned st1 r
    | .raised st1 e => .raised st1 e

/-- Line 365: the address that routes `url` through the proxy gateway. -/
def scraperApiUrl (url : String) : String :=
  "http://api.scraperapi.com/?api_key=" ++ SCRAPER_API_PROXY_PASS ++ "&url=" ++
    encodeURIComponent url

/-- Lines 363-393: one iteration of the loop inside the `proxyLimit` callback: a
successful attempt assigns `result`, a failed one records its message; either way the
loop goes on with the next entry of `versions`. -/
def proxyIteration {φ : Type} (a : AttemptWorld φ) (v : Version) (userAgent : String)
    (st : TaskState φ) : TaskState φ :=
  let t := tryBlock a (scraperApiUrl v.url) false userAgent
  let st1 : TaskState φ := { st with calls := st.calls ++ t.calls ++ finallyCalls t.page }
  match t.outcome with
  | .ok features =>
    let result : ScanResult φ :=
      { features := features
        finalUrl := v.url
        sslBypassUsed := 0
        usedProxy := true
        userAgent := userAgent }
    { st1 with result := some result }
  | .error message =>
    { st1 with errorMsgs := st1.errorMsgs ++ ["ScraperAPI (fallback): " ++ message] }

/-- Lines 362-394: the loop inside the `proxyLimit` callback. -/
def proxyLoop {φ : Type} (w : World φ) : List Version → Nat → TaskState φ → TaskState φ
  | [], _, st => st
  | v :: vs, k, st => proxyLoop w vs (k + 1) (proxyIteration (w.proxy k) v w.userAgent st)

/-- Lines 224-400: `scanWithRetry(originalUrl)`. -/
def scanWithRetry {φ : Type} (w : World φ) (originalUrl : String) :
    TaskState φ × Except String (ScanResult φ) :=
  let nonBypassAttempts := (versions originalUrl).filter fun v => !v.sslBypass
  let bypassAttempts := (versions originalUrl).filter fun v => v.sslBypass
  match directLoop true w nonBypassAttempts 0
      { calls := [], errorMsgs := [], proxyNeeded := false, errNameNotResolvedCount := 0,
        result := none } with
  | .returned st r => (st, .ok r)
  | .raised st e => (st, .error e)
  | .next st =>
    if st.errNameNotResolvedCount = nonBypassAttempts.length then
      (st, .error (failureMessage st.errorMsgs))
    else
      match directLoop false w bypassAttempts nonBypassAttempts.length st with
      | .returned st1 r => (st1, .ok r)
      | .raised st1 e => (st1, .error e)
      | .next st1 =>
        let st2 :=
          if st1.proxyNeeded then
            proxyLoop w (versions originalUrl) 0 { st1 with calls := st1.calls ++ [.proxyLimit] }
          else st1
        match st2.result with
        | some r => (st2, .ok r)
        | none => (st2, .error (failureMessage st2.errorMsgs))

end ScannerAdd

/-! ## The request filter of `src/scanner_add.js` -/

namespace ScannerAdd

/-- `s.toLowerCase()`, on the ASCII text the browser reports as the URL of a request. -/
def toLowerCase (s : String) : String :=
  String.mk (s.data.map Char.toLower)

/-- `s.endsWith(ext)`. -/
def endsWith (s ext : String) : Bool :=
  ext.data.isSuffixOf s.data

/-- An intercepted request, as the listener reads it: `req.url()` and
`req.resourceType()`. -/
structure Request where
  url : String
  resourceType : String
deriving DecidableEq

/-- The calls a listener can make on a request: `req.abort()` and `req.continue()`. -/
inductive Decision where
  | abort
  | resume
deriving DecidableEq

/-- Lines 186-189: the `blockedExtensions` array. -/
def blockedExtensions : List String :=
  [ ".zip", ".rar", ".pdf", ".exe", ".doc", ".xls",
    ".msi", ".dmg", ".iso", ".7z", ".tar", ".gz" ]

/-- Lines 193-204: the listener `setupRequestInterception` registers, as the list of
calls it makes on the request (`resume` stands for `req.continue()`). -/
def requestListener (req : Request) : List Decision :=
  let url := toLowerCase req.url
  let type := req.resourceType
  if ["image", "stylesheet", "font"].contains type ||
      blockedExtensions.any (fun ext => endsWith url ext) then
    [.abort]
  else
    [.resume]

/-- A page as far as request interception goes: whether interception is enabled and
the listeners registered for the `request` event, in the order registered. -/
structure Page where
  requestInterception : Bool
  listeners : List (Request → List Decision)

/-- The page `browser.newPage()` returns: interception off, no listener. -/
def newPage : Page :=
  { requestInterception := false, listeners := [] }

/-- Lines 185-205: `setupRequestInterception(page)`, given what
`page.setRequestInterception(true)` does. -/
def setupRequestInterception (setRequestInterception : Except String Unit) (page : Page) :
    Except String Page :=
  match setRequestInterception with
  | .error e => .error e
  | .ok _ =>
    .ok { requestInterception := true, listeners := page.listeners ++ [requestListener] }

/-- The `request` event of a page for one request: every registered listener is called
with it, in order; the result is the calls made on the request. -/
def emitRequest (page : Page) (req : Request) : List Decision :=
  (page.listeners.map fun listener => listener req).flatten

end ScannerAdd

/-! ## `src/trial-oldver/old-version-noproxy.js` -/

namespace OldVersionNoProxy

/-- The calls a run of `scanWithRetry` makes, in the order made. -/
inductive Call where
  | newPage
  | setRequestInterception
  | tryScan (url : String) (ignoreHTTPSErrors : Bool)
  | pageClose
  | launchBrowser
deriving DecidableEq

/-- The object `scanWithRetry` returns (line 204). -/
structure Result (φ : Type) where
  features : φ
  finalUrl : String
  sslBypassUsed : Nat
deriving DecidableEq

/-- Lines 179-185: the `versions` array. -/
def versions (originalUrl : String) : List Version :=
  [ { url := originalUrl, sslBypass := false },
    { url := jsReplace originalUrl "://www." "://", sslBypass := false },
    { url := originalUrl, sslBypass := true },
    { url := jsReplace originalUrl "://www." "://", sslBypass := true } ]

/-- Lines 194-204: the awaited statements of the `try` block of an attempt: the calls
made, whether `page` was assigned, and how the block ended. -/
def tryBlock {φ : Type} (a : AttemptWorld φ) (url : String) (sslBypass : Bool) :
    List Call × Bool × Except String φ :=
  match a.newPage with
  | .error e => ([.newPage], false, .error e)
  | .ok _ =>
    match a.setRequestInterception with
    | .error e => ([.newPage, .setRequestInterception], true, .error e)
    | .ok _ =>
      match a.tryScan with
      | .error e => ([.newPage, .setRequestInterception, .tryScan url sslBypass], true, .error e)
      | .ok features =>
        match a.pageClose with
        | .error e =>
          ([.newPage, .setRequestInterception, .tryScan url sslBypass, .pageClose], true,
            .error e)
        | .ok _ =>
          ([.newPage, .setRequestInterception, .tryScan url sslBypass, .pageClose], true,
            .ok features)

/-- Line 219: `if (page) await page.close().catch(() => {})`. -/
def finallyCalls (page : Bool) : List Call :=
  if page then [.pageClose] else []

/-- How the `for` loop of one pass ends: it ran off the end of `versions` or left by
`break` (with the calls made, the messages of the pass, the value of `retried` and the
number of attempts run so far), the function returned, or an error left it. -/
inductive Flow (φ : Type) where
  | ended (calls : List Call) (errorMsgs : List String) (retried : Bool) (k : Nat)
  | returned (calls : List Call) (result : Result φ)
  | raised (calls : List Call) (message : String)

/-- Lines 189-221: the `for` loop over `versions`; `w k` is what the k-th attempt of the
task does. A message that reports a closed connection, when `retried` is still false,
relaunches the browser, sets `retried` and leaves the loop by `break`. -/
def forLoop {φ : Type} (w : Nat → AttemptWorld φ) :
    List Version → Nat → Bool → List String → List Call → Flow φ
  | [], k, retried, errorMsgs, calls => .ended calls errorMsgs retried k
  | v :: vs, k, retried, errorMsgs, calls =>
    match tryBlock (w k) v.url v.sslBypass with
    | (tcalls, page, .ok features) =>
      .returned (calls ++ tcalls ++ finallyCalls page)
        { features := features, finalUrl := v.url,
          sslBypassUsed := if v.sslBypass then 1 else 0 }
    | (tcalls, page, .error message) =>
      let errorMsgs1 :=
        errorMsgs ++
          [(if v.sslBypass then "SSL Bypass" else "Try") ++ ": " ++ message ++ " at " ++ v.url]
      if !retried && jsIncludes message "Protocol error: Connection closed." then
        match (w k).launchBrowser with
        | .error e => .raised (calls ++ tcalls ++ [.launchBrowser] ++ finallyCalls page) e
        | .ok _ =>
          .ended (calls ++ tcalls ++ [.launchBrowser] ++ finallyCalls page) errorMsgs1 true
            (k + 1)
      else
        forLoop w vs (k + 1) retried errorMsgs1 (calls ++ tcalls ++ finallyCalls page)

/-- Lines 178-229: the `while (true)` loop, run for at most `fuel` passes. Each pass
starts with an empty `errorMsgs`; after the `for` loop the function raises when
`retried` is set, and otherwise sets it and starts the next pass. -/
def whileLoop {φ : Type} (w : Nat → AttemptWorld φ) (originalUrl : String) :
    Nat → Bool → Nat → List Call → Option (List Call × Except String (Result φ))
  | 0, _, _, _ => none
  | fuel + 1, retried, k, calls =>
    match forLoop w (versions originalUrl) k retried [] calls with
    | .returned calls1 r => some (calls1, .ok r)
    | .raised calls1 e => some (calls1, .error e)
    | .ended calls1 errorMsgs retried1 k1 =>
      if retried1 then some (calls1, .error (jsJoin " | " errorMsgs))
      else whileLoop w originalUrl fuel true k1 calls1

/-- Lines 175-230: `scanWithRetry(originalUrl)`; two passes are all the loop can make. -/
def scanWithRetry {φ : Type} (w : Nat → AttemptWorld φ) (originalUrl : String) :
    Option (List Call × Except String (Result φ)) :=
  whileLoop w originalUrl 2 false 0 []

/-- The number of attempts a run started. -/
def attemptsRun (calls : List Call) : Nat :=
  calls.count .newPage

end OldVersionNoProxy

/-! ## `src/trial-oldver/isolate.js` -/

namespace Isolate

/-- The calls the first loop of `scanWithRetry` makes, in the order made. -/
inductive Call where
  | newPage
  | setUserAgent (userAgent : String)
  | setRequestInterception
  | setBypassCSP
  | tryScan (url : String) (sslBypass : Bool) (userAgent : String)
  | pageClose
deriving DecidableEq

/-- What the awaited calls of one attempt do (lines 19-44). -/
structure Attempt (φ : Type) where
  newPage : Except String Unit
  setUserAgent : Except String Unit
  setRequestInterception : Except String Unit
  setBypassCSP : Except String Unit
  tryScan : Except String φ
  pageClose : Except String Unit

/-- The variables of the first loop, with the calls made so far. -/
structure State (φ : Type) where
  calls : List Call
  result : Option (ScanResult φ)
  errorMsgs : List String
  networkChangedRetries : Nat
deriving DecidableEq

/-- Lines 3-8: the `versions` array. -/
def versions (originalUrl : String) : List Version :=
  [ { url := originalUrl, sslBypass := false },
    { url := jsReplace originalUrl "://www." "://", sslBypass := false },
    { url := originalUrl, sslBypass := true },
    { url := jsReplace originalUrl "://www." "://", sslBypass := true } ]

/-- A run of the `try` block of an attempt (lines 19-45): the calls made, whether `page`
was assigned, the features if `tryScan` returned them (`result` is assigned before
`page.close()` is awaited), and the message of the error raised, if any. -/
structure TryRun (φ : Type) where
  calls : List Call
  page : Bool
  features : Option φ
  raised : Option String

/-- Lines 32-34: `if (sslBypass) await page.setBypassCSP(true)`. -/
def bypassCSP (setBypassCSP : Except String Unit) (sslBypass : Bool) :
    List Call × Option String :=
  if sslBypass then
    match setBypassCSP with
    | .error e => ([.setBypassCSP], some e)
    | .ok _ => ([.setBypassCSP], none)
  else ([], none)

/-- Lines 19-45: the `try` block of an attempt. -/
def tryBlock {φ : Type} (a : Attempt φ) (url : String) (sslBypass : Bool)
    (userAgent : String) : TryRun φ :=
  match a.newPage with
  | .error e => ⟨[.newPage], false, none, some e⟩
  | .ok _ =>
    match a.setUserAgent with
    | .error e => ⟨[.newPage, .setUserAgent userAgent], true, none, some e⟩
    | .ok _ =>
      match a.setRequestInterception with
      | .error e =>
        ⟨[.newPage, .setUserAgent userAgent, .setRequestInterception], true, none, some e⟩
      | .ok _ =>
        let c0 : List Call := [.newPage, .setUserAgent userAgent, .setRequestInterception]
        match bypassCSP a.setBypassCSP sslBypass with
        | (c1, some e) => ⟨c0 ++ c1, true, none, some e⟩
        | (c1, none) =>
          match a.tryScan with
          | .error e => ⟨c0 ++ c1 ++ [.tryScan url sslBypass userAgent], true, none, some e⟩
          | .ok features =>
            match a.pageClose with
            | .error e =>
              ⟨c0 ++ c1 ++ [.tryScan url sslBypass userAgent, .pageClose], true,
                some features, some e⟩
            | .ok _ =>
              ⟨c0 ++ c1 ++ [.tryScan url sslBypass userAgent, .pageClose], true,
                some features, none⟩

/-- Line 60: `if (page) await page.close().catch(() => {})`. -/
def finallyCalls (page : Bool) : List Call :=
  if page then [.pageClose] else []

/-- Lines 15-62: the loop `for (const { url, sslBypass } of versions)`; `w k` is what
the attempt of the k-th iteration does. A successful attempt leaves the loop by `break`.
In the `catch` block, the `continue` of line 53 ends the iteration: the `finally` block
runs and the loop goes on with the next element of `versions`, without recording a
message; otherwise the message is recorded and the loop goes on as well. -/
def forLoop {φ : Type} (w : Nat → Attempt φ) (userAgent : String) :
    List Version → Nat → State φ → State φ
  | [], _, st => st
  | v :: vs, k, st =>
    let t := tryBlock (w k) v.url v.sslBypass userAgent
    let result : Option (ScanResult φ) :=
      match t.features with
      | some features =>
        some { features := features, finalUrl := v.url,
               sslBypassUsed := if v.sslBypass then 1 else 0,
               usedProxy := false, userAgent := userAgent }
      | none => st.result
    let st1 : State φ :=
      { st with calls := st.calls ++ t.calls ++ finallyCalls t.page, result := result }
    match t.raised with
    | none => st1
    | some message =>
      if jsIncludes message "ERR_NETWORK_CHANGED" && decide (st.networkChangedRetries < 1) then
        forLoop w userAgent vs (k + 1)
          { st1 with networkChangedRetries := st1.networkChangedRetries + 1 }
      else
        forLoop w userAgent vs (k + 1)
          { st1 with errorMsgs := st1.errorMsgs ++
              ["- " ++ v.url ++ " " ++ (if v.sslBypass then "(bypass)" else "") ++ ": " ++
                message] }

/-- The `tryScan` calls among a list of calls, as (url, sslBypass) pairs in order. -/
def scanned : List Call → List (String × Bool)
  | [] => []
  | .tryScan url sslBypass _ :: cs => (url, sslBypass) :: scanned cs
  | .newPage :: cs => scanned cs
  | .setUserAgent _ :: cs => scanned cs
  | .setRequestInterception :: cs => scanned cs
  | .setBypassCSP :: cs => scanned cs
  | .pageClose :: cs => scanned cs

end Isolate

/-! ## `src/trial-oldver/trial.js` -/

namespace Trial

/-- Lines 193-198: the `proxyRetryErrors` array. -/
def proxyRetryErrors : List String :=
  [ "net::ERR_NAME_NOT_RESOLVED",
    "net::ERR_CONNECTION_TIMED_OUT",
    "net::ERR_CONNECTION_RESET",
    "net::ERR_CONNECTION_CLOSED" ]

/-- Lines 186-191: the `versions` array. -/
def versions (originalUrl : String) : List Version :=
  [ { url := originalUrl, sslBypass := false },
    { url := jsReplace originalUrl "://www." "://", sslBypass := false },
    { url := originalUrl, sslBypass := true },
    { url := jsReplace originalUrl "://www." "://", sslBypass := true } ]

/-- Lines 205-230: one iteration of the first loop of `scanWithRetry`. The `catch` block
records the message with the URL appended, relaunches the browser when the message
reports a closed connection, and sets `proxyNeeded` when the message matches the table;
it has no branch for a network change. -/
def directIteration {φ : Type} (a : AttemptWorld φ) (v : Version) (userAgent : String)
    (st : Scanner.TaskState) : Scanner.Flow φ :=
  let t := tryBlock a v.url v.sslBypass userAgent
  let st1 : Scanner.TaskState := { st with calls := st.calls ++ t.calls }
  match t.outcome with
  | .ok features =>
    .returned { st1 with calls := st1.calls ++ finallyCalls t.page }
      { features := features
        finalUrl := v.url
        sslBypassUsed := if v.sslBypass then 1 else 0
        usedProxy := false
        userAgent := userAgent }
  | .error message =>
    let st2 : Scanner.TaskState :=
      { st1 with errorMsgs := st1.errorMsgs ++
          [(if v.sslBypass then "SSL Bypass" else "Try") ++ ": " ++ message ++ " at " ++ v.url] }
    let mark (s : Scanner.TaskState) : Scanner.TaskState :=
      if proxyRetryErrors.any (fun e => jsIncludes message e) then
        { s with proxyNeeded := true }
      else s
    if jsIncludes message "Protocol error: Connection closed." then
      match a.launchBrowser with
      | .error e =>
        .raised { st2 with calls := st2.calls ++ [.launchBrowser] ++ finallyCalls t.page } e
      | .ok _ =>
        .next (mark { st2 with calls := st2.calls ++ [.launchBrowser] ++ finallyCalls t.page })
    else .next (mark { st2 with calls := st2.calls ++ finallyCalls t.page })

/-- Lines 204-231: the first loop of `scanWithRetry`; `k` is the index of the next
attempt. -/
def directLoop {φ : Type} (w : World φ) : List Version → Nat → Scanner.TaskState →
    Scanner.Flow φ
  | [], _, st => .next st
  | v :: vs, k, st =>
    match directIteration (w.direct k) v w.userAgent st with
    | .next st1 => directLoop w vs (k + 1) st1
    | .returned st1 r => .returned st1 r
    | .raised st1 e => .raised st1 e

end Trial

/-! ## `extractJsFeatures` of `src/scanner_add.js` -/

namespace ScannerAdd

/-- `s.length`: the number of UTF-16 code units of the string. -/
def jsLength (s : String) : Nat :=
  (s.data.map fun c => if c.toNat < 65536 then 1 else 2).sum

/-- Lines 52-58: `safeEval(fn, fallback)`, given what `page.evaluate(fn)` does. -/
def safeEval {α : Type} (evaluated : Except String α) (fallback : α) : α :=
  match evaluated with
  | .ok value => value
  | .error _ => fallback

/-- An element of the array the page returns for `document.scripts`: `s.src` and
`s.textContent`. -/
structure Script where
  src : String
  content : String
deriving DecidableEq

/-- What the environment does during one call of `extractJsFeatures`: the origin
`new URL(pageUrl).origin` yields (or the error it raises), the evaluation that collects
the scripts, the origin `new URL(script.src, pageUrl).origin` yields for a `src` (or the
error it raises), the evaluation that fetches the text for the script at a position, and
whether `shannonEntropy(content)` exceeds the threshold 4.3. -/
structure JsWorld where
  pageOrigin : Except String String
  scripts : Except String (List Script)
  scriptOrigin : String → Except String String
  fetched : Nat → Except String String
  entropyAbove : String → Bool

/-- The three counters of the loop. -/
structure JsCounts where
  js_len : Nat
  js_obf_len : Nat
  js_external_count : Nat
deriving DecidableEq

/-- The object `extractJsFeatures` returns. -/
structure JsFeatures where
  js_len : Int
  js_obf_len : Int
  js_external_count : Int
deriving DecidableEq

/-- Lines 144-152: the end of an iteration, reached with the final value of `content`:
an empty content is skipped, else its length is added to `js_len`, and to `js_obf_len`
as well when its entropy exceeds the threshold. -/
def countContent (w : JsWorld) (content : String) (acc : JsCounts) : JsCounts :=
  let len := jsLength content
  if len = 0 then acc
  else
    { acc with
      js_len := acc.js_len + len
      js_obf_len := if w.entropyAbove content then acc.js_obf_len + len else acc.js_obf_len }

/-- Lines 119-153: one iteration of the loop, for the script at position `i`. A script
with a `src` whose URL cannot be built is skipped by the `continue` of the inner `catch`;
one whose origin differs from the page's is counted as external and skipped; for one of
the same origin, `content` becomes what the guarded in-page fetch returned. -/
def scriptStep (w : JsWorld) (origin : String) (i : Nat) (script : Script)
    (acc : JsCounts) : JsCounts :=
  if script.src ≠ "" then
    match w.scriptOrigin script.src with
    | .error _ => acc
    | .ok scriptOrigin =>
      if scriptOrigin ≠ origin then
        { acc with js_external_count := acc.js_external_count + 1 }
      else countContent w (safeEval (w.fetched i) "") acc
  else countContent w script.content acc

/-- Lines 119-153: the loop `for (const script of scripts)`, from position `i` on. -/
def scanScripts (w : JsWorld) (origin : String) : Nat → List Script → JsCounts → JsCounts
  | _, [], acc => acc
  | i, script :: rest, acc => scanScripts w origin (i + 1) rest (scriptStep w origin i script acc)

/-- Lines 98-169: `extractJsFeatures(page, pageUrl)`. An error raised by
`new URL(pageUrl)` is caught by the outer `catch`, which returns the three sentinels. -/
def extractJsFeatures (w : JsWorld) : JsFeatures :=
  match w.pageOrigin with
  | .error _ => { js_len := -1, js_obf_len := -1, js_external_count := -1 }
  | .ok origin =>
    let scripts := safeEval w.scripts []
    let counts := scanScripts w origin 0 scripts
      { js_len := 0, js_obf_len := 0, js_external_count := 0 }
    { js_len := counts.js_len, js_obf_len := counts.js_obf_len,
      js_external_count := counts.js_external_count }

/-- Whether the loop skips a script as cross-origin: it has a `src`, the URL of the
`src` can be built, and its origin is not the page's. -/
def skippedCrossOrigin (w : JsWorld) (origin : String) (script : Script) : Bool :=
  script.src != "" &&
    match w.scriptOrigin script.src with
    | .ok scriptOrigin => scriptOrigin != origin
    | .error _ => false

/-- Whether the loop skips a script because the URL of its `src` cannot be built. -/
def skippedUnparsable (w : JsWorld) (script : Script) : Bool :=
  script.src != "" &&
    match w.scriptOrigin script.src with
    | .ok _ => false
    | .error _ => true

/-- The content of the script at position `i` as the loop holds it in `content`: the
fetched text for a same-origin script with a `src`, else the script's own text. -/
def contentOf (w : JsWorld) (origin : String) (i : Nat) (script : Script) : String :=
  if script.src ≠ "" then
    match w.scriptOrigin script.src with
    | .ok scriptOrigin =>
      if scriptOrigin = origin then safeEval (w.fetched i) "" else script.content
    | .error _ => script.content
  else script.content

/-- The sum of the content lengths of the scripts that `keep` selects, the first script
of the list being at position `i`. -/
def summedLength (w : JsWorld) (origin : String) (keep : Script → Bool) :
    Nat → List Script → Nat
  | _, [] => 0
  | i, script :: rest =>
    (if keep script then jsLength (contentOf w origin i script) else 0) +
      summedLength w origin keep (i + 1) rest

end ScannerAdd

/-! ## `src/trial-oldver/new-version-proxy.js` -/

namespace NewVersionProxy

/-- The calls a run of `scanWithRetry` makes, in the order made: `launchProxyBrowser()`,
`tryScan(currentBrowser, url, sslBypass, userAgent)` (with whether the browser is the
proxy one), `localBrowser.close()`, `launchDefaultBrowser()`, and the two `console.warn`
calls that open the relaunch block (line 238) and the proxy block (line 246). -/
inductive Call where
  | launchProxyBrowser
  | tryScan (url : String) (sslBypass : Bool) (userAgent : String) (proxied : Bool)
  | closeLocalBrowser
  | launchDefaultBrowser
  | warnRelaunch (url : String)
  | warnProxy (url : String)
deriving DecidableEq

/-- Whether a call is the `console.warn` of line 246, the first statement of the block
that sets `usedProxy` and resets `attemptCount`. -/
def Call.isWarnProxy : Call → Bool
  | .warnProxy _ => true
  | _ => false

/-- What one iteration of the loop meets: the string `new UserAgent().toString()`
yields (line 224) and what the awaited calls do. -/
structure Attempt (φ : Type) where
  userAgent : String
  launchProxyBrowser : Except String Unit
  tryScan : Except String φ
  closeLocalBrowser : Except String Unit
  launchDefaultBrowser : Except String Unit

/-- The variables of a running `scanWithRetry` (lines 216-220), with the calls made so
far and the number of iterations of the loop begun so far; each iteration is one
attempt, and the number indexes what the attempts meet. -/
structure State where
  calls : List Call
  stealthConfigured : Bool
  retried : Bool
  usedProxy : Bool
  errorMsgs : List String
  attemptCount : Nat
  iterations : Nat
deriving DecidableEq

/-- How an iteration ends: control goes back to the loop condition, the function
returns an object, or an error leaves the function. -/
inductive Flow (φ : Type) where
  | next (st : State)
  | returned (st : State) (result : ScanResult φ)
  | raised (st : State) (message : String)

/-- Lines 202-207: the `versions` array. -/
def versions (originalUrl : String) : List Version :=
  [ { url := originalUrl, sslBypass := false },
    { url := jsReplace originalUrl "://www." "://", sslBypass := false },
    { url := originalUrl, sslBypass := true },
    { url := jsReplace originalUrl "://www." "://", sslBypass := true } ]

/-- Lines 209-214: the `proxyRetryErrors` array. -/
def proxyRetryErrors : List String :=
  [ "net::ERR_NAME_NOT_RESOLVED",
    "net::ERR_CONNECTION_TIMED_OUT",
    "net::ERR_CONNECTION_RESET",
    "net::ERR_CONNECTION_CLOSED" ]

/-- Lines 228-231: the awaited statements of the `try` block: the calls made, whether
`localBrowser` was assigned, and how the block ended. -/
def tryBlock {φ : Type} (a : Attempt φ) (v : Version) (usedProxy : Bool) :
    List Call × Bool × Except String φ :=
  if usedProxy then
    match a.launchProxyBrowser with
    | .error e => ([.launchProxyBrowser], false, .error e)
    | .ok _ =>
      match a.tryScan with
      | .error e =>
        ([.launchProxyBrowser, .tryScan v.url v.sslBypass a.userAgent true], true, .error e)
      | .ok features =>
        match a.closeLocalBrowser with
        | .error e =>
          ([.launchProxyBrowser, .tryScan v.url v.sslBypass a.userAgent true,
            .closeLocalBrowser], true, .error e)
        | .ok _ =>
          ([.launchProxyBrowser, .tryScan v.url v.sslBypass a.userAgent true,
            .closeLocalBrowser], true, .ok features)
  else
    match a.tryScan with
    | .error e => ([.tryScan v.url v.sslBypass a.userAgent false], false, .error e)
    | .ok features => ([.tryScan v.url v.sslBypass a.userAgent false], false, .ok features)

/-- Lines 260-262: the `finally` block; `localBrowser` is set only when `usedProxy` was
already true in the `try` block. -/
def finallyCalls (localBrowser : Bool) : List Call :=
  if localBrowser then [.closeLocalBrowser] else []

/-- Lines 223-263: one iteration of the loop, for the entry `v = versions[attemptCount]`
read at line 223, where `attemptCount` is incremented. -/
def iteration {φ : Type} (a : Attempt φ) (v : Version) (st : State) : Flow φ :=
  let st1 : State :=
    { st with attemptCount := st.attemptCount + 1, iterations := st.iterations + 1 }
  match tryBlock a v st.usedProxy with
  | (tcalls, localBrowser, .ok features) =>
    .returned { st1 with calls := st1.calls ++ tcalls ++ finallyCalls localBrowser }
      { features := features
        finalUrl := v.url
        sslBypassUsed := if v.sslBypass then 1 else 0
        usedProxy := st.usedProxy
        userAgent := a.userAgent }
  | (tcalls, localBrowser, .error message) =>
    let st2 : State :=
      { st1 with
        calls := st1.calls ++ tcalls
        errorMsgs := st1.errorMsgs ++
          [(if v.sslBypass then "SSL Bypass" else "Try") ++ ": " ++ message ++ " at " ++ v.url] }
    if !st2.retried && jsIncludes message "Protocol error: Connection closed." then
      match a.launchDefaultBrowser with
      | .error e =>
        .raised
          { st2 with calls := st2.calls ++ [.warnRelaunch v.url, .launchDefaultBrowser] ++
              finallyCalls localBrowser } e
      | .ok _ =>
        .next
          { st2 with
            calls := st2.calls ++ [.warnRelaunch v.url, .launchDefaultBrowser] ++
              finallyCalls localBrowser
            retried := true }
    else if !st2.usedProxy && proxyRetryErrors.any (fun msg => jsIncludes message msg) then
      .next
        { st2 with
          calls := st2.calls ++ [.warnProxy v.url] ++ finallyCalls localBrowser
          stealthConfigured := true
          usedProxy := true
          attemptCount := 0 }
    else
      .next { st2 with calls := st2.calls ++ finallyCalls localBrowser }

/-- Lines 222-266: the loop `while (attemptCount < versions.length)` and the `throw`
after it, run for at most `fuel` evaluations of the loop condition; `w k` is what the
k-th iteration meets. -/
def whileLoop {φ : Type} (w : Nat → Attempt φ) (versions : List Version) :
    Nat → State → Option (State × Except String (ScanResult φ))
  | 0, _ => none
  | fuel + 1, st =>
    match versions[st.attemptCount]? with
    | none => some (st, .error (jsJoin " | " st.errorMsgs))
    | some v =>
      match iteration (w st.iterations) v st with
      | .next st1 => whileLoop w versions fuel st1
      | .returned st1 r => some (st1, .ok r)
      | .raised st1 e => some (st1, .error e)

/-- The variables when the loop is first reached (lines 216-220). -/
def initial : State :=
  { calls := [], stealthConfigured := false, retried := false, usedProxy := false,
    errorMsgs := [], attemptCount := 0, iterations := 0 }

/-- Lines 200-267: `scanWithRetry(originalUrl)`. Nine evaluations of the loop condition
are all a run can make. -/
def scanWithRetry {φ : Type} (w : Nat → Attempt φ) (originalUrl : String) :
    Option (State × Except String (ScanResult φ)) :=
  whileLoop w (versions originalUrl) 9 initial

/-- How many times a run entered the block that resets `attemptCount`. -/
def resets (calls : List Call) : Nat :=
  (calls.filter Call.isWarnProxy).length

/-- The bound on the iterations still to come: those left in the current round, and a
whole further round while the proxy has not been switched to. -/
def remaining (versions : List Version) (st : State) : Nat :=
  (if st.usedProxy then 0 else versions.length) + (versions.length - st.attemptCount)

end NewVersionProxy

/-! ## Sample worlds -/

namespace Sample

/-- An attempt in which every awaited call returns and `tryScan` yields `f`. -/
def succeeding {φ : Type} (f : φ) : AttemptWorld φ :=
  { newPage := .ok (), setRequestInterception := .ok (), tryScan := .ok f,
    pageClose := .ok (), launchBrowser := .ok () }

/-- An attempt in which `tryScan` raises an error with the given message, while the
other calls return. -/
def failing {φ : Type} (message : String) : AttemptWorld φ :=
  { newPage := .ok (), setRequestInterception := .ok (), tryScan := .error message,
    pageClose := .ok (), launchBrowser := .ok () }

/-- An attempt in which `tryScan` raises an error with the given message and the
`launchBrowser()` of the `catch` block raises as well. -/
def failingRelaunch {φ : Type} (message launchMessage : String) : AttemptWorld φ :=
  { newPage := .ok (), setRequestInterception := .ok (), tryScan := .error message,
    pageClose := .ok (), launchBrowser := .error launchMessage }

/-- A task whose first three direct attempts are reset by the peer and whose fourth
direct attempt succeeds. -/
def fourthSucceeds : World Nat :=
  { userAgent := "Mozilla/5.0"
    direct := fun k =>
      if k < 3 then failing "net::ERR_CONNECTION_RESET at http://www.example.com"
      else succeeding 7
    proxy := fun _ => failing "net::ERR_TIMED_OUT" }

/-- A task all of whose direct attempts are reset by the peer and all of whose proxy
attempts time out. -/
def allFail : World Nat :=
  { userAgent := "Mozilla/5.0"
    direct := fun _ => failing "net::ERR_CONNECTION_RESET at http://www.example.com"
    proxy := fun _ => failing "net::ERR_TIMED_OUT at http://api.scraperapi.com" }

/-- A task whose first direct attempt finds the browser connection closed, and in
which the browser cannot be launched again. -/
def relaunchFails : World Nat :=
  { userAgent := "Mozilla/5.0"
    direct := fun _ =>
      failingRelaunch "Protocol error: Connection closed." "Failed to launch the browser process!"
    proxy := fun _ => failing "net::ERR_TIMED_OUT" }

/-- A task all of whose direct attempts are reset by the peer and all of whose proxy
attempts load the page and extract features. -/
def proxyWorks {φ : Type} (f : φ) : World φ :=
  { userAgent := "Mozilla/5.0"
    direct := fun _ => failing "net::ERR_CONNECTION_RESET at http://www.example.com"
    proxy := fun _ => succeeding f }

/-- A feature object, as `getDomFeatures` returns it for a small page. -/
def features : Scanner.Features :=
  { totalNodes := 42, uniqueTags := 9, inlineEventHandlers := 0, javascriptHref := 0,
    loginFormCount := 1, passwordFieldCount := 1, externalFormActionBinary := 0,
    externalFormActionNonBinary := 0, suspiciousKeywords := 0, hiddenIframeCount := 0,
    suspiciousScriptTags := 0, metaTagCount := 3, externalScriptCount := 1,
    inlineScriptCount := 1, externalLinkCount := 2, embeddedObjectCount := 0,
    suspiciousInlineStyleCount := 0, suspiciousLinkCount := 0, scriptCount := 2,
    linkCount := 5, iframeCount := 0, formCount := 1, navigatedFrameCount := 0,
    externalFrameCount := 0, hasSuspiciousFrameUrl := 0 }

/-- A batch in which the browser launches, every task behaves like `proxyWorks`, the
tasks end in the order of the input, and the CSV file is written. -/
def proxyBatch : Scanner.BatchWorld :=
  { launchBrowser := .ok ()
    task := fun _ => proxyWorks features
    completion := [0]
    writeResultsToCsv := .ok () }

/-- A batch of two tasks: the first succeeds at its first attempt, every direct attempt
of the second finds the connection closed and the browser cannot be launched again; the
second task ends before the first. -/
def mixedBatch : Scanner.BatchWorld :=
  { launchBrowser := .ok ()
    task := fun i =>
      if i = 0 then
        { userAgent := "Mozilla/5.0"
          direct := fun _ => succeeding features
          proxy := fun _ => failing "net::ERR_TIMED_OUT" }
      else
        { userAgent := "Mozilla/5.0"
          direct := fun _ =>
            failingRelaunch "Protocol error: Connection closed."
              "Failed to launch the browser process!"
          proxy := fun _ => failing "net::ERR_TIMED_OUT" }
    completion := [1, 0]
    writeResultsToCsv := .ok () }

/-- A page on which every call returns and the evaluations yield the values of
`features`. -/
def page : Scanner.PageWorld :=
  { createCDPSession := .ok (), setIgnoreCertificateErrors := .ok (), isClosed := false,
    setUserAgent := .ok (), setViewport := .ok (), setExtraHTTPHeaders := .ok (),
    setJavaScriptEnabled := .ok (), gotoPrimary := .ok (), gotoFallback := .ok ()
    tagCounts := .ok { totalNodes := 42, uniqueTags := 9 }
    inlineJS := .ok { inlineEventHandlers := 0, javascriptHref := 0 }
    loginForms := .ok { loginFormCount := 1, passwordFieldCount := 1, externalFormActionBinary := 0, externalFormActionNonBinary := 0 }
    suspiciousKeywords := .ok { suspiciousKeywords := 0 }
    hiddenIframes := .ok { hiddenIframeCount := 0 }
    suspiciousScripts := .ok { suspiciousScriptTags := 0 }
    otherFeatures := .ok { metaTagCount := 3, externalScriptCount := 1, inlineScriptCount := 1, externalLinkCount := 2, embeddedObjectCount := 0, suspiciousInlineStyleCount := 0, suspiciousLinkCount := 0, scriptCount := 2, linkCount := 5, iframeCount := 0, formCount := 1 }
    frameNavigationFeatures := .ok { navigatedFrameCount := 0, externalFrameCount := 0, hasSuspiciousFrameUrl := 0 } }

/-- A page that loads, but on which every `page.evaluate` raises. -/
def pageNoEval : Scanner.PageWorld :=
  { createCDPSession := .ok (), setIgnoreCertificateErrors := .ok (), isClosed := false,
    setUserAgent := .ok (), setViewport := .ok (), setExtraHTTPHeaders := .ok (),
    setJavaScriptEnabled := .ok (), gotoPrimary := .ok (), gotoFallback := .ok ()
    tagCounts := .error "Execution context was destroyed."
    inlineJS := .error "Execution context was destroyed."
    loginForms := .error "Execution context was destroyed."
    suspiciousKeywords := .error "Execution context was destroyed."
    hiddenIframes := .error "Execution context was destroyed."
    suspiciousScripts := .error "Execution context was destroyed."
    otherFeatures := .error "Execution context was destroyed."
    frameNavigationFeatures := .error "Execution context was destroyed." }

/-- A page on which both navigations time out. -/
def pageNoNavigation : Scanner.PageWorld :=
  { page with
    gotoPrimary := .error "Navigation timeout of 120000 ms exceeded"
    gotoFallback := .error "net::ERR_CONNECTION_REFUSED at https://www.example.com" }

/-- A page whose target is gone: no CDP session can be created for it. -/
def pageNoSession : Scanner.PageWorld :=
  { page with createCDPSession := .error "Protocol error (Target.attachToTarget): Target closed." }

/-- The feature object in which every property has the fallback value. -/
def allFallback : Scanner.Features :=
  { totalNodes := -1, uniqueTags := -1, inlineEventHandlers := -1, javascriptHref := -1, loginFormCount := -1, passwordFieldCount := -1, externalFormActionBinary := -1, externalFormActionNonBinary := -1, suspiciousKeywords := -1, hiddenIframeCount := -1, suspiciousScriptTags := -1, metaTagCount := -1, externalScriptCount := -1, inlineScriptCount := -1, externalLinkCount := -1, embeddedObjectCount := -1, suspiciousInlineStyleCount := -1, suspiciousLinkCount := -1, scriptCount := -1, linkCount := -1, iframeCount := -1, formCount := -1, navigatedFrameCount := -1, externalFrameCount := -1, hasSuspiciousFrameUrl := -1 }

/-- A task whose attempts open a page, install the filter and call `tryScan` on the page
`p` with the arguments of the planned version of `originalUrl`. -/
def onPage (p : Scanner.PageWorld) (originalUrl : String) : World Scanner.Features :=
  { userAgent := "Mozilla/5.0"
    direct := fun k =>
      match (Scanner.versions originalUrl)[k]? with
      | some v =>
        { newPage := .ok (), setRequestInterception := .ok (),
          tryScan := (Scanner.tryScan p v.url v.sslBypass "Mozilla/5.0").2,
          pageClose := .ok (), launchBrowser := .ok () }
      | none => failing "no such attempt"
    proxy := fun _ => failing "net::ERR_TIMED_OUT" }

/-- A page on which both navigations run into the navigation timeout. -/
def pageTimeout : Scanner.PageWorld :=
  { page with
    gotoPrimary := .error "Navigation timeout of 120000 ms exceeded"
    gotoFallback := .error "Navigation timeout of 120000 ms exceeded" }

/-- A task all of whose direct attempts are reset by the peer and all of whose proxy
attempts find the connection to the browser closed. -/
def proxyConnectionClosed : World Nat :=
  { userAgent := "Mozilla/5.0"
    direct := fun _ => failing "net::ERR_CONNECTION_RESET at http://www.example.com"
    proxy := fun _ => failing "Protocol error: Connection closed." }

/-- A task whose first direct attempt is reset by the peer, whose next two time out,
and whose fourth finds the connection closed while the browser cannot be launched
again. -/
def fourthRelaunchFails : World Nat :=
  { userAgent := "Mozilla/5.0"
    direct := fun k =>
      if k = 0 then failing "net::ERR_CONNECTION_RESET at http://www.example.com"
      else if k < 3 then failing "Navigation timeout of 120000 ms exceeded"
      else
        failingRelaunch "Protocol error: Connection closed."
          "Failed to launch the browser process!"
    proxy := fun _ => succeeding 7 }

/-- A task all of whose direct attempts fail to resolve the host name. -/
def nameNotResolved : World Nat :=
  { userAgent := "Mozilla/5.0"
    direct := fun _ => failing "net::ERR_NAME_NOT_RESOLVED at http://www.gone.example"
    proxy := fun _ => succeeding 7 }

/-- A task whose first attempt finds the connection to the browser closed, while the
browser launches again and every later attempt would succeed. -/
def closedThenFine : Nat → AttemptWorld Nat :=
  fun k => if k = 0 then failing "Protocol error: Connection closed." else succeeding 7

/-- A task all of whose attempts are refused. -/
def allRefused : Nat → AttemptWorld Nat :=
  fun _ => failing "net::ERR_CONNECTION_REFUSED"

/-- A task of isolate.js whose first attempt meets a network change and whose later
attempts time out. -/
def networkChanged : Nat → Isolate.Attempt Nat :=
  fun k =>
    { newPage := .ok (), setUserAgent := .ok (), setRequestInterception := .ok (),
      setBypassCSP := .ok (),
      tryScan :=
        if k = 0 then .error "net::ERR_NETWORK_CHANGED at http://www.example.com"
        else .error "Navigation timeout of 45000 ms exceeded",
      pageClose := .ok () }

/-- A task whose first direct attempt meets a network change and whose later attempts
time out. -/
def networkChangedDirect : World Nat :=
  { userAgent := "Mozilla/5.0"
    direct := fun k =>
      if k = 0 then failing "net::ERR_NETWORK_CHANGED at http://www.example.com"
      else failing "Navigation timeout of 45000 ms exceeded"
    proxy := fun _ => failing "net::ERR_TIMED_OUT" }

/-- The `tryScan` calls among a list of calls, as (url, sslBypass) pairs in order. -/
def scanned : List Call → List (String × Bool)
  | [] => []
  | .tryScan url sslBypass _ :: cs => (url, sslBypass) :: scanned cs
  | .newPage :: cs => scanned cs
  | .setRequestInterception :: cs => scanned cs
  | .pageClose :: cs => scanned cs
  | .launchBrowser :: cs => scanned cs
  | .proxyLimit :: cs => scanned cs

/-- A page at `https://example.com` with one script, `<script src="http://">abc</script>`:
the URL of its `src` cannot be built. -/
def unparsableSrc : ScannerAdd.JsWorld :=
  { pageOrigin := .ok "https://example.com"
    scripts := .ok [{ src := "http://", content := "abc" }]
    scriptOrigin := fun _ => .error "Invalid URL"
    fetched := fun _ => .ok ""
    entropyAbove := fun _ => false }

/-- A page at `https://example.com` with an inline script, a script of another origin
and a script of its own origin whose fetched text is `let a=1;`. -/
def threeScripts : ScannerAdd.JsWorld :=
  { pageOrigin := .ok "https://example.com"
    scripts := .ok
      [ { src := "", content := "var x;" },
        { src := "https://cdn.example.net/lib.js", content := "" },
        { src := "https://example.com/app.js", content := "" } ]
    scriptOrigin := fun src =>
      if jsStartsWith src "https://example.com/" then .ok "https://example.com"
      else .ok "https://cdn.example.net"
    fetched := fun _ => .ok "let a=1;"
    entropyAbove := fun content => content == "let a=1;" }

/-- A task of new-version-proxy.js whose first three attempts time out, whose fourth is
reset by the peer, and whose attempts through the proxy all time out. -/
def resetAtFourth : Nat → NewVersionProxy.Attempt Nat :=
  fun k =>
    { userAgent := "Mozilla/5.0"
      launchProxyBrowser := .ok ()
      tryScan :=
        if k = 3 then .error "net::ERR_CONNECTION_RESET"
        else .error "Navigation timeout of 45000 ms exceeded"
      closeLocalBrowser := .ok ()
      launchDefaultBrowser := .ok () }

end Sample

/-! # Properties -/

/-! ## Facts about the string primitives -/

theorem isPrefixOf_append_iff (p q s : List Char) :
    (p ++ q).isPrefixOf s = true ↔ p.isPrefixOf s = true ∧ q.isPrefixOf (s.drop p.length) = true := by
  simp only [List.isPrefixOf_iff_prefix]
  constructor
  · rintro ⟨t, rfl⟩
    refine ⟨⟨q ++ t, by simp⟩, ⟨t, ?_⟩⟩
    simp
  · rintro ⟨⟨t, rfl⟩, h⟩
    simp only [List.drop_left] at h
    obtain ⟨r, rfl⟩ := h
    exact ⟨r, by simp⟩

theorem indexOfChars_eq_none_iff (pat s : List Char) :
    indexOfChars pat s = none ↔ includesChars pat s = false := by
  induction s with
  | nil => cases pat <;> simp [indexOfChars, includesChars, List.isPrefixOf]
  | cons c cs ih =>
    by_cases h : pat.isPrefixOf (c :: cs) = true
    · simp [indexOfChars, includesChars, h]
    · simp [indexOfChars, includesChars, h, ih]

theorem replaceFirst_of_not_includes (pat rep s : List Char)
    (h : includesChars pat s = false) : replaceFirst pat rep s = s := by
  induction s with
  | nil =>
    simp only [includesChars] at h
    simp [replaceFirst, h]
  | cons c cs ih =>
    simp only [includesChars, Bool.or_eq_false_iff] at h
    simp [replaceFirst, h.1, ih h.2]

theorem replaceFirst_of_indexOf (pat rep : List Char) :
    ∀ (s : List Char) (i : Nat), indexOfChars pat s = some i →
      replaceFirst pat rep s = s.take i ++ rep ++ s.drop (i + pat.length) ∧
        i + pat.length ≤ s.length := by
  intro s
  induction s with
  | nil =>
    intro i h
    by_cases hp : pat.isPrefixOf [] = true
    · have hpat : pat = [] := by
        rw [List.isPrefixOf_iff_prefix] at hp
        exact List.prefix_nil.mp hp
      subst hpat
      simp [indexOfChars] at h
      subst h
      simp [replaceFirst]
    · simp [indexOfChars, hp] at h
  | cons c cs ih =>
    intro i h
    by_cases hp : pat.isPrefixOf (c :: cs) = true
    · simp only [indexOfChars, hp, if_true, Option.some.injEq] at h
      subst h
      have hlen : pat.length ≤ (c :: cs).length :=
        (List.isPrefixOf_iff_prefix.mp hp).length_le
      simp [replaceFirst, hp]
      simpa using hlen
    · simp only [indexOfChars, hp, Bool.false_eq_true, if_false, Option.map_eq_some'] at h
      obtain ⟨j, hj, rfl⟩ := h
      obtain ⟨h1, h2⟩ := ih j hj
      refine ⟨?_, ?_⟩
      · simp [replaceFirst, hp, h1, Nat.add_right_comm j 1]
      · simp only [List.length_cons]; omega

theorem indexOfChars_append (p q : List Char) :
    ∀ (s : List Char) (j : Nat), indexOfChars p s = some j →
      q.isPrefixOf (s.drop (j + p.length)) = true → indexOfChars (p ++ q) s = some j := by
  intro s
  induction s with
  | nil =>
    intro j h hq
    by_cases hp : p.isPrefixOf [] = true
    · simp only [indexOfChars, hp, if_true, Option.some.injEq] at h
      subst h
      have : (p ++ q).isPrefixOf [] = true := by
        rw [isPrefixOf_append_iff]; exact ⟨hp, by simpa using hq⟩
      simp [indexOfChars, this]
    · simp [indexOfChars, hp] at h
  | cons c cs ih =>
    intro j h hq
    by_cases hp : p.isPrefixOf (c :: cs) = true
    · simp only [indexOfChars, hp, if_true, Option.some.injEq] at h
      subst h
      have : (p ++ q).isPrefixOf (c :: cs) = true := by
        rw [isPrefixOf_append_iff]; exact ⟨hp, by simpa using hq⟩
      simp [indexOfChars, this]
    · simp only [indexOfChars, hp, Bool.false_eq_true, if_false, Option.map_eq_some'] at h
      obtain ⟨i, hi, rfl⟩ := h
      have hnot : ¬ (p ++ q).isPrefixOf (c :: cs) = true := by
        rw [isPrefixOf_append_iff]; exact fun h => hp h.1
      have hq' : q.isPrefixOf (cs.drop (i + p.length)) = true := by
        have : i + 1 + p.length = (i + p.length) + 1 := by omega
        rw [this] at hq
        simpa using hq
      simp [indexOfChars, hnot, ih i hi hq']

theorem includesChars_of_indexOf (pat : List Char) (s : List Char) (i : Nat)
    (h : indexOfChars pat s = some i) : includesChars pat s = true := by
  by_contra hc
  have : includesChars pat s = false := by simpa using hc
  rw [← indexOfChars_eq_none_iff] at this
  rw [this] at h
  cases h

theorem replaceFirst_eq_self_iff (pat rep s : List Char) (hlen : pat.length ≠ rep.length) :
    replaceFirst pat rep s = s ↔ includesChars pat s = false := by
  constructor
  · intro h
    by_contra hc
    have hinc : includesChars pat s = true := by simpa using hc
    cases hi : indexOfChars pat s with
    | none =>
      rw [indexOfChars_eq_none_iff] at hi
      rw [hi] at hinc
      cases hinc
    | some i =>
      obtain ⟨h1, h2⟩ := replaceFirst_of_indexOf pat rep s i hi
      have := congrArg List.length (h1.symm.trans h)
      simp only [List.length_append, List.length_take, List.length_drop] at this
      omega
  · exact replaceFirst_of_not_includes pat rep s

/-- The pattern `'://www.'` and its replacement `'://'`, as character lists. -/
theorem wwwPattern_data : "://www.".data = [':', '/', '/', 'w', 'w', 'w', '.'] := by decide

theorem schemeSep_data : "://".data = [':', '/', '/'] := by decide

theorem wwwLabel_data : "www.".data = ['w', 'w', 'w', '.'] := by decide

/-- Removing the `www.` of the first `://www.` leaves no `://www.` behind when the text
after it neither starts with `www.` nor contains `://www.`. -/
theorem not_includes_after_strip (a b : List Char)
    (hfirst : indexOfChars "://www.".data (a ++ "://www.".data ++ b) = some a.length)
    (hw : "www.".data.isPrefixOf b = false)
    (hb : includesChars "://www.".data b = false) :
    includesChars "://www.".data (a ++ "://".data ++ b) = false := by
  rw [wwwPattern_data] at hfirst hb ⊢
  rw [wwwLabel_data] at hw
  rw [schemeSep_data]
  induction a with
  | nil =>
    simp [includesChars, List.isPrefixOf, hw, hb]
  | cons c a ih =>
    simp only [List.cons_append, List.append_assoc, List.nil_append, indexOfChars,
      List.length_cons] at hfirst
    split at hfirst
    · simp at hfirst
    · rename_i hp
      simp only [Option.map_eq_some', Nat.add_right_cancel_iff, exists_eq_right] at hfirst
      have ih' := ih (by simpa using hfirst)
      simp only [List.cons_append, List.append_assoc, List.nil_append, includesChars,
        Bool.or_eq_false_iff]
      refine ⟨?_, by simpa using ih'⟩
      rcases a with _ | ⟨x, _ | ⟨y, _ | ⟨z, rest⟩⟩⟩
      · simp [List.isPrefixOf]
      · simp [List.isPrefixOf]
      · simp [List.isPrefixOf]
      · rcases rest with _ | ⟨r1, _ | ⟨r2, _ | ⟨r3, rest⟩⟩⟩ <;>
          first | (simp [List.isPrefixOf]; done) | (simp [List.isPrefixOf] at hp ⊢; tauto)

theorem split_of_indexOf (pat : List Char) :
    ∀ (s : List Char) (i : Nat), indexOfChars pat s = some i →
      s = s.take i ++ pat ++ s.drop (i + pat.length) := by
  intro s
  induction s with
  | nil =>
    intro i h
    cases pat with
    | nil => simp
    | cons p ps => simp [indexOfChars, List.isPrefixOf] at h
  | cons c cs ih =>
    intro i h
    simp only [indexOfChars] at h
    split at h
    · rename_i hp
      simp only [Option.some.injEq] at h
      subst h
      obtain ⟨t, ht⟩ := List.isPrefixOf_iff_prefix.mp hp
      rw [← ht]
      simp
    · simp only [Option.map_eq_some'] at h
      obtain ⟨j, hj, rfl⟩ := h
      have := ih j hj
      have e : j + 1 + pat.length = (j + pat.length) + 1 := by omega
      rw [e]
      simp only [List.take_succ_cons, List.drop_succ_cons, List.cons_append, List.append_assoc]
      rw [List.append_assoc] at this
      exact congrArg (List.cons c) this

/-! ## The attempt plan and www-stripping (C6, C7, C8) -/

theorem baseUrl_data (u : String) :
    (Scanner.baseUrl u).data = replaceFirst "://www.".data "://".data u.data := rfl

theorem baseUrl_eq_self_iff (u : String) :
    Scanner.baseUrl u = u ↔ jsIncludes u "://www." = false := by
  rw [String.ext_iff, baseUrl_data]
  exact replaceFirst_eq_self_iff _ _ _ (by decide)

/-- C6: the direct plan of `scanWithRetry` is the four entries (u, no bypass),
(strip u, no bypass), (u, bypass), (strip u, bypass) in this order, with
strip u = `u.replace('://www.', '://')`; it depends on u alone, and when strip u = u the
first two and the last two entries coincide and all four are still there. -/
theorem versions_plan (u : String) :
    Scanner.versions u =
        [ { url := u, sslBypass := false },
          { url := jsReplace u "://www." "://", sslBypass := false },
          { url := u, sslBypass := true },
          { url := jsReplace u "://www." "://", sslBypass := true } ] ∧
      (Scanner.versions u).length = 4 ∧
      (∀ u' : String, u' = u → Scanner.versions u' = Scanner.versions u) ∧
      (jsReplace u "://www." "://" = u →
        Scanner.versions u =
          [ { url := u, sslBypass := false }, { url := u, sslBypass := false },
            { url := u, sslBypass := true }, { url := u, sslBypass := true } ]) := by
  refine ⟨rfl, rfl, ?_, ?_⟩
  · rintro u' rfl
    rfl
  · intro h
    simp [Scanner.versions, Scanner.baseUrl, h]

/-- C6 at `http://example.com`, which has no `www.` to strip. -/
theorem versions_plan_witness :
    Scanner.versions "http://example.com" =
      [ { url := "http://example.com", sslBypass := false },
        { url := "http://example.com", sslBypass := false },
        { url := "http://example.com", sslBypass := true },
        { url := "http://example.com", sslBypass := true } ] :=
  (versions_plan "http://example.com").2.2.2 (by decide)

/-- C7 (as stated, refuted): stripping `http://www.www.a.com` once gives
`http://www.a.com`, stripping that again gives `http://a.com`. -/
theorem baseUrl_not_idempotent :
    Scanner.baseUrl (Scanner.baseUrl "http://www.www.a.com") ≠
      Scanner.baseUrl "http://www.www.a.com" := by
  decide

/-- C7 (amended): www-stripping is a total function that leaves a string without
`://www.` unchanged; stripping twice equals stripping once exactly when the stripped
string contains no `://www.` any more, which is the case whenever the text after the
first `://www.` of u neither starts with `www.` nor contains `://www.`. -/
theorem baseUrl_idempotent_iff (u : String) :
    (jsIncludes u "://www." = false → Scanner.baseUrl u = u) ∧
      (Scanner.baseUrl (Scanner.baseUrl u) = Scanner.baseUrl u ↔
        jsIncludes (Scanner.baseUrl u) "://www." = false) ∧
      (∀ i : Nat, jsIndexOf u "://www." = some i →
        jsStartsWith ⟨u.data.drop (i + 7)⟩ "www." = false →
        jsIncludes ⟨u.data.drop (i + 7)⟩ "://www." = false →
        Scanner.baseUrl (Scanner.baseUrl u) = Scanner.baseUrl u) := by
  refine ⟨(baseUrl_eq_self_iff u).mpr, baseUrl_eq_self_iff _, ?_⟩
  intro i hi hw hb
  rw [baseUrl_eq_self_iff]
  have hsplit := split_of_indexOf _ _ _ hi
  have hrep := (replaceFirst_of_indexOf "://www.".data "://".data _ _ hi).1
  have hlen : "://www.".data.length = 7 := by decide
  rw [hlen] at hsplit hrep
  have hilen : (u.data.take i).length = i := by
    have := (replaceFirst_of_indexOf "://www.".data "://".data _ _ hi).2
    simp only [List.length_take]
    omega
  have hfirst : indexOfChars "://www.".data
      (u.data.take i ++ "://www.".data ++ u.data.drop (i + 7)) = some (u.data.take i).length := by
    rw [← hsplit, hilen]
    exact hi
  have := not_includes_after_strip _ _ hfirst hw hb
  unfold jsIncludes
  rw [baseUrl_data, hrep]
  exact this

/-- C7 (amended) at `https://www.example.com/login`. -/
theorem baseUrl_idempotent_iff_witness :
    Scanner.baseUrl (Scanner.baseUrl "https://www.example.com/login") =
      Scanner.baseUrl "https://www.example.com/login" :=
  (baseUrl_idempotent_iff "https://www.example.com/login").2.2 5 (by decide) (by decide)
    (by decide)

theorem drop_of_indexOf (pat s : List Char) (i : Nat) (h : indexOfChars pat s = some i) :
    s.drop i = pat ++ s.drop (i + pat.length) := by
  have hsplit := split_of_indexOf pat s i h
  have hlen := (replaceFirst_of_indexOf pat [] s i h).2
  have hA : (s.take i).length = i := by
    simp only [List.length_take]; omega
  conv_lhs => rw [hsplit, List.append_assoc]
  exact List.drop_left' hA

theorem strip_of_indexOf (s : List Char) (i : Nat)
    (h : indexOfChars "://www.".data s = some i) :
    replaceFirst "://www.".data "://".data s = s.take (i + 3) ++ s.drop (i + 7) ∧
      (s.drop (i + 3)).take 4 = "www.".data := by
  have hrep := (replaceFirst_of_indexOf "://www.".data "://".data s i h).1
  have hdrop := drop_of_indexOf _ s i h
  have hlen : "://www.".data.length = 7 := by decide
  rw [hlen] at hrep hdrop
  constructor
  · rw [hrep, List.take_add, hdrop]
    simp [wwwPattern_data, schemeSep_data]
  · rw [← List.drop_drop, hdrop]
    simp [wwwPattern_data, wwwLabel_data]

/-- C8 (as stated, refuted): in `http://a.com/?r=http://www.b.com` the first `://` is at
index 4 and is followed by `a.com`, not by `www.`, yet the stripped variant differs from
the URL: the `www.` of the later `://www.` is removed. -/
theorem baseUrl_strips_later_www :
    jsIndexOf "http://a.com/?r=http://www.b.com" "://" = some 4 ∧
      jsStartsWith ⟨"http://a.com/?r=http://www.b.com".data.drop (4 + 3)⟩ "www." = false ∧
      Scanner.baseUrl "http://a.com/?r=http://www.b.com" = "http://a.com/?r=http://b.com" ∧
      Scanner.baseUrl "http://a.com/?r=http://www.b.com" ≠ "http://a.com/?r=http://www.b.com" := by
  decide

/-- C8 (amended): the stripped variant removes the `www.` of the first occurrence of
`://www.`, wherever in the URL that occurrence is: a URL without `://www.` is unchanged;
otherwise, with i the index of the first `://www.`, the four characters after index
i + 3 are `www.` and the stripped variant is the URL without exactly these four; and
when the first `://` is immediately followed by `www.`, it is that `www.` which is
removed. -/
theorem baseUrl_first_occurrence (u : String) :
    (jsIncludes u "://www." = false → Scanner.baseUrl u = u) ∧
      (∀ i : Nat, jsIndexOf u "://www." = some i →
        (u.data.drop (i + 3)).take 4 = "www.".data ∧
          (Scanner.baseUrl u).data = u.data.take (i + 3) ++ u.data.drop (i + 7)) ∧
      (∀ j : Nat, jsIndexOf u "://" = some j →
        jsStartsWith ⟨u.data.drop (j + 3)⟩ "www." = true →
        jsIndexOf u "://www." = some j ∧
          (Scanner.baseUrl u).data = u.data.take (j + 3) ++ u.data.drop (j + 7)) := by
  refine ⟨(baseUrl_eq_self_iff u).mpr, ?_, ?_⟩
  · intro i hi
    have := strip_of_indexOf u.data i hi
    exact ⟨this.2, this.1⟩
  · intro j hj hw
    have hidx : indexOfChars ("://".data ++ "www.".data) u.data = some j :=
      indexOfChars_append "://".data "www.".data u.data j hj hw
    have hidx' : jsIndexOf u "://www." = some j := hidx
    exact ⟨hidx', (strip_of_indexOf u.data j hidx').1⟩

/-- C8 (amended) at `https://www.example.com/a`. -/
theorem baseUrl_first_occurrence_witness :
    jsIndexOf "https://www.example.com/a" "://" = some 5 ∧
      jsStartsWith ⟨"https://www.example.com/a".data.drop (5 + 3)⟩ "www." = true ∧
      (Scanner.baseUrl "https://www.example.com/a").data =
        "https://www.example.com/a".data.take (5 + 3) ++
          "https://www.example.com/a".data.drop (5 + 7) :=
  ⟨by decide, by decide,
    ((baseUrl_first_occurrence "https://www.example.com/a").2.2 5 (by decide) (by decide)).2⟩

/-! ## The `catch` block of a direct attempt (C9, C10) -/

theorem catchBlock_calls (launch : Except String Unit) (bypass : Bool) (message : String)
    (st : Scanner.TaskState) :
    (Scanner.catchBlock launch bypass message st).1.calls =
      if Scanner.connectionClosed message then st.calls ++ [.launchBrowser] else st.calls := by
  unfold Scanner.catchBlock
  cases Scanner.connectionClosed message <;> cases launch <;>
    cases Scanner.proxyEligible message <;> simp

theorem catchBlock_completes_iff (launch : Except String Unit) (bypass : Bool)
    (message : String) (st : Scanner.TaskState) :
    (Scanner.catchBlock launch bypass message st).2 = none ↔
      (Scanner.connectionClosed message = false ∨ launch = .ok ()) := by
  unfold Scanner.catchBlock
  cases Scanner.connectionClosed message <;> cases launch <;> simp

theorem catchBlock_proxyNeeded (launch : Except String Unit) (bypass : Bool)
    (message : String) (st : Scanner.TaskState)
    (h : (Scanner.catchBlock launch bypass message st).2 = none) :
    (Scanner.catchBlock launch bypass message st).1.proxyNeeded =
      (st.proxyNeeded || Scanner.proxyEligible message) := by
  revert h
  unfold Scanner.catchBlock
  cases Scanner.connectionClosed message <;> cases launch <;>
    cases Scanner.proxyEligible message <;> simp

theorem catchBlock_errorMsgs (launch : Except String Unit) (bypass : Bool) (message : String)
    (st : Scanner.TaskState) :
    (Scanner.catchBlock launch bypass message st).1.errorMsgs =
      st.errorMsgs ++ [(if bypass then "SSL Bypass" else "Try") ++ ": " ++ message] := by
  unfold Scanner.catchBlock
  cases Scanner.connectionClosed message <;> cases launch <;>
    cases Scanner.proxyEligible message <;> simp

/-- C9 (as stated, refuted): a failed attempt whose error message contains
`net::ERR_NAME_NOT_RESOLVED` leaves `proxyNeeded` false: that substring is not in the
table. And an error that matches the table but also reports a closed connection leaves
`proxyNeeded` unset when the relaunch raises: the error of `launchBrowser()` leaves the
`catch` block before the table is consulted. -/
theorem name_not_resolved_not_eligible :
    jsIncludes "net::ERR_NAME_NOT_RESOLVED at http://gone.example" "net::ERR_NAME_NOT_RESOLVED" = true ∧
      (Scanner.catchBlock (.ok ()) false "net::ERR_NAME_NOT_RESOLVED at http://gone.example"
        { calls := [], errorMsgs := [], proxyNeeded := false }) =
        ({ calls := [],
           errorMsgs := ["Try: net::ERR_NAME_NOT_RESOLVED at http://gone.example"],
           proxyNeeded := false }, none) ∧
      jsIncludes "net::ERR_CONNECTION_RESET Protocol error: Connection closed."
        "net::ERR_CONNECTION_RESET" = true ∧
      (Scanner.catchBlock (.error "Failed to launch the browser process!") false
        "net::ERR_CONNECTION_RESET Protocol error: Connection closed."
        { calls := [], errorMsgs := [], proxyNeeded := false }) =
        ({ calls := [.launchBrowser],
           errorMsgs := ["Try: net::ERR_CONNECTION_RESET Protocol error: Connection closed."],
           proxyNeeded := false }, some "Failed to launch the browser process!") := by
  decide

/-- C9 (amended): for every error whose message contains one of the eight substrings of
the table (blocked-by-client, connection refused, timed out and reset, cipher mismatch,
SSL protocol error, SSL unrecognized-name alert, HTTP/2 protocol error), the `catch`
block of a failed direct attempt, when it completes, has set `proxyNeeded` to true, and
it completes unless the message also reports a closed connection and the relaunch
raises; for every error whose message contains none of the table's substrings
`proxyNeeded` is left unchanged. -/
theorem proxyRetryErrors_covers (launch : Except String Unit) (bypass : Bool)
    (message : String) (st : Scanner.TaskState) :
    (∀ e ∈ [ "net::ERR_BLOCKED_BY_CLIENT", "net::ERR_CONNECTION_REFUSED",
              "net::ERR_CONNECTION_TIMED_OUT", "net::ERR_CONNECTION_RESET",
              "ERR_SSL_VERSION_OR_CIPHER_MISMATCH", "net::ERR_SSL_PROTOCOL_ERROR",
              "net::ERR_SSL_UNRECOGNIZED_NAME_ALERT", "net::ERR_HTTP2_PROTOCOL_ERROR" ],
        jsIncludes message e = true →
          ((Scanner.catchBlock launch bypass message st).2 = none →
            (Scanner.catchBlock launch bypass message st).1.proxyNeeded = true) ∧
          ((Scanner.connectionClosed message = false ∨ launch = .ok ()) →
            (Scanner.catchBlock launch bypass message st).2 = none)) ∧
      ((∀ e ∈ Scanner.proxyRetryErrors, jsIncludes message e = false) →
        (Scanner.catchBlock launch bypass message st).1.proxyNeeded = st.proxyNeeded) := by
  constructor
  · intro e he hinc
    have helig : Scanner.proxyEligible message = true := by
      unfold Scanner.proxyEligible
      rw [List.any_eq_true]
      refine ⟨e, ?_, hinc⟩
      simp only [List.mem_cons, List.mem_singleton, List.not_mem_nil, or_false] at he
      simp only [Scanner.proxyRetryErrors, List.mem_cons, List.mem_singleton,
        List.not_mem_nil, or_false]
      tauto
    refine ⟨fun h => ?_, (catchBlock_completes_iff launch bypass message st).mpr⟩
    rw [catchBlock_proxyNeeded launch bypass message st h, helig, Bool.or_true]
  · intro hnone
    have helig : Scanner.proxyEligible message = false := by
      unfold Scanner.proxyEligible
      rw [List.any_eq_false]
      intro e he
      simp [hnone e he]
    unfold Scanner.catchBlock
    cases Scanner.connectionClosed message <;> cases launch <;> simp [helig]

/-- C9 (amended) at a connection time-out. -/
theorem proxyRetryErrors_covers_witness :
    jsIncludes "net::ERR_CONNECTION_TIMED_OUT at https://example.com"
        "net::ERR_CONNECTION_TIMED_OUT" = true ∧
      (Scanner.catchBlock (.ok ()) true "net::ERR_CONNECTION_TIMED_OUT at https://example.com"
        { calls := [], errorMsgs := [], proxyNeeded := false }).1.proxyNeeded = true :=
  ⟨by decide,
    ((proxyRetryErrors_covers (.ok ()) true
        "net::ERR_CONNECTION_TIMED_OUT at https://example.com"
        { calls := [], errorMsgs := [], proxyNeeded := false }).1
      "net::ERR_CONNECTION_TIMED_OUT" (by decide) (by decide)).1 (by decide)⟩

/-- C10 (as stated, refuted): one error message can contain both the closed-connection
marker and a substring of the proxy table; the `catch` block then both relaunches the
browser and sets `proxyNeeded`. -/
theorem relaunch_and_proxyNeeded_together :
    Scanner.catchBlock (.ok ()) false
        "Protocol error: Connection closed. (net::ERR_CONNECTION_RESET)"
        { calls := [], errorMsgs := [], proxyNeeded := false } =
      ({ calls := [.launchBrowser],
         errorMsgs := ["Try: Protocol error: Connection closed. (net::ERR_CONNECTION_RESET)"],
         proxyNeeded := true }, none) := by
  decide

/-- C10 (amended): the `catch` block runs two independent substring tests. The browser
is relaunched exactly when the message contains `Protocol error: Connection closed.`;
when the block completes (it does unless that relaunch raises), `proxyNeeded` is true
afterwards exactly when it was true before or the message contains a substring of the
table; so an error does neither exactly when its message contains neither marker, and
an error both triggers a relaunch and newly sets `proxyNeeded` exactly when its message
contains both. -/
theorem classification_independent (launch : Except String Unit) (bypass : Bool)
    (message : String) (st : Scanner.TaskState) :
    (Scanner.catchBlock launch bypass message st).1.calls =
        (if Scanner.connectionClosed message then st.calls ++ [.launchBrowser] else st.calls) ∧
      ((Scanner.catchBlock launch bypass message st).2 = none ↔
        (Scanner.connectionClosed message = false ∨ launch = .ok ())) ∧
      ((Scanner.catchBlock launch bypass message st).2 = none →
        (Scanner.catchBlock launch bypass message st).1.proxyNeeded =
          (st.proxyNeeded || Scanner.proxyEligible message)) ∧
      ((Scanner.connectionClosed message = false ∧ Scanner.proxyEligible message = false) →
        Scanner.catchBlock launch bypass message st =
          ({ st with errorMsgs :=
              st.errorMsgs ++ [(if bypass then "SSL Bypass" else "Try") ++ ": " ++ message] },
            none)) ∧
      ((Scanner.connectionClosed message = true ∧ Scanner.proxyEligible message = true ∧
          launch = .ok ()) →
        Scanner.catchBlock launch bypass message st =
          ({ calls := st.calls ++ [.launchBrowser],
             errorMsgs :=
              st.errorMsgs ++ [(if bypass then "SSL Bypass" else "Try") ++ ": " ++ message],
             proxyNeeded := true }, none)) := by
  refine ⟨catchBlock_calls launch bypass message st,
    catchBlock_completes_iff launch bypass message st,
    catchBlock_proxyNeeded launch bypass message st, ?_, ?_⟩
  · rintro ⟨h1, h2⟩
    simp [Scanner.catchBlock, h1, h2]
  · rintro ⟨h1, h2, rfl⟩
    simp [Scanner.catchBlock, h1, h2]

/-- C10 (amended) at a navigation time-out, which matches neither test. -/
theorem classification_independent_witness :
    Scanner.catchBlock (.ok ()) false "Navigation timeout of 120000 ms exceeded"
        { calls := [], errorMsgs := [], proxyNeeded := false } =
      ({ calls := [], errorMsgs := ["Try: Navigation timeout of 120000 ms exceeded"],
         proxyNeeded := false }, none) :=
  (classification_independent (.ok ()) false "Navigation timeout of 120000 ms exceeded"
    { calls := [], errorMsgs := [], proxyNeeded := false }).2.2.2.1 ⟨by decide, by decide⟩

/-! ## Facts about one attempt -/

theorem tryBlock_outcome {φ : Type} (a : AttemptWorld φ) (url : String) (bypass : Bool)
    (ua : String) : (tryBlock a url bypass ua).outcome = a.outcome := by
  unfold tryBlock AttemptWorld.outcome
  cases a.newPage <;> cases a.setRequestInterception <;> cases a.tryScan <;>
    cases a.pageClose <;> rfl

theorem tryBlock_attemptsRun {φ : Type} (a : AttemptWorld φ) (url : String) (bypass : Bool)
    (ua : String) : attemptsRun (tryBlock a url bypass ua).calls = 1 := by
  unfold tryBlock attemptsRun
  cases a.newPage <;> cases a.setRequestInterception <;> cases a.tryScan <;>
    cases a.pageClose <;> simp

theorem tryBlock_no_proxyLimit {φ : Type} (a : AttemptWorld φ) (url : String) (bypass : Bool)
    (ua : String) : Call.proxyLimit ∉ (tryBlock a url bypass ua).calls := by
  unfold tryBlock
  cases a.newPage <;> cases a.setRequestInterception <;> cases a.tryScan <;>
    cases a.pageClose <;> simp

theorem finallyCalls_attemptsRun (page : Bool) : attemptsRun (finallyCalls page) = 0 := by
  cases page <;> simp [finallyCalls, attemptsRun]

theorem finallyCalls_no_proxyLimit (page : Bool) : Call.proxyLimit ∉ finallyCalls page := by
  cases page <;> simp [finallyCalls]

theorem attemptsRun_append (xs ys : List Call) :
    attemptsRun (xs ++ ys) = attemptsRun xs + attemptsRun ys := by
  simp [attemptsRun]

/-- A direct attempt that raises, with a `catch` block that completes, adds one entry to
`errorMsgs`, starts exactly one attempt, and goes on to the next iteration. -/
theorem directIteration_error {φ : Type} (a : AttemptWorld φ) (v : Version) (ua : String)
    (st : Scanner.TaskState) (e : String) (he : a.outcome = .error e)
    (hre : Scanner.connectionClosed e = true → a.launchBrowser = .ok ()) :
    ∃ st1 : Scanner.TaskState, Scanner.directIteration a v ua st = .next st1 ∧
      st1.errorMsgs =
        st.errorMsgs ++ [(if v.sslBypass then "SSL Bypass" else "Try") ++ ": " ++ e] ∧
      st1.proxyNeeded = (st.proxyNeeded || Scanner.proxyEligible e) ∧
      attemptsRun st1.calls = attemptsRun st.calls + 1 ∧
      (Call.proxyLimit ∈ st1.calls → Call.proxyLimit ∈ st.calls) := by
  have hcomp : (Scanner.catchBlock a.launchBrowser v.sslBypass e
      { st with calls := st.calls ++ (tryBlock a v.url v.sslBypass ua).calls }).2 = none := by
    rw [catchBlock_completes_iff]
    by_cases hc : Scanner.connectionClosed e = true
    · exact Or.inr (hre hc)
    · exact Or.inl (by simpa using hc)
  have hcalls := catchBlock_calls a.launchBrowser v.sslBypass e
      { st with calls := st.calls ++ (tryBlock a v.url v.sslBypass ua).calls }
  have hmsgs := catchBlock_errorMsgs a.launchBrowser v.sslBypass e
      { st with calls := st.calls ++ (tryBlock a v.url v.sslBypass ua).calls }
  have hpn := catchBlock_proxyNeeded a.launchBrowser v.sslBypass e
      { st with calls := st.calls ++ (tryBlock a v.url v.sslBypass ua).calls } hcomp
  unfold Scanner.directIteration
  simp only [tryBlock_outcome, he]
  generalize Scanner.catchBlock a.launchBrowser v.sslBypass e
      { st with calls := st.calls ++ (tryBlock a v.url v.sslBypass ua).calls } = r at *
  obtain ⟨st2, exc⟩ := r
  simp only at hcomp hcalls hmsgs hpn
  subst hcomp
  refine ⟨_, rfl, hmsgs, hpn, ?_, ?_⟩
  · have hl : attemptsRun [Call.launchBrowser] = 0 := by decide
    rw [attemptsRun_append, hcalls, finallyCalls_attemptsRun]
    split <;> simp only [attemptsRun_append, tryBlock_attemptsRun, hl, Nat.add_zero]
  · simp only [hcalls, List.mem_append]
    have h1 := tryBlock_no_proxyLimit a v.url v.sslBypass ua
    have h2 := finallyCalls_no_proxyLimit (tryBlock a v.url v.sslBypass ua).page
    split <;> simp [h1, h2]

/-- A direct attempt whose `try` block completes makes the function return. -/
theorem directIteration_ok {φ : Type} (a : AttemptWorld φ) (v : Version) (ua : String)
    (st : Scanner.TaskState) (f : φ) (hf : a.outcome = .ok f) :
    ∃ st1 : Scanner.TaskState,
      Scanner.directIteration a v ua st =
        .returned st1
          { features := f, finalUrl := v.url, sslBypassUsed := if v.sslBypass then 1 else 0,
            usedProxy := false, userAgent := ua } ∧
      st1.errorMsgs = st.errorMsgs ∧
      st1.proxyNeeded = st.proxyNeeded ∧
      attemptsRun st1.calls = attemptsRun st.calls + 1 ∧
      (Call.proxyLimit ∈ st1.calls → Call.proxyLimit ∈ st.calls) := by
  unfold Scanner.directIteration
  simp only [tryBlock_outcome, hf]
  refine ⟨_, rfl, rfl, rfl, ?_, ?_⟩
  · simp [attemptsRun_append, tryBlock_attemptsRun, finallyCalls_attemptsRun]
  · have h1 := tryBlock_no_proxyLimit a v.url v.sslBypass ua
    have h2 := finallyCalls_no_proxyLimit (tryBlock a v.url v.sslBypass ua).page
    simp [h1, h2]

theorem relaunchCompletes_spec {φ : Type} (a : AttemptWorld φ) (e : String)
    (he : a.outcome = .error e) (h : Scanner.relaunchCompletes a = true) :
    Scanner.connectionClosed e = true → a.launchBrowser = .ok () := by
  intro hc
  unfold Scanner.relaunchCompletes at h
  rw [he] at h
  simp only [hc, if_true] at h
  cases hl : a.launchBrowser with
  | ok u => rfl
  | error m => rw [hl] at h; cases h

/-! ## Facts about the loops of `scanWithRetry` in scanner.js -/

/-- If the first `i` direct attempts raise (with `catch` blocks that complete) and the
next one succeeds, the loop returns at that attempt. -/
theorem directLoop_first_success {φ : Type} (w : World φ) :
    ∀ (i : Nat) (vs : List Version) (k0 : Nat) (st : Scanner.TaskState) (v : Version),
      vs[i]? = some v →
      (∀ j, j < i → ∃ e, (w.direct (k0 + j)).outcome = .error e ∧
        (Scanner.connectionClosed e = true → (w.direct (k0 + j)).launchBrowser = .ok ())) →
      ∀ f : φ, (w.direct (k0 + i)).outcome = .ok f →
      ∃ st1 : Scanner.TaskState,
        Scanner.directLoop w vs k0 st =
          .returned st1
            { features := f, finalUrl := v.url,
              sslBypassUsed := if v.sslBypass then 1 else 0,
              usedProxy := false, userAgent := w.userAgent } ∧
        st1.errorMsgs.length = st.errorMsgs.length + i ∧
        attemptsRun st1.calls = attemptsRun st.calls + (i + 1) ∧
        (Call.proxyLimit ∈ st1.calls → Call.proxyLimit ∈ st.calls) := by
  intro i
  induction i with
  | zero =>
    intro vs k0 st v hv _ f hok
    cases vs with
    | nil => simp at hv
    | cons v0 vs =>
      simp only [List.getElem?_cons_zero, Option.some.injEq] at hv
      subst hv
      obtain ⟨st1, h1, h2, _, h4, h5⟩ :=
        directIteration_ok (w.direct k0) v0 w.userAgent st f (by simpa using hok)
      refine ⟨st1, ?_, by simp [h2], by simpa using h4, h5⟩
      simp only [Scanner.directLoop, h1]
  | succ i ih =>
    intro vs k0 st v hv hfail f hok
    cases vs with
    | nil => simp at hv
    | cons v0 vs =>
      simp only [List.getElem?_cons_succ] at hv
      obtain ⟨e, he, hre⟩ := hfail 0 (Nat.succ_pos i)
      obtain ⟨st1, h1, h2, _, h4, h5⟩ :=
        directIteration_error (w.direct k0) v0 w.userAgent st e (by simpa using he)
          (by simpa using hre)
      have hfail' : ∀ j, j < i → ∃ e, (w.direct (k0 + 1 + j)).outcome = .error e ∧
          (Scanner.connectionClosed e = true →
            (w.direct (k0 + 1 + j)).launchBrowser = .ok ()) := by
        intro j hj
        have := hfail (j + 1) (Nat.succ_lt_succ hj)
        have e1 : k0 + 1 + j = k0 + (j + 1) := by omega
        rw [e1]
        exact this
      have hok' : (w.direct (k0 + 1 + i)).outcome = .ok f := by
        have e1 : k0 + 1 + i = k0 + (i + 1) := by omega
        rw [e1]
        exact hok
      obtain ⟨st2, g1, g2, g3, g4⟩ := ih vs (k0 + 1) st1 v hv hfail' f hok'
      refine ⟨st2, ?_, ?_, ?_, fun h => h5 (g4 h)⟩
      · simp only [Scanner.directLoop, h1, g1]
      · rw [g2, h2]; simp; omega
      · rw [g3, h4]; omega

/-- With `catch` blocks that complete, the loop over direct attempts either returns or
falls through having run every attempt and recorded one entry for each. -/
theorem directLoop_inv {φ : Type} (w : World φ) :
    ∀ (vs : List Version) (k0 : Nat) (st : Scanner.TaskState),
      (∀ j, j < vs.length → Scanner.relaunchCompletes (w.direct (k0 + j)) = true) →
      (∃ st1 : Scanner.TaskState, Scanner.directLoop w vs k0 st = .next st1 ∧
          st1.errorMsgs.length = st.errorMsgs.length + vs.length ∧
          attemptsRun st1.calls = attemptsRun st.calls + vs.length ∧
          (Call.proxyLimit ∈ st1.calls → Call.proxyLimit ∈ st.calls)) ∨
        (∃ (st1 : Scanner.TaskState) (r : ScanResult φ),
          Scanner.directLoop w vs k0 st = .returned st1 r) := by
  intro vs
  induction vs with
  | nil =>
    intro k0 st _
    exact Or.inl ⟨st, rfl, by simp, by simp, id⟩
  | cons v0 vs ih =>
    intro k0 st hre
    cases ho : (w.direct k0).outcome with
    | ok f =>
      obtain ⟨st1, h1, _⟩ := directIteration_ok (w.direct k0) v0 w.userAgent st f ho
      exact Or.inr ⟨st1, _, by rw [Scanner.directLoop, h1]⟩
    | error e =>
      have hre0 := relaunchCompletes_spec (w.direct k0) e ho
        (by simpa using hre 0 (by simp))
      obtain ⟨st1, h1, h2, _, h4, h5⟩ :=
        directIteration_error (w.direct k0) v0 w.userAgent st e ho hre0
      have hre' : ∀ j, j < vs.length →
          Scanner.relaunchCompletes (w.direct (k0 + 1 + j)) = true := by
        intro j hj
        have e1 : k0 + 1 + j = k0 + (j + 1) := by omega
        rw [e1]
        exact hre (j + 1) (by simpa using hj)
      rcases ih (k0 + 1) st1 hre' with ⟨st2, g1, g2, g3, g4⟩ | ⟨st2, r, g1⟩
      · refine Or.inl ⟨st2, by simp only [Scanner.directLoop, h1, g1], ?_, ?_,
          fun h => h5 (g4 h)⟩
        · rw [g2, h2]; simp; omega
        · rw [g3, h4]; simp; omega
      · exact Or.inr ⟨st2, r, by simp only [Scanner.directLoop, h1, g1]⟩

/-- The message a proxy attempt records: that of the error its `try` block raised, or,
when every awaited call returned, that of the failed assignment to `result`. -/
theorem proxyIteration_spec {φ : Type} (a : AttemptWorld φ) (v : Version) (ua : String)
    (st : Scanner.TaskState) :
    (Scanner.proxyIteration a v ua st).errorMsgs =
        st.errorMsgs ++ ["ScraperAPI (fallback): " ++
          (match a.outcome with
            | .ok _ => "result is not defined"
            | .error e => e)] ∧
      (Scanner.proxyIteration a v ua st).proxyNeeded = st.proxyNeeded ∧
      attemptsRun (Scanner.proxyIteration a v ua st).calls = attemptsRun st.calls + 1 := by
  refine ⟨?_, rfl, ?_⟩
  · unfold Scanner.proxyIteration
    simp only [tryBlock_outcome]
    cases a.outcome <;> simp [Scanner.assignResult]
  · unfold Scanner.proxyIteration
    simp [attemptsRun_append, tryBlock_attemptsRun, finallyCalls_attemptsRun]

theorem proxyLoop_spec {φ : Type} (w : World φ) :
    ∀ (vs : List Version) (k0 : Nat) (st : Scanner.TaskState),
      (Scanner.proxyLoop w vs k0 st).errorMsgs =
          st.errorMsgs ++ (List.range vs.length).map (fun j =>
            "ScraperAPI (fallback): " ++
              (match (w.proxy (k0 + j)).outcome with
                | .ok _ => "result is not defined"
                | .error e => e)) ∧
        attemptsRun (Scanner.proxyLoop w vs k0 st).calls = attemptsRun st.calls + vs.length := by
  intro vs
  induction vs with
  | nil => intro k0 st; simp [Scanner.proxyLoop]
  | cons v0 vs ih =>
    intro k0 st
    obtain ⟨h1, _, h3⟩ := proxyIteration_spec (w.proxy k0) v0 w.userAgent st
    obtain ⟨g1, g2⟩ := ih (k0 + 1) (Scanner.proxyIteration (w.proxy k0) v0 w.userAgent st)
    simp only [Scanner.proxyLoop]
    refine ⟨?_, ?_⟩
    · rw [g1, h1, List.length_cons, List.range_succ_eq_map]
      simp [Function.comp_def, Nat.add_assoc, Nat.add_comm 1]
    · rw [g2, h3, List.length_cons]; omega

/-! ## Outcomes of `scanWithRetry` in scanner.js (C2, C3, C4) -/

theorem proxyAttemptsRun_of_not_mem (calls : List Call) (h : Call.proxyLimit ∉ calls) :
    proxyAttemptsRun calls = 0 := by
  have : calls.dropWhile (· != Call.proxyLimit) = [] := by
    rw [List.dropWhile_eq_nil_iff]
    intro x hx
    have : x ≠ Call.proxyLimit := fun hxe => h (hxe ▸ hx)
    simpa using this
  simp [proxyAttemptsRun, this, attemptsRun]

/-- C2: first success wins. If direct attempts 0..i-1 raise (any errors; a relaunch one
of them triggers completes, as attempt i being run presupposes) and direct attempt i
(i < 4) succeeds, `scanWithRetry` returns the Success object of the i-th planned version:
its `finalUrl` is that version's URL, `sslBypassUsed` is 1 or 0 as its bypass flag is set
or not, `usedProxy` is false; exactly i + 1 attempts were started, none of them a proxy
attempt, and exactly i messages were accumulated. -/
theorem first_success_wins {φ : Type} (w : World φ) (u : String) (i : Nat) (hi : i < 4)
    (hfail : ∀ k, k < i → ∃ e, (w.direct k).outcome = .error e ∧
      (Scanner.connectionClosed e = true → (w.direct k).launchBrowser = .ok ()))
    (f : φ) (hok : (w.direct i).outcome = .ok f) :
    ∃ v : Version, (Scanner.versions u)[i]? = some v ∧
      (Scanner.scanWithRetry w u).2 =
        .ok { features := f, finalUrl := v.url,
              sslBypassUsed := if v.sslBypass then 1 else 0,
              usedProxy := false, userAgent := w.userAgent } ∧
      attemptsRun (Scanner.scanWithRetry w u).1.calls = i + 1 ∧
      proxyAttemptsRun (Scanner.scanWithRetry w u).1.calls = 0 ∧
      Call.proxyLimit ∉ (Scanner.scanWithRetry w u).1.calls ∧
      (Scanner.scanWithRetry w u).1.errorMsgs.length = i := by
  have hlen : i < (Scanner.versions u).length := by simpa [Scanner.versions] using hi
  refine ⟨(Scanner.versions u)[i], List.getElem?_eq_getElem hlen, ?_⟩
  obtain ⟨st1, h1, h2, h3, h4⟩ :=
    directLoop_first_success w i (Scanner.versions u) 0
      { calls := [], errorMsgs := [], proxyNeeded := false } (Scanner.versions u)[i]
      (List.getElem?_eq_getElem hlen) (by simpa using hfail) f (by simpa using hok)
  have hnp : Call.proxyLimit ∉ st1.calls := fun h => by simpa using h4 h
  unfold Scanner.scanWithRetry
  rw [h1]
  refine ⟨rfl, ?_, proxyAttemptsRun_of_not_mem _ hnp, hnp, ?_⟩
  · simpa [attemptsRun] using h3
  · simpa using h2

/-- C2 at i = 3: three resets by the peer, then success with TLS bypass. -/
theorem first_success_wins_witness :
    (Scanner.scanWithRetry Sample.fourthSucceeds "http://www.example.com").2 =
        .ok { features := 7, finalUrl := "http://example.com", sslBypassUsed := 1,
              usedProxy := false, userAgent := "Mozilla/5.0" } ∧
      attemptsRun (Scanner.scanWithRetry Sample.fourthSucceeds "http://www.example.com").1.calls
        = 4 ∧
      (Scanner.scanWithRetry Sample.fourthSucceeds "http://www.example.com").1.errorMsgs.length
        = 3 := by
  obtain ⟨v, hv, h1, h2, _, _, h5⟩ :=
    first_success_wins Sample.fourthSucceeds "http://www.example.com" 3 (by decide)
      (fun k hk => ⟨"net::ERR_CONNECTION_RESET at http://www.example.com", by
        have : k = 0 ∨ k = 1 ∨ k = 2 := by omega
        rcases this with rfl | rfl | rfl <;> decide⟩)
      7 (by decide)
  have hv' : v = { url := "http://example.com", sslBypass := true } := by
    have : (Scanner.versions "http://www.example.com")[3]? =
        some { url := "http://example.com", sslBypass := true } := by decide
    rw [this] at hv
    exact (Option.some.inj hv).symm
  subst hv'
  exact ⟨h1, h2, h5⟩

theorem failureMessage_ne_launch (msgs : List String) (h : msgs.length = 1) :
    failureMessage msgs ≠ "Failed to launch the browser process!" := by
  match msgs, h with
  | [m], _ =>
    intro hm
    have := congrArg (fun s => s.data.head?) hm
    simp [failureMessage, jsJoin, String.intercalate, String.intercalate.go] at this

/-- C3 (as stated, refuted): the first direct attempt finds the connection closed and
the relaunch raises; `scanWithRetry` then raises the error of `launchBrowser()` after a
single attempt. The run fails, but with one attempt run (not 4 or 8), and its message is
not the join of one `- ` entry per attempt. -/
theorem relaunch_failure_message :
    (Scanner.scanWithRetry Sample.relaunchFails "http://www.example.com").2 =
        .error "Failed to launch the browser process!" ∧
      attemptsRun (Scanner.scanWithRetry Sample.relaunchFails "http://www.example.com").1.calls
        = 1 ∧
      (∀ msgs : List String, msgs.length = 1 →
        failureMessage msgs ≠ "Failed to launch the browser process!") :=
  ⟨by decide, by decide, failureMessage_ne_launch⟩

/-- C3 (amended): a Failure carries one message per attempt run, in attempt order, as
long as no relaunch raises. When all four direct attempts raise proxy-eligible errors
e 0 .. e 3 (a relaunch one of them triggers completing) and all four proxy attempts
raise errors p 0 .. p 3, the raised message is the `\n`-join of the eight entries
`- Try: e 0`, `- Try: e 1`, `- SSL Bypass: e 2`, `- SSL Bypass: e 3` and
`- ScraperAPI (fallback): p k`; and in every failing run in which no triggered relaunch
raises, the raised message is the join of the accumulated entries, whose number equals
the number of attempts run, which is 4 or 8. -/
theorem failure_messages {φ : Type} (w : World φ) (u : String) :
    (∀ e p : Nat → String,
      (∀ k, k < 4 → (w.direct k).outcome = .error (e k) ∧
        Scanner.proxyEligible (e k) = true ∧
        (Scanner.connectionClosed (e k) = true → (w.direct k).launchBrowser = .ok ())) →
      (∀ k, k < 4 → (w.proxy k).outcome = .error (p k)) →
      (Scanner.scanWithRetry w u).2 =
          .error (jsJoin "\n"
            [ "- " ++ ("Try: " ++ e 0), "- " ++ ("Try: " ++ e 1),
              "- " ++ ("SSL Bypass: " ++ e 2), "- " ++ ("SSL Bypass: " ++ e 3),
              "- " ++ ("ScraperAPI (fallback): " ++ p 0),
              "- " ++ ("ScraperAPI (fallback): " ++ p 1),
              "- " ++ ("ScraperAPI (fallback): " ++ p 2),
              "- " ++ ("ScraperAPI (fallback): " ++ p 3) ]) ∧
        attemptsRun (Scanner.scanWithRetry w u).1.calls = 8) ∧
      ((∀ k, k < 4 → Scanner.relaunchCompletes (w.direct k) = true) →
        ∀ msg : String, (Scanner.scanWithRetry w u).2 = .error msg →
          msg = failureMessage (Scanner.scanWithRetry w u).1.errorMsgs ∧
          (Scanner.scanWithRetry w u).1.errorMsgs.length =
            attemptsRun (Scanner.scanWithRetry w u).1.calls ∧
          (attemptsRun (Scanner.scanWithRetry w u).1.calls = 4 ∨
            attemptsRun (Scanner.scanWithRetry w u).1.calls = 8)) := by
  constructor
  · intro e p hd hp
    obtain ⟨he0, hel0, hre0⟩ := hd 0 (by decide)
    obtain ⟨he1, hel1, hre1⟩ := hd 1 (by decide)
    obtain ⟨he2, hel2, hre2⟩ := hd 2 (by decide)
    obtain ⟨he3, hel3, hre3⟩ := hd 3 (by decide)
    obtain ⟨st1, a1, b1, c1, d1, _⟩ := directIteration_error (w.direct 0)
      { url := u, sslBypass := false } w.userAgent
      { calls := [], errorMsgs := [], proxyNeeded := false } (e 0) he0 hre0
    obtain ⟨st2, a2, b2, c2, d2, _⟩ := directIteration_error (w.direct 1)
      { url := Scanner.baseUrl u, sslBypass := false } w.userAgent st1 (e 1) he1 hre1
    obtain ⟨st3, a3, b3, c3, d3, _⟩ := directIteration_error (w.direct 2)
      { url := u, sslBypass := true } w.userAgent st2 (e 2) he2 hre2
    obtain ⟨st4, a4, b4, c4, d4, _⟩ := directIteration_error (w.direct 3)
      { url := Scanner.baseUrl u, sslBypass := true } w.userAgent st3 (e 3) he3 hre3
    have hloop : Scanner.directLoop w (Scanner.versions u) 0
        { calls := [], errorMsgs := [], proxyNeeded := false } = .next st4 := by
      simp only [Scanner.versions, Scanner.directLoop, a1, a2, a3, a4]
    have hpn : st4.proxyNeeded = true := by rw [c4, hel3, Bool.or_true]
    have hmsgs : st4.errorMsgs =
        ["Try: " ++ e 0, "Try: " ++ e 1, "SSL Bypass: " ++ e 2, "SSL Bypass: " ++ e 3] := by
      rw [b4, b3, b2, b1]
      have t1 : ("Try" : String) ++ ": " = "Try: " := by decide
      have t2 : ("SSL Bypass" : String) ++ ": " = "SSL Bypass: " := by decide
      simp [t1, t2]
    have hatt : attemptsRun st4.calls = 4 := by
      rw [d4, d3, d2, d1]; rfl
    obtain ⟨g1, g2⟩ := proxyLoop_spec w (Scanner.versions u) 0
      { st4 with calls := st4.calls ++ [.proxyLimit] }
    have hr : List.range (Scanner.versions u).length = [0, 1, 2, 3] := rfl
    have hp0 := hp 0 (by decide)
    have hp1 := hp 1 (by decide)
    have hp2 := hp 2 (by decide)
    have hp3 := hp 3 (by decide)
    unfold Scanner.scanWithRetry
    rw [hloop]
    dsimp only
    rw [if_pos hpn]
    refine ⟨?_, ?_⟩
    · rw [g1, hr]
      simp [failureMessage, hmsgs, hp0, hp1, hp2, hp3]
    · rw [g2, attemptsRun_append, hatt]
      rfl
  · intro hre msg hmsg
    have hlen : (Scanner.versions u).length = 4 := rfl
    rcases directLoop_inv w (Scanner.versions u) 0
        { calls := [], errorMsgs := [], proxyNeeded := false }
        (by intro j hj; rw [hlen] at hj; simpa using hre j hj) with
      ⟨st1, h1, h2, h3, _⟩ | ⟨st1, r, h1⟩
    · have hat0 : attemptsRun ([] : List Call) = 0 := rfl
      simp only [List.length_nil, Nat.zero_add, hlen, hat0] at h2 h3
      unfold Scanner.scanWithRetry at hmsg ⊢
      rw [h1] at hmsg ⊢
      dsimp only at hmsg ⊢
      simp only [Except.error.injEq] at hmsg
      by_cases hpn : st1.proxyNeeded = true
      · obtain ⟨g1, g2⟩ := proxyLoop_spec w (Scanner.versions u) 0
          { st1 with calls := st1.calls ++ [.proxyLimit] }
        have hpl : attemptsRun [Call.proxyLimit] = 0 := by decide
        rw [if_pos hpn] at hmsg ⊢
        refine ⟨hmsg.symm, ?_, Or.inr ?_⟩
        · rw [g1, g2, attemptsRun_append, hpl, h3]
          simp [h2, hlen]
        · rw [g2, attemptsRun_append, hpl, h3, hlen]
      · rw [if_neg hpn] at hmsg ⊢
        exact ⟨hmsg.symm, by rw [h2, h3], Or.inl h3⟩
    · unfold Scanner.scanWithRetry at hmsg
      rw [h1] at hmsg
      cases hmsg

/-- C3 (amended) at a task whose eight attempts all raise. -/
theorem failure_messages_witness :
    (Scanner.scanWithRetry Sample.allFail "http://www.example.com").2 =
      .error (jsJoin "\n"
        [ "- Try: net::ERR_CONNECTION_RESET at http://www.example.com",
          "- Try: net::ERR_CONNECTION_RESET at http://www.example.com",
          "- SSL Bypass: net::ERR_CONNECTION_RESET at http://www.example.com",
          "- SSL Bypass: net::ERR_CONNECTION_RESET at http://www.example.com",
          "- ScraperAPI (fallback): net::ERR_TIMED_OUT at http://api.scraperapi.com",
          "- ScraperAPI (fallback): net::ERR_TIMED_OUT at http://api.scraperapi.com",
          "- ScraperAPI (fallback): net::ERR_TIMED_OUT at http://api.scraperapi.com",
          "- ScraperAPI (fallback): net::ERR_TIMED_OUT at http://api.scraperapi.com" ]) :=
  ((failure_messages Sample.allFail "http://www.example.com").1
    (fun _ => "net::ERR_CONNECTION_RESET at http://www.example.com")
    (fun _ => "net::ERR_TIMED_OUT at http://api.scraperapi.com")
    (fun _ _ => ⟨rfl,
      show Scanner.proxyEligible "net::ERR_CONNECTION_RESET at http://www.example.com" = true
        from by decide,
      fun _ => rfl⟩)
    (fun _ _ => rfl)).1

/-- C4 (the code at the failing input): all four direct attempts of
`http://www.example.com` are reset by the peer, so `proxyNeeded` is set, and every proxy
attempt loads the page and closes it. `scanWithRetry` still raises: each proxy attempt
ends in the failed assignment to the undeclared `result`, which is recorded as that
attempt's message, and after the loop the function raises the joined messages.
`scanUrls` stores a Failure row for the URL, not a row with `usedProxy` 1. -/
theorem proxy_success_is_lost :
    (Scanner.scanWithRetry (Sample.proxyWorks Sample.features) "http://www.example.com").2 =
        .error (jsJoin "\n"
          [ "- Try: net::ERR_CONNECTION_RESET at http://www.example.com",
            "- Try: net::ERR_CONNECTION_RESET at http://www.example.com",
            "- SSL Bypass: net::ERR_CONNECTION_RESET at http://www.example.com",
            "- SSL Bypass: net::ERR_CONNECTION_RESET at http://www.example.com",
            "- ScraperAPI (fallback): result is not defined",
            "- ScraperAPI (fallback): result is not defined",
            "- ScraperAPI (fallback): result is not defined",
            "- ScraperAPI (fallback): result is not defined" ]) ∧
      proxyAttemptsRun
        (Scanner.scanWithRetry (Sample.proxyWorks Sample.features)
          "http://www.example.com").1.calls = 4 ∧
      (Scanner.scanUrls [{ url := "http://www.example.com", label := .num 1 }]
          Sample.proxyBatch).map
        (fun results => (getProp "http://www.example.com" results).map
          (fun row => (hasProp "error" row, getProp "usedProxy" row))) =
        .ok (some (true, none)) := by
  refine ⟨by rfl, by decide, by rfl⟩

/-- A direct attempt that raises either goes on to the next iteration or lets the error
of the relaunch leave the function. -/
theorem directIteration_error_cases {φ : Type} (a : AttemptWorld φ) (v : Version)
    (ua : String) (st : Scanner.TaskState) (e : String) (he : a.outcome = .error e) :
    (∃ st1, Scanner.directIteration a v ua st = .next st1) ∨
      (∃ st1 m, Scanner.directIteration a v ua st = .raised st1 m) := by
  unfold Scanner.directIteration
  simp only [tryBlock_outcome, he]
  rcases Scanner.catchBlock a.launchBrowser v.sslBypass e
      { st with calls := st.calls ++ (tryBlock a v.url v.sslBypass ua).calls } with ⟨st2, _ | m⟩
  · exact Or.inl ⟨_, rfl⟩
  · exact Or.inr ⟨_, _, rfl⟩

/-- No run of `scanWithRetry` in scanner.js returns an object with `usedProxy` true. -/
theorem scanWithRetry_never_usedProxy {φ : Type} (w : World φ) (u : String) :
    (match (Scanner.scanWithRetry w u).2 with
      | .ok r => r.usedProxy
      | .error _ => false) = false := by
  have key : ∀ (vs : List Version) (k0 : Nat) (st : Scanner.TaskState),
      (match Scanner.directLoop w vs k0 st with
        | .returned _ r => r.usedProxy
        | _ => false) = false := by
    intro vs
    induction vs with
    | nil => intro k0 st; rfl
    | cons v0 vs ih =>
      intro k0 st
      simp only [Scanner.directLoop]
      cases ho : (w.direct k0).outcome with
      | ok f =>
        obtain ⟨st1, h1, _⟩ := directIteration_ok (w.direct k0) v0 w.userAgent st f ho
        rw [h1]
      | error e =>
        rcases directIteration_error_cases (w.direct k0) v0 w.userAgent st e ho with
          ⟨st1, h1⟩ | ⟨st1, m, h1⟩
        · rw [h1]; exact ih (k0 + 1) st1
        · rw [h1]
  have h := key (Scanner.versions u) 0 { calls := [], errorMsgs := [], proxyNeeded := false }
  unfold Scanner.scanWithRetry
  cases hx : Scanner.directLoop w (Scanner.versions u) 0
      { calls := [], errorMsgs := [], proxyNeeded := false } with
  | next st1 => rfl
  | returned st1 r => rw [hx] at h; simpa using h
  | raised st1 e => rfl

/-! ## The proxy phase of `scanWithRetry` in scanner_add.js (C5) -/

/-- C5 (the code at the failing input): all four direct attempts of
`http://www.example.com` are reset by the peer and every proxy attempt succeeds. The
first successful proxy attempt is the one for `http://www.example.com`, yet
`scanWithRetry` of scanner_add.js goes on to run all four proxy attempts and returns the
object of the last one, whose `finalUrl` is `http://example.com`. -/
theorem proxy_last_success_wins :
    (ScannerAdd.versions "http://www.example.com").map (·.url) =
        ["http://www.example.com", "http://example.com", "http://www.example.com",
          "http://example.com"] ∧
      (ScannerAdd.scanWithRetry (Sample.proxyWorks 7) "http://www.example.com").2 =
        .ok { features := 7, finalUrl := "http://example.com", sslBypassUsed := 0,
              usedProxy := true, userAgent := "Mozilla/5.0" } ∧
      proxyAttemptsRun
        (ScannerAdd.scanWithRetry (Sample.proxyWorks 7) "http://www.example.com").1.calls
        = 4 := by
  refine ⟨by decide, by decide, by decide⟩

/-! ## Facts about records and the result rows -/

theorem mem_keysOf_setProp {β : Type} (k : String) (v : β) (r : List (String × β))
    (x : String) : x ∈ keysOf (setProp k v r) ↔ x = k ∨ x ∈ keysOf r := by
  induction r with
  | nil => simp [setProp, keysOf]
  | cons p r ih =>
    obtain ⟨k1, v1⟩ := p
    by_cases h : k1 = k
    · subst h
      simp [setProp, keysOf]
    · simp only [setProp, h, if_false]
      simp only [keysOf, List.map_cons, List.mem_cons] at ih ⊢
      rw [ih]
      tauto

theorem nodup_keysOf_setProp {β : Type} (k : String) (v : β) (r : List (String × β))
    (h : (keysOf r).Nodup) : (keysOf (setProp k v r)).Nodup := by
  induction r with
  | nil => simp [setProp, keysOf]
  | cons p r ih =>
    obtain ⟨k1, v1⟩ := p
    by_cases hk : k1 = k
    · subst hk
      simpa [setProp, keysOf] using h
    · simp only [setProp, hk, if_false]
      simp only [keysOf, List.map_cons, List.nodup_cons] at h ⊢
      refine ⟨?_, ih h.2⟩
      intro hm
      have := (mem_keysOf_setProp k v r k1).mp hm
      rcases this with h1 | h1
      · exact hk h1
      · exact h.1 h1

theorem mem_setProp {β : Type} (k : String) (v : β) (r : List (String × β))
    (x : String) (y : β) (h : (x, y) ∈ setProp k v r) : (x = k ∧ y = v) ∨ (x, y) ∈ r := by
  induction r with
  | nil => simpa [setProp] using h
  | cons p r ih =>
    obtain ⟨k1, v1⟩ := p
    by_cases hk : k1 = k
    · subst hk
      simp only [setProp, if_true, List.mem_cons, Prod.mk.injEq] at h
      rcases h with ⟨h1, h2⟩ | h
      · exact Or.inl ⟨h1, h2⟩
      · exact Or.inr (List.mem_cons_of_mem _ h)
    · simp only [setProp, hk, if_false, List.mem_cons] at h
      rcases h with h | h
      · exact Or.inr (h ▸ List.mem_cons_self _ _)
      · rcases ih h with h1 | h1
        · exact Or.inl h1
        · exact Or.inr (List.mem_cons_of_mem _ h1)

theorem successRow_keys (r : ScanResult Scanner.Features) (label : Value) :
    keysOf (Scanner.successRow r label) =
      [ "totalNodes", "uniqueTags", "inlineEventHandlers", "javascriptHref",
        "loginFormCount", "passwordFieldCount", "externalFormActionBinary",
        "externalFormActionNonBinary", "suspiciousKeywords", "hiddenIframeCount",
        "suspiciousScriptTags", "metaTagCount", "externalScriptCount", "inlineScriptCount",
        "externalLinkCount", "embeddedObjectCount", "suspiciousInlineStyleCount",
        "suspiciousLinkCount", "scriptCount", "linkCount", "iframeCount", "formCount",
        "navigatedFrameCount", "externalFrameCount", "hasSuspiciousFrameUrl",
        "sslBypassUsed", "usedProxy", "finalUrlTried", "label" ] := by
  rfl

theorem successRow_no_error (r : ScanResult Scanner.Features) (label : Value) :
    hasProp "error" (Scanner.successRow r label) = false := by
  unfold hasProp
  rw [successRow_keys]
  decide

theorem failureRow_error (message url : String) (label : Value) :
    hasProp "error" (Scanner.failureRow message url label) = true := by
  rfl

/-! ## `scanUrls` in scanner.js (C1) -/

theorem taskWrapper_results (w : World Scanner.Features) (t : Scanner.ScanTask)
    (b : Scanner.Batch) :
    ∃ row, (Scanner.taskWrapper w t b).results = setProp t.url row b.results ∧
      Scanner.IsTaskRow t row := by
  unfold Scanner.taskWrapper Scanner.recordOutcome
  cases (Scanner.scanWithRetry w t.url).2 with
  | ok r => exact ⟨_, rfl, Or.inl ⟨r, rfl, successRow_no_error r t.label⟩⟩
  | error m => exact ⟨_, rfl, Or.inr ⟨m, rfl, failureRow_error m t.url t.label⟩⟩

theorem finishTask_fold (urls : List Scanner.ScanTask) (bw : Scanner.BatchWorld) :
    ∀ (order : List Nat) (b : Scanner.Batch),
      (∀ x, x ∈ keysOf (order.foldl (Scanner.finishTask urls bw) b).results ↔
        (x ∈ keysOf b.results ∨ ∃ i ∈ order, ∃ t, urls[i]? = some t ∧ t.url = x)) ∧
      ((keysOf b.results).Nodup →
        (keysOf (order.foldl (Scanner.finishTask urls bw) b).results).Nodup) ∧
      (∀ x row, (x, row) ∈ (order.foldl (Scanner.finishTask urls bw) b).results →
        (x, row) ∈ b.results ∨ ∃ t ∈ urls, t.url = x ∧ Scanner.IsTaskRow t row) := by
  intro order
  induction order with
  | nil => intro b; exact ⟨by simp, by simp, fun x row h => Or.inl (by simpa using h)⟩
  | cons i order ih =>
    intro b
    obtain ⟨h1, h2, h3⟩ := ih (Scanner.finishTask urls bw b i)
    simp only [List.foldl_cons]
    cases hi : urls[i]? with
    | none =>
      have hb : Scanner.finishTask urls bw b i = b := by simp [Scanner.finishTask, hi]
      rw [hb] at h1 h2 h3 ⊢
      refine ⟨fun x => ?_, h2, h3⟩
      rw [h1 x]
      constructor
      · rintro (h | ⟨j, hj, t, ht, hx⟩)
        · exact Or.inl h
        · exact Or.inr ⟨j, List.mem_cons_of_mem _ hj, t, ht, hx⟩
      · rintro (h | ⟨j, hj, t, ht, hx⟩)
        · exact Or.inl h
        · rcases List.mem_cons.mp hj with rfl | hj
          · rw [hi] at ht; cases ht
          · exact Or.inr ⟨j, hj, t, ht, hx⟩
    | some t =>
      obtain ⟨row, hrow, hkind⟩ := taskWrapper_results (bw.task i) t b
      have hb : (Scanner.finishTask urls bw b i).results = setProp t.url row b.results := by
        simp [Scanner.finishTask, hi, hrow]
      have htmem : t ∈ urls := List.getElem?_mem hi
      refine ⟨fun x => ?_, fun hnd => ?_, fun x y hxy => ?_⟩
      · rw [h1 x, hb, mem_keysOf_setProp]
        constructor
        · rintro ((h | h) | ⟨j, hj, t', ht', hx⟩)
          · exact Or.inr ⟨i, List.mem_cons_self _ _, t, hi, h.symm⟩
          · exact Or.inl h
          · exact Or.inr ⟨j, List.mem_cons_of_mem _ hj, t', ht', hx⟩
        · rintro (h | ⟨j, hj, t', ht', hx⟩)
          · exact Or.inl (Or.inr h)
          · rcases List.mem_cons.mp hj with rfl | hj
            · rw [hi] at ht'
              cases ht'
              exact Or.inl (Or.inl hx.symm)
            · exact Or.inr ⟨j, hj, t', ht', hx⟩
      · apply h2
        rw [hb]
        exact nodup_keysOf_setProp _ _ _ hnd
      · rcases h3 x y hxy with h | h
        · rw [hb] at h
          rcases mem_setProp _ _ _ _ _ h with ⟨hx, hy⟩ | h
          · exact Or.inr ⟨t, htmem, hx.symm, hy ▸ hkind⟩
          · exact Or.inl h
        · exact Or.inr h

/-- C1: for every list of tasks, every behaviour of the attempts of every task (what each
awaited call does, relaunches included) and every order in which the task wrappers end,
`scanUrls` (its first `launchBrowser()` and `writeResultsToCsv` returning) yields a
`results` mapping whose keys are exactly the URLs of the input, each once, and each
entry is the Success row (without an `error` property) or the Failure row (with an
`error` property) of a task with that URL. -/
theorem scanUrls_one_outcome_per_url (urls : List Scanner.ScanTask)
    (bw : Scanner.BatchWorld)
    (hlaunch : bw.launchBrowser = .ok ()) (hcsv : bw.writeResultsToCsv = .ok ())
    (horder : bw.completion.Perm (List.range urls.length)) :
    ∃ results : List (String × Record),
      Scanner.scanUrls urls bw = .ok results ∧
      (∀ u : String, u ∈ keysOf results ↔ ∃ t ∈ urls, t.url = u) ∧
      (keysOf results).Nodup ∧
      (∀ (u : String) (row : Record), (u, row) ∈ results →
        ∃ t ∈ urls, t.url = u ∧
          ((∃ r : ScanResult Scanner.Features,
              row = Scanner.successRow r t.label ∧ hasProp "error" row = false) ∨
            (∃ message : String,
              row = Scanner.failureRow message u t.label ∧ hasProp "error" row = true))) := by
  obtain ⟨h1, h2, h3⟩ := finishTask_fold urls bw bw.completion { results := [], errorLog := [] }
  refine ⟨(Scanner.runTasks urls bw).results, ?_, ?_, ?_, ?_⟩
  · simp [Scanner.scanUrls, hlaunch, hcsv]
  · intro u
    unfold Scanner.runTasks
    rw [h1 u]
    constructor
    · rintro (h | ⟨i, _, t, ht, hx⟩)
      · simp [keysOf] at h
      · exact ⟨t, List.getElem?_mem ht, hx⟩
    · rintro ⟨t, ht, hx⟩
      obtain ⟨i, hi, hti⟩ := List.getElem_of_mem ht
      refine Or.inr ⟨i, ?_, t, ?_, hx⟩
      · rw [horder.mem_iff, List.mem_range]; exact hi
      · rw [List.getElem?_eq_getElem hi, hti]
  · exact h2 (by simp [keysOf])
  · intro u row hmem
    rcases h3 u row hmem with h | ⟨t, ht, hx, hkind⟩
    · simp at h
    · refine ⟨t, ht, hx, ?_⟩
      rcases hkind with h | ⟨m, hm, he⟩
      · exact Or.inl h
      · exact Or.inr ⟨m, hx ▸ hm, he⟩

/-- C1 at a batch of a task that succeeds and a task whose relaunch raises. -/
theorem scanUrls_one_outcome_per_url_witness :
    ∃ results : List (String × Record),
      Scanner.scanUrls
          [ { url := "http://www.example.com", label := .num 0 },
            { url := "http://gone.example", label := .num 1 } ] Sample.mixedBatch =
        .ok results ∧
      (∀ u : String, u ∈ keysOf results ↔
        ∃ t ∈ [ ({ url := "http://www.example.com", label := .num 0 } : Scanner.ScanTask),
                { url := "http://gone.example", label := .num 1 } ], t.url = u) := by
  obtain ⟨results, h1, h2, _⟩ :=
    scanUrls_one_outcome_per_url
      [ { url := "http://www.example.com", label := .num 0 },
        { url := "http://gone.example", label := .num 1 } ] Sample.mixedBatch rfl rfl
      (by decide)
  exact ⟨results, h1, h2⟩

/-! ## The task wrapper of `scanUrls` in scanner.js (C15) -/

theorem getProp_setProp_self {β : Type} (k : String) (v : β) (r : List (String × β)) :
    getProp k (setProp k v r) = some v := by
  induction r with
  | nil => simp [setProp, getProp]
  | cons p r ih =>
    obtain ⟨k1, v1⟩ := p
    by_cases h : k1 = k
    · simp [setProp, getProp, h]
    · simp [setProp, getProp, h, ih]

theorem getProp_setProp_ne {β : Type} (k : String) (v : β) (r : List (String × β))
    (x : String) (hx : x ≠ k) : getProp x (setProp k v r) = getProp x r := by
  induction r with
  | nil => simp [setProp, getProp, Ne.symm hx]
  | cons p r ih =>
    obtain ⟨k1, v1⟩ := p
    by_cases h : k1 = k
    · subst h
      simp [setProp, getProp, Ne.symm hx]
    · by_cases h1 : k1 = x
      · subst h1
        simp [setProp, getProp, h]
      · simp [setProp, getProp, h, h1, ih]

/-- C15: task failures are isolated. However the `scanWithRetry` of a task ends, by
returning an object or by raising an error with any message, the wrapper (a total
function: nothing leaves its `try`/`catch`) assigns `results[url]` for the URL of its own
task and nothing else: the keys of `results` afterwards are the old ones and that URL,
and the entry of every other URL is what it was. When `scanWithRetry` raised, the entry
is the Failure row `{error, finalUrlTried: url, label}` and one record `{url, error}` is
appended to `errorLog`; when it returned, the entry is the Success row and `errorLog` is
unchanged. -/
theorem task_failure_isolated (outcome : Except String (ScanResult Scanner.Features))
    (w : World Scanner.Features) (t : Scanner.ScanTask) (b : Scanner.Batch) :
    Scanner.taskWrapper w t b = Scanner.recordOutcome (Scanner.scanWithRetry w t.url).2 t b ∧
      (∀ x : String, x ∈ keysOf (Scanner.recordOutcome outcome t b).results ↔
        x = t.url ∨ x ∈ keysOf b.results) ∧
      (∀ x : String, x ≠ t.url →
        getProp x (Scanner.recordOutcome outcome t b).results = getProp x b.results) ∧
      (∀ message : String, outcome = .error message →
        getProp t.url (Scanner.recordOutcome outcome t b).results =
            some [("error", .str message), ("finalUrlTried", .str t.url), ("label", t.label)] ∧
          (Scanner.recordOutcome outcome t b).errorLog = b.errorLog ++ [(t.url, message)]) ∧
      (∀ r : ScanResult Scanner.Features, outcome = .ok r →
        getProp t.url (Scanner.recordOutcome outcome t b).results =
            some (Scanner.successRow r t.label) ∧
          (Scanner.recordOutcome outcome t b).errorLog = b.errorLog) := by
  refine ⟨rfl, ?_, ?_, ?_, ?_⟩
  · intro x
    cases outcome <;> simp [Scanner.recordOutcome, mem_keysOf_setProp]
  · intro x hx
    cases outcome <;> simp [Scanner.recordOutcome, getProp_setProp_ne _ _ _ _ hx]
  · rintro message rfl
    simp [Scanner.recordOutcome, getProp_setProp_self, Scanner.failureRow]
  · rintro r rfl
    simp [Scanner.recordOutcome, getProp_setProp_self]

/-- C15 at a task whose `scanWithRetry` raised, in a batch that already has a row. -/
theorem task_failure_isolated_witness :
    getProp "http://a.example"
        (Scanner.recordOutcome (.error "- Try: net::ERR_FAILED")
          { url := "http://b.example", label := .num 1 }
          { results := [("http://a.example", [("error", .str "x")])], errorLog := [] }).results =
      some [("error", .str "x")] :=
  ((task_failure_isolated (.error "- Try: net::ERR_FAILED") (Sample.proxyWorks Sample.features)
      { url := "http://b.example", label := .num 1 }
      { results := [("http://a.example", [("error", .str "x")])], errorLog := [] }).2.2.1
    "http://a.example" (by decide)).trans rfl

/-! ## `getDomFeatures` and `tryScan` in scanner.js (C16, C17, C19, C20) -/

/-- C17: in `getDomFeatures` the `page.goto` calls are none (a call before the navigation
raised), the `domcontentloaded` one alone, or the `domcontentloaded` one followed by the
`networkidle2` one; the `networkidle2` navigation is made exactly when the
`domcontentloaded` one was made and raised, and then once; there are at most two
navigations; when the first succeeds there is no second; and when both raise,
`getDomFeatures` raises `Navigation failed (fallback too): ` followed by the message of
the second error. -/
theorem navigation_fallback (p : Scanner.PageWorld) (url ua : String) :
    (((Scanner.getDomFeatures p url ua).1.filter Scanner.PageCall.isGoto = [] ∧
          ∃ e, (Scanner.prepare p ua).2 = .error e) ∨
        ((Scanner.getDomFeatures p url ua).1.filter Scanner.PageCall.isGoto =
            [.goto url "domcontentloaded"] ∧ p.gotoPrimary = .ok ()) ∨
        ((Scanner.getDomFeatures p url ua).1.filter Scanner.PageCall.isGoto =
            [.goto url "domcontentloaded", .goto url "networkidle2"] ∧
          ∃ e, p.gotoPrimary = .error e)) ∧
      (Scanner.PageCall.goto url "networkidle2" ∈ (Scanner.getDomFeatures p url ua).1 ↔
        (Scanner.PageCall.goto url "domcontentloaded" ∈ (Scanner.getDomFeatures p url ua).1 ∧
          ∃ e, p.gotoPrimary = .error e)) ∧
      (Scanner.getDomFeatures p url ua).1.count (.goto url "networkidle2") ≤ 1 ∧
      ((Scanner.getDomFeatures p url ua).1.filter Scanner.PageCall.isGoto).length ≤ 2 ∧
      (p.gotoPrimary = .ok () →
        Scanner.PageCall.goto url "networkidle2" ∉ (Scanner.getDomFeatures p url ua).1) ∧
      (∀ e1 e2 : String, (Scanner.prepare p ua).2 = .ok () →
        p.gotoPrimary = .error e1 → p.gotoFallback = .error e2 →
        (Scanner.getDomFeatures p url ua).2 =
          .error ("Navigation failed (fallback too): " ++ e2)) := by
  cases h0 : p.isClosed <;> cases h1 : p.setViewport <;> cases h2 : p.setExtraHTTPHeaders <;>
    cases h3 : p.setJavaScriptEnabled <;> cases h4 : p.gotoPrimary <;>
    cases h5 : p.gotoFallback <;>
    simp [Scanner.getDomFeatures, Scanner.prepare, Scanner.navigate, Scanner.extractCalls,
      Scanner.PageCall.isGoto, h0, h1, h2, h3, h4, h5]

/-- C20: signal groups fall back independently. After a successful navigation (the
calls before it and one of the two `page.goto` calls returned), whatever subset of the
eight evaluations raises, `getDomFeatures` returns an object; every property of a group
whose evaluation raised has the value -1, every property of a group whose evaluation
returned has the value returned, and the properties are the same twenty-five names in
every case. -/
theorem signal_groups_fall_back (p : Scanner.PageWorld) (url ua : String)
    (hprep : (Scanner.prepare p ua).2 = .ok ()) (hnav : (Scanner.navigate p url).2 = .ok ()) :
    ∃ f : Scanner.Features,
      (Scanner.getDomFeatures p url ua).2 = .ok f ∧
        keysOf f.toRecord =
          [ "totalNodes", "uniqueTags", "inlineEventHandlers",
          "javascriptHref", "loginFormCount", "passwordFieldCount",
          "externalFormActionBinary", "externalFormActionNonBinary", "suspiciousKeywords",
          "hiddenIframeCount", "suspiciousScriptTags", "metaTagCount",
          "externalScriptCount", "inlineScriptCount", "externalLinkCount",
          "embeddedObjectCount", "suspiciousInlineStyleCount", "suspiciousLinkCount",
          "scriptCount", "linkCount", "iframeCount",
          "formCount", "navigatedFrameCount", "externalFrameCount",
          "hasSuspiciousFrameUrl" ] ∧
        (∀ e : String, p.tagCounts = .error e → f.totalNodes = -1 ∧ f.uniqueTags = -1) ∧
        (∀ g : Scanner.TagCounts, p.tagCounts = .ok g →
          f.totalNodes = g.totalNodes ∧ f.uniqueTags = g.uniqueTags) ∧
        (∀ e : String, p.inlineJS = .error e → f.inlineEventHandlers = -1 ∧ f.javascriptHref = -1) ∧
        (∀ g : Scanner.InlineJS, p.inlineJS = .ok g →
          f.inlineEventHandlers = g.inlineEventHandlers ∧ f.javascriptHref = g.javascriptHref) ∧
        (∀ e : String, p.loginForms = .error e → f.loginFormCount = -1 ∧ f.passwordFieldCount = -1 ∧ f.externalFormActionBinary = -1 ∧ f.externalFormActionNonBinary = -1) ∧
        (∀ g : Scanner.LoginForms, p.loginForms = .ok g →
          f.loginFormCount = g.loginFormCount ∧ f.passwordFieldCount = g.passwordFieldCount ∧ f.externalFormActionBinary = g.externalFormActionBinary ∧ f.externalFormActionNonBinary = g.externalFormActionNonBinary) ∧
        (∀ e : String, p.suspiciousKeywords = .error e → f.suspiciousKeywords = -1) ∧
        (∀ g : Scanner.SuspiciousKeywords, p.suspiciousKeywords = .ok g →
          f.suspiciousKeywords = g.suspiciousKeywords) ∧
        (∀ e : String, p.hiddenIframes = .error e → f.hiddenIframeCount = -1) ∧
        (∀ g : Scanner.HiddenIframes, p.hiddenIframes = .ok g →
          f.hiddenIframeCount = g.hiddenIframeCount) ∧
        (∀ e : String, p.suspiciousScripts = .error e → f.suspiciousScriptTags = -1) ∧
        (∀ g : Scanner.SuspiciousScripts, p.suspiciousScripts = .ok g →
          f.suspiciousScriptTags = g.suspiciousScriptTags) ∧
        (∀ e : String, p.otherFeatures = .error e → f.metaTagCount = -1 ∧ f.externalScriptCount = -1 ∧ f.inlineScriptCount = -1 ∧ f.externalLinkCount = -1 ∧ f.embeddedObjectCount = -1 ∧ f.suspiciousInlineStyleCount = -1 ∧ f.suspiciousLinkCount = -1 ∧ f.scriptCount = -1 ∧ f.linkCount = -1 ∧ f.iframeCount = -1 ∧ f.formCount = -1) ∧
        (∀ g : Scanner.OtherFeatures, p.otherFeatures = .ok g →
          f.metaTagCount = g.metaTagCount ∧ f.externalScriptCount = g.externalScriptCount ∧ f.inlineScriptCount = g.inlineScriptCount ∧ f.externalLinkCount = g.externalLinkCount ∧ f.embeddedObjectCount = g.embeddedObjectCount ∧ f.suspiciousInlineStyleCount = g.suspiciousInlineStyleCount ∧ f.suspiciousLinkCount = g.suspiciousLinkCount ∧ f.scriptCount = g.scriptCount ∧ f.linkCount = g.linkCount ∧ f.iframeCount = g.iframeCount ∧ f.formCount = g.formCount) ∧
        (∀ e : String, p.frameNavigationFeatures = .error e → f.navigatedFrameCount = -1 ∧ f.externalFrameCount = -1 ∧ f.hasSuspiciousFrameUrl = -1) ∧
        (∀ g : Scanner.FrameNavigationFeatures, p.frameNavigationFeatures = .ok g →
          f.navigatedFrameCount = g.navigatedFrameCount ∧ f.externalFrameCount = g.externalFrameCount ∧ f.hasSuspiciousFrameUrl = g.hasSuspiciousFrameUrl) := by
  refine ⟨Scanner.extract p, ?_, rfl, ?_⟩
  · unfold Scanner.getDomFeatures
    rcases hp : Scanner.prepare p ua with ⟨c1, r1⟩
    rcases hn : Scanner.navigate p url with ⟨c2, r2⟩
    rw [hp] at hprep
    rw [hn] at hnav
    simp only at hprep hnav
    subst hprep hnav
    rfl
  · refine ⟨?_, ?_, ?_, ?_, ?_, ?_, ?_, ?_, ?_, ?_, ?_, ?_, ?_, ?_, ?_, ?_⟩ <;>
      intro x hx <;> simp [Scanner.extract, Scanner.safeEval, hx,
        Scanner.TagCounts.fallback, Scanner.InlineJS.fallback, Scanner.LoginForms.fallback,
        Scanner.SuspiciousKeywords.fallback, Scanner.HiddenIframes.fallback,
        Scanner.SuspiciousScripts.fallback, Scanner.OtherFeatures.fallback,
        Scanner.FrameNavigationFeatures.fallback]

/-- C17 at a page on which both navigations raise. -/
theorem navigation_fallback_witness :
    (Scanner.getDomFeatures Sample.pageNoNavigation "https://www.example.com" "Mozilla/5.0").2 =
      .error ("Navigation failed (fallback too): " ++
        "net::ERR_CONNECTION_REFUSED at https://www.example.com") :=
  (navigation_fallback Sample.pageNoNavigation "https://www.example.com" "Mozilla/5.0").2.2.2.2.2
    "Navigation timeout of 120000 ms exceeded"
    "net::ERR_CONNECTION_REFUSED at https://www.example.com" rfl rfl rfl

/-- C20 at a page that loads and on which every evaluation raises. -/
theorem signal_groups_fall_back_witness :
    ∃ f : Scanner.Features,
      (Scanner.getDomFeatures Sample.pageNoEval "https://www.example.com" "Mozilla/5.0").2 =
          .ok f ∧
        f.totalNodes = -1 ∧ f.uniqueTags = -1 := by
  obtain ⟨f, h1, _, h3, _⟩ :=
    signal_groups_fall_back Sample.pageNoEval "https://www.example.com" "Mozilla/5.0" rfl rfl
  exact ⟨f, h1, h3 "Execution context was destroyed." rfl⟩

theorem getDomFeatures_no_certificate_call (p : Scanner.PageWorld) (url ua : String) :
    Scanner.PageCall.setIgnoreCertificateErrors ∉ (Scanner.getDomFeatures p url ua).1 := by
  cases h0 : p.isClosed <;> cases h1 : p.setViewport <;> cases h2 : p.setExtraHTTPHeaders <;>
    cases h3 : p.setJavaScriptEnabled <;> cases h4 : p.gotoPrimary <;>
    cases h5 : p.gotoFallback <;>
    simp [Scanner.getDomFeatures, Scanner.prepare, Scanner.navigate, Scanner.extractCalls,
      h0, h1, h2, h3, h4, h5]

theorem getDomFeatures_outcome (p : Scanner.PageWorld) (url ua : String) :
    ((Scanner.prepare p ua).2 = .ok () → (Scanner.navigate p url).2 = .ok () →
        (Scanner.getDomFeatures p url ua).2 = .ok (Scanner.extract p)) ∧
      (∀ e : String, (Scanner.getDomFeatures p url ua).2 = .error e →
        (Scanner.prepare p ua).2 = .error e ∨ (Scanner.navigate p url).2 = .error e) := by
  unfold Scanner.getDomFeatures
  rcases hp : Scanner.prepare p ua with ⟨c1, r1⟩
  rcases hn : Scanner.navigate p url with ⟨c2, r2⟩
  cases r1 <;> cases r2 <;> simp

/-- C19 (as stated, refuted): on a page that loads but on which all eight evaluations
raise, `tryScan` returns a feature object, every property of which is the fallback -1,
and `scanWithRetry` returns it as the features of a Success at the first attempt. -/
theorem evaluation_failure_is_success :
    (Scanner.tryScan Sample.pageNoEval "https://www.example.com" false "Mozilla/5.0").2 =
        .ok Sample.allFallback ∧
      Scanner.PageCall.evaluate .tagCounts ∈
        (Scanner.tryScan Sample.pageNoEval "https://www.example.com" false "Mozilla/5.0").1 ∧
      (Scanner.scanWithRetry (Sample.onPage Sample.pageNoEval "https://www.example.com")
          "https://www.example.com").2 =
        .ok { features := Sample.allFallback, finalUrl := "https://www.example.com",
              sslBypassUsed := 0, usedProxy := false, userAgent := "Mozilla/5.0" } := by
  refine ⟨by rfl, by decide, by rfl⟩

/-- C19 (amended): a failed in-page evaluation does not make the attempt raise. When the
CDP session is created, the certificate command (if sent) returns, and the calls before
the navigation and the navigation itself succeed, `tryScan` returns the feature object
built from the eight guarded evaluations, whatever these do; an error `tryScan` raises
is always that of `createCDPSession`, of the certificate command, of a call before the
navigation, or of the navigation; and when all eight evaluations raise, the object
returned has the fallback -1 in every property. -/
theorem evaluation_failure_tolerated (p : Scanner.PageWorld) (url : String) (bypass : Bool)
    (ua : String) :
    (p.createCDPSession = .ok () →
        ((bypass && jsStartsWith url "https://") = true →
          p.setIgnoreCertificateErrors = .ok ()) →
        (Scanner.prepare p ua).2 = .ok () → (Scanner.navigate p url).2 = .ok () →
        (Scanner.tryScan p url bypass ua).2 = .ok (Scanner.extract p)) ∧
      (∀ e : String, (Scanner.tryScan p url bypass ua).2 = .error e →
        p.createCDPSession = .error e ∨ p.setIgnoreCertificateErrors = .error e ∨
          (Scanner.prepare p ua).2 = .error e ∨ (Scanner.navigate p url).2 = .error e) ∧
      ((∃ e, p.tagCounts = .error e) → (∃ e, p.inlineJS = .error e) →
        (∃ e, p.loginForms = .error e) → (∃ e, p.suspiciousKeywords = .error e) →
        (∃ e, p.hiddenIframes = .error e) → (∃ e, p.suspiciousScripts = .error e) →
        (∃ e, p.otherFeatures = .error e) → (∃ e, p.frameNavigationFeatures = .error e) →
        Scanner.extract p = Sample.allFallback) := by
  obtain ⟨g1, g2⟩ := getDomFeatures_outcome p url ua
  refine ⟨?_, ?_, ?_⟩
  · intro hc hs hp hn
    unfold Scanner.tryScan
    rw [hc]
    by_cases hg : (bypass && jsStartsWith url "https://") = true
    · simp only [hg, if_true, hs hg]
      exact g1 hp hn
    · simp only [hg, Bool.false_eq_true, if_false]
      exact g1 hp hn
  · intro e he
    unfold Scanner.tryScan at he
    cases hc : p.createCDPSession with
    | error m =>
      rw [hc] at he
      simp only [Except.error.injEq] at he
      exact Or.inl (by rw [he])
    | ok u =>
      rw [hc] at he
      by_cases hg : (bypass && jsStartsWith url "https://") = true
      · simp only [hg, if_true] at he
        cases hs : p.setIgnoreCertificateErrors with
        | error m =>
          rw [hs] at he
          simp only [Except.error.injEq] at he
          exact Or.inr (Or.inl (by rw [he]))
        | ok u =>
          rw [hs] at he
          exact Or.inr (Or.inr (g2 e he))
      · simp only [hg, Bool.false_eq_true, if_false] at he
        exact Or.inr (Or.inr (g2 e he))
  · rintro ⟨_, h1⟩ ⟨_, h2⟩ ⟨_, h3⟩ ⟨_, h4⟩ ⟨_, h5⟩ ⟨_, h6⟩ ⟨_, h7⟩ ⟨_, h8⟩
    simp [Scanner.extract, Scanner.safeEval, h1, h2, h3, h4, h5, h6, h7, h8,
      Sample.allFallback,
      Scanner.TagCounts.fallback, Scanner.InlineJS.fallback, Scanner.LoginForms.fallback,
      Scanner.SuspiciousKeywords.fallback, Scanner.HiddenIframes.fallback,
      Scanner.SuspiciousScripts.fallback, Scanner.OtherFeatures.fallback,
      Scanner.FrameNavigationFeatures.fallback]

/-- C19 (amended) at a page that loads and on which every evaluation raises. -/
theorem evaluation_failure_tolerated_witness :
    (Scanner.tryScan Sample.pageNoEval "https://www.example.com" true "Mozilla/5.0").2 =
      .ok (Scanner.extract Sample.pageNoEval) :=
  (evaluation_failure_tolerated Sample.pageNoEval "https://www.example.com" true
    "Mozilla/5.0").1 rfl (fun _ => rfl) rfl rfl

/-! ## The calls of a run of `scanWithRetry` in scanner.js -/

theorem tryBlock_tryScan_mem {φ : Type} (a : AttemptWorld φ) (url : String) (bypass : Bool)
    (ua : String) (url1 : String) (b1 : Bool) (ua1 : String)
    (h : Call.tryScan url1 b1 ua1 ∈ (tryBlock a url bypass ua).calls) :
    url1 = url ∧ b1 = bypass ∧ ua1 = ua := by
  revert h
  unfold tryBlock
  cases a.newPage <;> cases a.setRequestInterception <;> cases a.tryScan <;>
    cases a.pageClose <;> simp

theorem tryBlock_no_launch {φ : Type} (a : AttemptWorld φ) (url : String) (bypass : Bool)
    (ua : String) : Call.launchBrowser ∉ (tryBlock a url bypass ua).calls := by
  unfold tryBlock
  cases a.newPage <;> cases a.setRequestInterception <;> cases a.tryScan <;>
    cases a.pageClose <;> simp

/-- The calls one iteration of the direct loop adds: those of the `try` block, then
`launchBrowser()` exactly when the block raised a message reporting a closed connection,
then those of the `finally` block. -/
theorem directIteration_calls {φ : Type} (a : AttemptWorld φ) (v : Version) (ua : String)
    (st : Scanner.TaskState) :
    ∃ mid : List Call,
      (Scanner.directIteration a v ua st).state.calls =
          st.calls ++ (tryBlock a v.url v.sslBypass ua).calls ++ mid ++
            finallyCalls (tryBlock a v.url v.sslBypass ua).page ∧
        (mid = [] ∨ mid = [.launchBrowser]) ∧
        (mid = [.launchBrowser] ↔
          ∃ e, a.outcome = .error e ∧ Scanner.connectionClosed e = true) := by
  unfold Scanner.directIteration
  simp only [tryBlock_outcome]
  cases ho : a.outcome with
  | ok f => exact ⟨[], by simp [Scanner.Flow.state], Or.inl rfl, by simp⟩
  | error e =>
    have hcalls := catchBlock_calls a.launchBrowser v.sslBypass e
      { st with calls := st.calls ++ (tryBlock a v.url v.sslBypass ua).calls }
    simp only
    rcases hcb : Scanner.catchBlock a.launchBrowser v.sslBypass e
        { st with calls := st.calls ++ (tryBlock a v.url v.sslBypass ua).calls } with
      ⟨st2, _ | m⟩ <;>
    · rw [hcb] at hcalls
      simp only at hcalls
      by_cases hc : Scanner.connectionClosed e = true
      · rw [if_pos hc] at hcalls
        exact ⟨[.launchBrowser], by simp [Scanner.Flow.state, hcalls], Or.inr rfl, by simp [hc]⟩
      · rw [if_neg hc] at hcalls
        exact ⟨[], by simp [Scanner.Flow.state, hcalls], Or.inl rfl, by simp [hc]⟩

theorem finallyCalls_mem (page : Bool) (c : Call) (h : c ∈ finallyCalls page) :
    c = .pageClose := by
  cases page <;> simp [finallyCalls] at h
  exact h

/-- The calls the direct loop adds: no `proxyLimit`, and `tryScan` only with the URL and
flag of an entry of the list and with the user agent of the task. -/
theorem directLoop_calls {φ : Type} (w : World φ) :
    ∀ (vs : List Version) (k : Nat) (st : Scanner.TaskState),
      ∃ extra : List Call,
        (Scanner.directLoop w vs k st).state.calls = st.calls ++ extra ∧
          Call.proxyLimit ∉ extra ∧
          (∀ (url : String) (b : Bool) (ua : String), Call.tryScan url b ua ∈ extra →
            ({ url := url, sslBypass := b } : Version) ∈ vs ∧ ua = w.userAgent) := by
  intro vs
  induction vs with
  | nil => intro k st; exact ⟨[], by simp [Scanner.directLoop, Scanner.Flow.state], by simp, by simp⟩
  | cons v0 vs ih =>
    intro k st
    obtain ⟨mid, hcalls, hmid, _⟩ := directIteration_calls (w.direct k) v0 w.userAgent st
    have hnp : Call.proxyLimit ∉ (tryBlock (w.direct k) v0.url v0.sslBypass w.userAgent).calls ++
        mid ++ finallyCalls (tryBlock (w.direct k) v0.url v0.sslBypass w.userAgent).page := by
      have h1 := tryBlock_no_proxyLimit (w.direct k) v0.url v0.sslBypass w.userAgent
      have h2 := finallyCalls_no_proxyLimit
        (tryBlock (w.direct k) v0.url v0.sslBypass w.userAgent).page
      rcases hmid with rfl | rfl <;> simp [h1, h2]
    have hts : ∀ (url : String) (b : Bool) (ua : String),
        Call.tryScan url b ua ∈ (tryBlock (w.direct k) v0.url v0.sslBypass w.userAgent).calls ++
          mid ++ finallyCalls (tryBlock (w.direct k) v0.url v0.sslBypass w.userAgent).page →
        ({ url := url, sslBypass := b } : Version) = v0 ∧ ua = w.userAgent := by
      intro url b ua h
      simp only [List.mem_append] at h
      rcases h with (h | h) | h
      · obtain ⟨h1, h2, h3⟩ := tryBlock_tryScan_mem _ _ _ _ _ _ _ h
        subst h1 h2 h3
        exact ⟨rfl, rfl⟩
      · rcases hmid with rfl | rfl <;> simp at h
      · have := finallyCalls_mem _ _ h
        cases this
    obtain ⟨e1, he1⟩ : ∃ e1, e1 =
        (tryBlock (w.direct k) v0.url v0.sslBypass w.userAgent).calls ++ mid ++
          finallyCalls (tryBlock (w.direct k) v0.url v0.sslBypass w.userAgent).page := ⟨_, rfl⟩
    rw [← he1] at hnp hts
    have hcalls1 : (Scanner.directIteration (w.direct k) v0 w.userAgent st).state.calls =
        st.calls ++ e1 := by
      rw [hcalls, he1]; simp only [List.append_assoc]
    simp only [Scanner.directLoop]
    cases hf : Scanner.directIteration (w.direct k) v0 w.userAgent st with
    | next st1 =>
      rw [hf] at hcalls1
      simp only [Scanner.Flow.state] at hcalls1
      obtain ⟨extra, g1, g2, g3⟩ := ih (k + 1) st1
      refine ⟨e1 ++ extra, ?_, ?_, ?_⟩
      · rw [g1, hcalls1]; simp only [List.append_assoc]
      · intro h
        rcases List.mem_append.mp h with h | h
        · exact hnp h
        · exact g2 h
      · intro url b ua h
        rcases List.mem_append.mp h with h | h
        · obtain ⟨h1, h2⟩ := hts url b ua h
          exact ⟨h1 ▸ List.mem_cons_self _ _, h2⟩
        · obtain ⟨h1, h2⟩ := g3 url b ua h
          exact ⟨List.mem_cons_of_mem _ h1, h2⟩
    | returned st1 r =>
      rw [hf] at hcalls1
      simp only [Scanner.Flow.state] at hcalls1 ⊢
      refine ⟨e1, hcalls1, hnp, ?_⟩
      intro url b ua h
      obtain ⟨h1, h2⟩ := hts url b ua h
      exact ⟨h1 ▸ List.mem_cons_self _ _, h2⟩
    | raised st1 e =>
      rw [hf] at hcalls1
      simp only [Scanner.Flow.state] at hcalls1 ⊢
      refine ⟨e1, hcalls1, hnp, ?_⟩
      intro url b ua h
      obtain ⟨h1, h2⟩ := hts url b ua h
      exact ⟨h1 ▸ List.mem_cons_self _ _, h2⟩

/-- The calls the proxy loop adds: one attempt per entry, no `launchBrowser`, no
`proxyLimit`, and `tryScan` only with the wrapped URL of an entry, the flag false and
the user agent of the task. -/
theorem proxyLoop_calls {φ : Type} (w : World φ) :
    ∀ (vs : List Version) (k : Nat) (st : Scanner.TaskState),
      ∃ extra : List Call,
        (Scanner.proxyLoop w vs k st).calls = st.calls ++ extra ∧
          Call.launchBrowser ∉ extra ∧ Call.proxyLimit ∉ extra ∧
          attemptsRun extra = vs.length ∧
          (∀ (url : String) (b : Bool) (ua : String), Call.tryScan url b ua ∈ extra →
            b = false ∧ ua = w.userAgent ∧
              ∃ v ∈ vs, url = Scanner.scraperApiUrl v.url) := by
  intro vs
  induction vs with
  | nil => intro k st; exact ⟨[], by simp [Scanner.proxyLoop], by simp, by simp, rfl, by simp⟩
  | cons v0 vs ih =>
    intro k st
    obtain ⟨extra, g1, g2, g3, g4, g5⟩ :=
      ih (k + 1) (Scanner.proxyIteration (w.proxy k) v0 w.userAgent st)
    have hc : (Scanner.proxyIteration (w.proxy k) v0 w.userAgent st).calls =
        st.calls ++ ((tryBlock (w.proxy k) (Scanner.scraperApiUrl v0.url) false w.userAgent).calls
          ++ finallyCalls
            (tryBlock (w.proxy k) (Scanner.scraperApiUrl v0.url) false w.userAgent).page) := by
      simp [Scanner.proxyIteration]
    have h1 := tryBlock_no_proxyLimit (w.proxy k) (Scanner.scraperApiUrl v0.url) false w.userAgent
    have h2 := tryBlock_no_launch (w.proxy k) (Scanner.scraperApiUrl v0.url) false w.userAgent
    have h3 := tryBlock_attemptsRun (w.proxy k) (Scanner.scraperApiUrl v0.url) false w.userAgent
    refine ⟨((tryBlock (w.proxy k) (Scanner.scraperApiUrl v0.url) false w.userAgent).calls
          ++ finallyCalls
            (tryBlock (w.proxy k) (Scanner.scraperApiUrl v0.url) false w.userAgent).page)
        ++ extra, ?_, ?_, ?_, ?_, ?_⟩
    · simp only [Scanner.proxyLoop]
      rw [g1, hc]; simp only [List.append_assoc]
    · intro h
      simp only [List.mem_append] at h
      rcases h with (h | h) | h
      · exact h2 h
      · cases finallyCalls_mem _ _ h
      · exact g2 h
    · intro h
      simp only [List.mem_append] at h
      rcases h with (h | h) | h
      · exact h1 h
      · cases finallyCalls_mem _ _ h
      · exact g3 h
    · rw [attemptsRun_append, attemptsRun_append, h3, finallyCalls_attemptsRun, g4]
      simp only [List.length_cons]; omega
    · intro url b ua h
      simp only [List.mem_append] at h
      rcases h with (h | h) | h
      · obtain ⟨e1, e2, e3⟩ := tryBlock_tryScan_mem _ _ _ _ _ _ _ h
        exact ⟨e2, e3, v0, List.mem_cons_self _ _, e1⟩
      · cases finallyCalls_mem _ _ h
      · obtain ⟨e1, e2, v, hv, e3⟩ := g5 url b ua h
        exact ⟨e1, e2, v, List.mem_cons_of_mem _ hv, e3⟩

/-- The calls of a run: those of the direct loop, followed, when the proxy phase is
entered, by `proxyLimit` and the calls of the proxy loop. -/
theorem scanWithRetry_calls {φ : Type} (w : World φ) (u : String) :
    ∃ extra : List Call,
      (Scanner.scanWithRetry w u).1.calls =
          (Scanner.directLoop w (Scanner.versions u) 0
            { calls := [], errorMsgs := [], proxyNeeded := false }).state.calls ++ extra ∧
        Call.launchBrowser ∉ extra ∧
        (extra = [] ∨ ∃ rest : List Call, extra = .proxyLimit :: rest ∧
          Call.proxyLimit ∉ rest ∧ attemptsRun rest = 4 ∧
          ∀ (url : String) (b : Bool) (ua : String), Call.tryScan url b ua ∈ rest →
            b = false ∧ ua = w.userAgent ∧
              ∃ v ∈ Scanner.versions u, url = Scanner.scraperApiUrl v.url) := by
  unfold Scanner.scanWithRetry
  cases hf : Scanner.directLoop w (Scanner.versions u) 0
      { calls := [], errorMsgs := [], proxyNeeded := false } with
  | returned st r => exact ⟨[], by simp [Scanner.Flow.state], by simp, Or.inl rfl⟩
  | raised st e => exact ⟨[], by simp [Scanner.Flow.state], by simp, Or.inl rfl⟩
  | next st =>
    by_cases hpn : st.proxyNeeded = true
    · obtain ⟨rest, g1, g2, g3, g4, g5⟩ := proxyLoop_calls w (Scanner.versions u) 0
        { st with calls := st.calls ++ [.proxyLimit] }
      refine ⟨.proxyLimit :: rest, ?_, ?_, Or.inr ⟨rest, rfl, g3, g4, g5⟩⟩
      · dsimp only [Scanner.Flow.state]
        rw [if_pos hpn, g1]; simp
      · simpa using g2
    · exact ⟨[], by simp [Scanner.Flow.state, hpn], by simp, Or.inl rfl⟩

theorem scraperApiUrl_not_https (url : String) :
    jsStartsWith (Scanner.scraperApiUrl url) "https://" = false := by
  have h1 : "https://".data = ['h', 't', 't', 'p', 's', ':', '/', '/'] := by decide
  have h2 : "http://api.scraperapi.com/?api_key=".data =
      'h' :: 't' :: 't' :: 'p' :: ':' :: "//api.scraperapi.com/?api_key=".data := by decide
  simp [jsStartsWith, Scanner.scraperApiUrl, String.data_append, h1, h2, List.isPrefixOf]

/-- C16 (as stated, refuted): for an attempt with the bypass flag set and an `https://`
target whose page has lost its target, `createCDPSession()` raises and `tryScan` ends
there: the certificate command is not sent. -/
theorem certificate_command_needs_session :
    jsStartsWith "https://www.example.com" "https://" = true ∧
      Scanner.tryScan Sample.pageNoSession "https://www.example.com" true "Mozilla/5.0" =
        ([.createCDPSession],
          .error "Protocol error (Target.attachToTarget): Target closed.") ∧
      Scanner.PageCall.setIgnoreCertificateErrors ∉
        (Scanner.tryScan Sample.pageNoSession "https://www.example.com" true "Mozilla/5.0").1 := by
  refine ⟨by decide, by rfl, by decide⟩

/-- C16 (amended): `tryScan` sends `Security.setIgnoreCertificateErrors` exactly when its
CDP session was created, the bypass flag is set and the URL starts with `https://`.
Consequently a call of `tryScan` with the flag unset never sends it; the `tryScan` call
of a direct attempt carries the URL and the flag of the attempt's version, so a direct
attempt with bypass = false does not send it; and the `tryScan` call of a proxy attempt
carries the flag false (and a wrapped URL that does not start with `https://`), so no
proxy attempt sends it. -/
theorem certificate_command_guard {φ : Type} (p : Scanner.PageWorld) (url : String)
    (bypass : Bool) (ua : String) (w : World φ) (u : String) :
    (Scanner.PageCall.setIgnoreCertificateErrors ∈ (Scanner.tryScan p url bypass ua).1 ↔
        (p.createCDPSession = .ok () ∧ bypass = true ∧ jsStartsWith url "https://" = true)) ∧
      Scanner.PageCall.setIgnoreCertificateErrors ∉ (Scanner.tryScan p url false ua).1 ∧
      (∀ (url1 : String) (b1 : Bool) (ua1 : String),
        Call.tryScan url1 b1 ua1 ∈ (Scanner.scanWithRetry w u).1.calls →
          (({ url := url1, sslBypass := b1 } : Version) ∈ Scanner.versions u ∨
            (b1 = false ∧ ∃ v ∈ Scanner.versions u, url1 = Scanner.scraperApiUrl v.url))) ∧
      (∀ (a : AttemptWorld φ) (v : Version) (st : Scanner.TaskState) (url1 : String)
          (b1 : Bool) (ua1 : String),
        Call.tryScan url1 b1 ua1 ∈ (Scanner.directIteration a v ua st).state.calls →
          Call.tryScan url1 b1 ua1 ∈ st.calls ∨ (url1 = v.url ∧ b1 = v.sslBypass)) ∧
      (∀ (a : AttemptWorld φ) (v : Version) (st : Scanner.TaskState) (url1 : String)
          (b1 : Bool) (ua1 : String),
        Call.tryScan url1 b1 ua1 ∈ (Scanner.proxyIteration a v ua st).calls →
          Call.tryScan url1 b1 ua1 ∈ st.calls ∨
            (url1 = Scanner.scraperApiUrl v.url ∧ b1 = false)) ∧
      (∀ x : String, jsStartsWith (Scanner.scraperApiUrl x) "https://" = false) := by
  have hdom := getDomFeatures_no_certificate_call p url ua
  refine ⟨?_, ?_, ?_, ?_, ?_, scraperApiUrl_not_https⟩
  · unfold Scanner.tryScan
    cases hc : p.createCDPSession with
    | error m => simp
    | ok x =>
      by_cases hg : (bypass && jsStartsWith url "https://") = true
      · have hg' := hg
        simp only [Bool.and_eq_true] at hg'
        cases p.setIgnoreCertificateErrors <;> simp [hg, hg'.1, hg'.2]
      · have hg' : ¬ (bypass = true ∧ jsStartsWith url "https://" = true) := by
          simpa using hg
        simp only [hg, Bool.false_eq_true, if_false]
        simp [hdom, hg']
  · unfold Scanner.tryScan
    cases p.createCDPSession <;> simp [hdom]
  · intro url1 b1 ua1 h
    obtain ⟨extra, g1, _, g3⟩ := scanWithRetry_calls w u
    obtain ⟨e1, d1, _, d3⟩ := directLoop_calls w (Scanner.versions u) 0
      { calls := [], errorMsgs := [], proxyNeeded := false }
    rw [g1, d1] at h
    simp only [List.nil_append, List.mem_append] at h
    rcases h with h | h
    · exact Or.inl (d3 url1 b1 ua1 h).1
    · rcases g3 with rfl | ⟨rest, rfl, _, _, g5⟩
      · simp at h
      · simp only [List.mem_cons] at h
        rcases h with h | h
        · cases h
        · obtain ⟨h1, _, h3⟩ := g5 url1 b1 ua1 h
          exact Or.inr ⟨h1, h3⟩
  · intro a v st url1 b1 ua1 h
    obtain ⟨mid, hcalls, hmid, _⟩ := directIteration_calls a v ua st
    rw [hcalls] at h
    simp only [List.mem_append] at h
    rcases h with ((h | h) | h) | h
    · exact Or.inl h
    · obtain ⟨h1, h2, _⟩ := tryBlock_tryScan_mem _ _ _ _ _ _ _ h
      exact Or.inr ⟨h1, h2⟩
    · rcases hmid with rfl | rfl <;> simp at h
    · cases finallyCalls_mem _ _ h
  · intro a v st url1 b1 ua1 h
    simp only [Scanner.proxyIteration, List.mem_append] at h
    rcases h with (h | h) | h
    · exact Or.inl h
    · obtain ⟨h1, h2, _⟩ := tryBlock_tryScan_mem _ _ _ _ _ _ _ h
      exact Or.inr ⟨h1, h2⟩
    · cases finallyCalls_mem _ _ h

/-- C16 (amended) at a bypass attempt of an `https://` URL on a page that works. -/
theorem certificate_command_guard_witness :
    Scanner.PageCall.setIgnoreCertificateErrors ∈
      (Scanner.tryScan Sample.page "https://www.example.com" true "Mozilla/5.0").1 :=
  (certificate_command_guard Sample.page "https://www.example.com" true "Mozilla/5.0"
    (Sample.proxyWorks 7) "https://www.example.com").1.mpr ⟨rfl, rfl, by decide⟩

/-! ## The entries of `errorMsgs` (C18) -/

theorem includesChars_append_left (pat a s : List Char) (h : includesChars pat s = true) :
    includesChars pat (a ++ s) = true := by
  induction a with
  | nil => simpa using h
  | cons c a ih => simp [includesChars, ih]

theorem jsIncludes_append_left (pre s pat : String) (h : jsIncludes s pat = true) :
    jsIncludes (pre ++ s) pat = true := by
  unfold jsIncludes at h ⊢
  rw [String.data_append]
  exact includesChars_append_left _ _ _ h

/-- C18 (as stated, refuted): both navigations of every attempt of
`https://www.example.com` run into the navigation timeout, whose message names no URL.
The four entries recorded are the label followed by the message of the error
`getDomFeatures` raised; none of them contains the URL of its attempt. -/
theorem entry_without_url :
    (Scanner.scanWithRetry (Sample.onPage Sample.pageTimeout "https://www.example.com")
        "https://www.example.com").1.errorMsgs =
      [ "Try: Navigation failed (fallback too): Navigation timeout of 120000 ms exceeded",
        "Try: Navigation failed (fallback too): Navigation timeout of 120000 ms exceeded",
        "SSL Bypass: Navigation failed (fallback too): Navigation timeout of 120000 ms exceeded",
        "SSL Bypass: Navigation failed (fallback too): Navigation timeout of 120000 ms exceeded" ] ∧
      (Scanner.versions "https://www.example.com").map (·.url) =
        [ "https://www.example.com", "https://example.com", "https://www.example.com",
          "https://example.com" ] ∧
      jsIncludes "Try: Navigation failed (fallback too): Navigation timeout of 120000 ms exceeded"
        "https://www.example.com" = false ∧
      jsIncludes "Try: Navigation failed (fallback too): Navigation timeout of 120000 ms exceeded"
        "https://example.com" = false ∧
      jsIncludes
        "SSL Bypass: Navigation failed (fallback too): Navigation timeout of 120000 ms exceeded"
        "https://www.example.com" = false ∧
      jsIncludes
        "SSL Bypass: Navigation failed (fallback too): Navigation timeout of 120000 ms exceeded"
        "https://example.com" = false := by
  refine ⟨by rfl, by decide, by decide, by decide, by decide, by decide⟩

/-- C18 (amended): the entry recorded for a failed attempt is the attempt's label
(`Try`, `SSL Bypass` or `ScraperAPI (fallback)`) followed by the message of the raised
error, unchanged; scanner.js adds no URL to it. So the entry contains the attempt's
target URL whenever the raised message contains it, and the wrapper `getDomFeatures`
puts around the error of the second navigation keeps a URL that message contains. -/
theorem entry_is_labelled_message {φ : Type} (launch : Except String Unit) (bypass : Bool)
    (message url : String) (st : Scanner.TaskState) (a : AttemptWorld φ) (v : Version)
    (ua : String) :
    (Scanner.catchBlock launch bypass message st).1.errorMsgs =
        st.errorMsgs ++ [(if bypass then "SSL Bypass" else "Try") ++ ": " ++ message] ∧
      (a.outcome = .error message →
        (Scanner.proxyIteration a v ua st).errorMsgs =
          st.errorMsgs ++ ["ScraperAPI (fallback): " ++ message]) ∧
      (jsIncludes message url = true →
        jsIncludes ((if bypass then "SSL Bypass" else "Try") ++ ": " ++ message) url = true ∧
          jsIncludes ("ScraperAPI (fallback): " ++ message) url = true ∧
          jsIncludes ("Navigation failed (fallback too): " ++ message) url = true) := by
  refine ⟨catchBlock_errorMsgs launch bypass message st, ?_, ?_⟩
  · intro h
    rw [(proxyIteration_spec a v ua st).1, h]
  · intro h
    exact ⟨jsIncludes_append_left _ _ _ h, jsIncludes_append_left _ _ _ h,
      jsIncludes_append_left _ _ _ h⟩

/-- C18 (amended) at a connection reset, whose message names the URL. -/
theorem entry_is_labelled_message_witness :
    jsIncludes ("Try" ++ ": " ++ "net::ERR_CONNECTION_RESET at http://www.example.com")
      "http://www.example.com" = true :=
  ((entry_is_labelled_message (φ := Nat) (.ok ()) false
      "net::ERR_CONNECTION_RESET at http://www.example.com" "http://www.example.com"
      { calls := [], errorMsgs := [], proxyNeeded := false }
      (Sample.failing "net::ERR_CONNECTION_RESET at http://www.example.com")
      { url := "http://www.example.com", sslBypass := false } "Mozilla/5.0").2.2
    (by decide)).1

/-! ## Relaunches and the entry condition of the proxy phase in scanner.js (C11, C12, C14) -/

/-- A direct attempt that raises a message reporting a closed connection, followed by a
relaunch that raises, makes the error of the relaunch leave the function. -/
theorem directIteration_raised {φ : Type} (a : AttemptWorld φ) (v : Version) (ua : String)
    (st : Scanner.TaskState) (e m : String) (he : a.outcome = .error e)
    (hc : Scanner.connectionClosed e = true) (hl : a.launchBrowser = .error m) :
    ∃ st1 : Scanner.TaskState, Scanner.directIteration a v ua st = .raised st1 m ∧
      st1.errorMsgs =
        st.errorMsgs ++ [(if v.sslBypass then "SSL Bypass" else "Try") ++ ": " ++ e] ∧
      attemptsRun st1.calls = attemptsRun st.calls + 1 ∧
      (Call.proxyLimit ∈ st1.calls → Call.proxyLimit ∈ st.calls) := by
  have hl0 : attemptsRun [Call.launchBrowser] = 0 := by decide
  have h1 := tryBlock_no_proxyLimit a v.url v.sslBypass ua
  have h2 := finallyCalls_no_proxyLimit (tryBlock a v.url v.sslBypass ua).page
  unfold Scanner.directIteration
  simp only [tryBlock_outcome, he, Scanner.catchBlock, hc, if_true, hl]
  refine ⟨_, rfl, rfl, ?_, ?_⟩
  · simp only [attemptsRun_append, tryBlock_attemptsRun, finallyCalls_attemptsRun, hl0]
  · simp [h1, h2]

/-- An iteration of the direct loop goes on to the next one exactly when its attempt
raised and its `catch` block completed. -/
theorem directIteration_next_iff {φ : Type} (a : AttemptWorld φ) (v : Version) (ua : String)
    (st : Scanner.TaskState) :
    (∃ st1, Scanner.directIteration a v ua st = .next st1) ↔
      ∃ e, a.outcome = .error e ∧
        (Scanner.connectionClosed e = true → a.launchBrowser = .ok ()) := by
  constructor
  · rintro ⟨st1, h⟩
    cases ho : a.outcome with
    | ok f =>
      obtain ⟨st2, h2, _⟩ := directIteration_ok a v ua st f ho
      rw [h2] at h
      cases h
    | error e =>
      refine ⟨e, rfl, fun hc => ?_⟩
      cases hl : a.launchBrowser with
      | ok x => rfl
      | error m =>
        obtain ⟨st2, h2, _⟩ := directIteration_raised a v ua st e m ho hc hl
        rw [h2] at h
        cases h
  · rintro ⟨e, he, hre⟩
    obtain ⟨st1, h1, _⟩ := directIteration_error a v ua st e he hre
    exact ⟨st1, h1⟩

/-- The direct loop falls through exactly when every attempt of the list raised and
every `catch` block completed; `proxyNeeded` is then set exactly when it was set before
or one of the messages matches the table. -/
theorem directLoop_next_iff {φ : Type} (w : World φ) :
    ∀ (vs : List Version) (k0 : Nat) (st : Scanner.TaskState),
      ((∃ st1, Scanner.directLoop w vs k0 st = .next st1) ↔
          ∀ j, j < vs.length → ∃ e, (w.direct (k0 + j)).outcome = .error e ∧
            (Scanner.connectionClosed e = true →
              (w.direct (k0 + j)).launchBrowser = .ok ())) ∧
        (∀ st1, Scanner.directLoop w vs k0 st = .next st1 →
          (st1.proxyNeeded = true ↔
            (st.proxyNeeded = true ∨ ∃ j, j < vs.length ∧ ∃ e,
              (w.direct (k0 + j)).outcome = .error e ∧ Scanner.proxyEligible e = true))) := by
  intro vs
  induction vs with
  | nil =>
    intro k0 st
    refine ⟨⟨fun _ j hj => absurd hj (by simp), fun _ => ⟨st, rfl⟩⟩, ?_⟩
    intro st1 h
    simp only [Scanner.directLoop, Scanner.Flow.next.injEq] at h
    subst h
    simp
  | cons v0 vs ih =>
    intro k0 st
    have shift : ∀ j, k0 + 1 + j = k0 + (j + 1) := fun j => by omega
    constructor
    · constructor
      · rintro ⟨st2, h⟩
        simp only [Scanner.directLoop] at h
        cases hf : Scanner.directIteration (w.direct k0) v0 w.userAgent st with
        | next st1 =>
          rw [hf] at h
          have h0 := (directIteration_next_iff (w.direct k0) v0 w.userAgent st).mp ⟨st1, hf⟩
          have hrest := ((ih (k0 + 1) st1).1).mp ⟨st2, h⟩
          intro j hj
          cases j with
          | zero => simpa using h0
          | succ j =>
            have := hrest j (by simpa using hj)
            rw [shift] at this
            exact this
        | returned st1 r => rw [hf] at h; cases h
        | raised st1 e => rw [hf] at h; cases h
      · intro hall
        obtain ⟨st1, hf⟩ := (directIteration_next_iff (w.direct k0) v0 w.userAgent st).mpr
          (by simpa using hall 0 (by simp))
        obtain ⟨st2, h2⟩ := ((ih (k0 + 1) st1).1).mpr (by
          intro j hj
          rw [shift]
          exact hall (j + 1) (by simpa using hj))
        exact ⟨st2, by simp only [Scanner.directLoop, hf, h2]⟩
    · intro st2 h
      simp only [Scanner.directLoop] at h
      cases hf : Scanner.directIteration (w.direct k0) v0 w.userAgent st with
      | next st1 =>
        rw [hf] at h
        obtain ⟨e, he, hre⟩ :=
          (directIteration_next_iff (w.direct k0) v0 w.userAgent st).mp ⟨st1, hf⟩
        obtain ⟨st1', h1, _, hpn, _⟩ :=
          directIteration_error (w.direct k0) v0 w.userAgent st e he hre
        rw [hf] at h1
        cases h1
        rw [(ih (k0 + 1) st1).2 st2 h, hpn]
        simp only [Bool.or_eq_true]
        constructor
        · rintro ((h0 | h0) | ⟨j, hj, e', he', hel⟩)
          · exact Or.inl h0
          · exact Or.inr ⟨0, by simp, e, by simpa using he, h0⟩
          · exact Or.inr ⟨j + 1, by simpa using hj, e', by rw [← shift]; exact he', hel⟩
        · rintro (h0 | ⟨j, hj, e', he', hel⟩)
          · exact Or.inl (Or.inl h0)
          · cases j with
            | zero =>
              simp only [Nat.add_zero] at he'
              rw [he] at he'
              cases he'
              exact Or.inl (Or.inr hel)
            | succ j =>
              exact Or.inr ⟨j, by simpa using hj, e', by rw [shift]; exact he', hel⟩
      | returned st1 r => rw [hf] at h; cases h
      | raised st1 e => rw [hf] at h; cases h

theorem directLoop_cons_calls {φ : Type} (w : World φ) (v0 : Version) (vs : List Version)
    (k0 : Nat) (st : Scanner.TaskState) :
    ∃ extra : List Call,
      (Scanner.directLoop w (v0 :: vs) k0 st).state.calls =
        (Scanner.directIteration (w.direct k0) v0 w.userAgent st).state.calls ++ extra := by
  simp only [Scanner.directLoop]
  cases hf : Scanner.directIteration (w.direct k0) v0 w.userAgent st with
  | next st1 =>
    obtain ⟨extra, h, _⟩ := directLoop_calls w vs (k0 + 1) st1
    exact ⟨extra, by simpa [Scanner.Flow.state] using h⟩
  | returned st1 r => exact ⟨[], by simp [Scanner.Flow.state]⟩
  | raised st1 e => exact ⟨[], by simp [Scanner.Flow.state]⟩

/-- When the attempt at position `j` of the direct loop is run and raises a message
reporting a closed connection, the calls of the loop contain a `launchBrowser()` that
comes after the `browser.newPage()` of that attempt and before that of the next. -/
theorem directLoop_relaunch_position {φ : Type} (w : World φ) :
    ∀ (j : Nat) (vs : List Version) (k0 : Nat) (st : Scanner.TaskState) (e : String),
      j < vs.length →
      (∀ i, i < j → ∃ e1, (w.direct (k0 + i)).outcome = .error e1 ∧
        (Scanner.connectionClosed e1 = true → (w.direct (k0 + i)).launchBrowser = .ok ())) →
      (w.direct (k0 + j)).outcome = .error e → Scanner.connectionClosed e = true →
      ∃ pre post : List Call,
        (Scanner.directLoop w vs k0 st).state.calls = pre ++ Call.launchBrowser :: post ∧
          attemptsRun pre = attemptsRun st.calls + (j + 1) := by
  intro j
  induction j with
  | zero =>
    intro vs k0 st e hj _ he hc
    cases vs with
    | nil => simp at hj
    | cons v0 vs =>
      obtain ⟨extra, hx⟩ := directLoop_cons_calls w v0 vs k0 st
      obtain ⟨mid, hcalls, _, hmid⟩ := directIteration_calls (w.direct k0) v0 w.userAgent st
      have hm : mid = [.launchBrowser] := hmid.mpr ⟨e, by simpa using he, hc⟩
      subst hm
      refine ⟨st.calls ++ (tryBlock (w.direct k0) v0.url v0.sslBypass w.userAgent).calls,
        finallyCalls (tryBlock (w.direct k0) v0.url v0.sslBypass w.userAgent).page ++ extra,
        ?_, ?_⟩
      · rw [hx, hcalls]; simp
      · rw [attemptsRun_append, tryBlock_attemptsRun]
  | succ j ih =>
    intro vs k0 st e hj hfail he hc
    cases vs with
    | nil => simp at hj
    | cons v0 vs =>
      obtain ⟨e0, he0, hre0⟩ := hfail 0 (Nat.succ_pos j)
      obtain ⟨st1, h1, _, _, h4, _⟩ :=
        directIteration_error (w.direct k0) v0 w.userAgent st e0 (by simpa using he0)
          (by simpa using hre0)
      have shift : ∀ i, k0 + 1 + i = k0 + (i + 1) := fun i => by omega
      obtain ⟨pre, post, g1, g2⟩ := ih vs (k0 + 1) st1 e (by simpa using hj)
        (fun i hi => by rw [shift]; exact hfail (i + 1) (Nat.succ_lt_succ hi))
        (by rw [shift]; exact he) hc
      refine ⟨pre, post, ?_, ?_⟩
      · simp only [Scanner.directLoop, h1]
        exact g1
      · rw [g2, h4]; omega

theorem dropWhile_proxyLimit (xs rest : List Call) (h : Call.proxyLimit ∉ xs) :
    (xs ++ Call.proxyLimit :: rest).dropWhile (· != Call.proxyLimit) =
      Call.proxyLimit :: rest := by
  induction xs with
  | nil => simp [List.dropWhile]
  | cons c xs ih =>
    have hc : c ≠ Call.proxyLimit := fun hce => h (hce ▸ List.mem_cons_self _ _)
    have hxs : Call.proxyLimit ∉ xs := fun hm => h (List.mem_cons_of_mem _ hm)
    have hb : (c != Call.proxyLimit) = true := by simpa using hc
    simp only [List.cons_append, List.dropWhile, hb]
    exact ih hxs

theorem takeWhile_proxyLimit (xs rest : List Call) (h : Call.proxyLimit ∉ xs) :
    (xs ++ Call.proxyLimit :: rest).takeWhile (· != Call.proxyLimit) = xs := by
  induction xs with
  | nil => simp [List.takeWhile]
  | cons c xs ih =>
    have hc : c ≠ Call.proxyLimit := fun hce => h (hce ▸ List.mem_cons_self _ _)
    have hxs : Call.proxyLimit ∉ xs := fun hm => h (List.mem_cons_of_mem _ hm)
    have hb : (c != Call.proxyLimit) = true := by simpa using hc
    simp only [List.cons_append, List.takeWhile, hb]
    exact congrArg (List.cons c) (ih hxs)

/-- C11 (as stated, refuted): all four direct attempts are reset by the peer, the proxy
phase is entered, and its first attempt raises `Protocol error: Connection closed.`;
three more proxy attempts open a page, and `launchBrowser()` is called nowhere in the
run. -/
theorem proxy_attempt_no_relaunch :
    Scanner.connectionClosed "Protocol error: Connection closed." = true ∧
      (Sample.proxyConnectionClosed.proxy 0).outcome =
        .error "Protocol error: Connection closed." ∧
      proxyAttemptsRun
        (Scanner.scanWithRetry Sample.proxyConnectionClosed "http://www.example.com").1.calls
        = 4 ∧
      Call.launchBrowser ∉
        (Scanner.scanWithRetry Sample.proxyConnectionClosed "http://www.example.com").1.calls := by
  refine ⟨by decide, by rfl, by decide, by decide⟩

/-- C11 (amended): whenever a direct attempt of a task (attempt k, run after k failed
attempts) raises an error whose message contains `Protocol error: Connection closed.`,
`launchBrowser()` is called after the `browser.newPage()` of that attempt and before
any later attempt of the task opens a page: the calls of the run split around a
`launchBrowser` with exactly k + 1 page openings before it. A proxy attempt triggers no
relaunch, whatever it raises: from `proxyLimit` on, the run calls no `launchBrowser`. -/
theorem relaunch_before_next_attempt {φ : Type} (w : World φ) (u : String) :
    (∀ (k : Nat) (e : String), k < 4 →
        (∀ i, i < k → ∃ e1, (w.direct i).outcome = .error e1 ∧
          (Scanner.connectionClosed e1 = true → (w.direct i).launchBrowser = .ok ())) →
        (w.direct k).outcome = .error e → Scanner.connectionClosed e = true →
        ∃ pre post : List Call,
          (Scanner.scanWithRetry w u).1.calls = pre ++ Call.launchBrowser :: post ∧
            attemptsRun pre = k + 1) ∧
      Call.launchBrowser ∉
        (Scanner.scanWithRetry w u).1.calls.dropWhile (· != Call.proxyLimit) := by
  obtain ⟨extra, g1, g2, g3⟩ := scanWithRetry_calls w u
  obtain ⟨e1, d1, d2, _⟩ := directLoop_calls w (Scanner.versions u) 0
    { calls := [], errorMsgs := [], proxyNeeded := false }
  constructor
  · intro k e hk hfail he hc
    obtain ⟨pre, post, p1, p2⟩ := directLoop_relaunch_position w k (Scanner.versions u) 0
      { calls := [], errorMsgs := [], proxyNeeded := false } e
      (by simpa [Scanner.versions] using hk) (by simpa using hfail) (by simpa using he) hc
    refine ⟨pre, post ++ extra, ?_, ?_⟩
    · rw [g1, p1]; simp
    · rw [p2]; simp [attemptsRun]
  · rw [g1, d1]
    simp only [List.nil_append]
    rcases g3 with rfl | ⟨rest, rfl, _, _, _⟩
    · have hnil : (e1 ++ []).dropWhile (· != Call.proxyLimit) = [] := by
        rw [List.append_nil, List.dropWhile_eq_nil_iff]
        intro x hx
        have : x ≠ Call.proxyLimit := fun hxe => d2 (hxe ▸ hx)
        simpa using this
      rw [hnil]
      simp
    · rw [dropWhile_proxyLimit e1 rest d2]
      exact g2

/-- C11 (amended) at a task whose first direct attempt finds the connection closed. -/
theorem relaunch_before_next_attempt_witness :
    ∃ pre post : List Call,
      (Scanner.scanWithRetry Sample.relaunchFails "http://www.example.com").1.calls =
          pre ++ Call.launchBrowser :: post ∧
        attemptsRun pre = 0 + 1 :=
  (relaunch_before_next_attempt Sample.relaunchFails "http://www.example.com").1 0
    "Protocol error: Connection closed." (by decide) (fun i hi => absurd hi (by omega))
    rfl (by decide)

theorem relaunchCompletes_of {φ : Type} (a : AttemptWorld φ) (e : String)
    (he : a.outcome = .error e)
    (hre : Scanner.connectionClosed e = true → a.launchBrowser = .ok ()) :
    Scanner.relaunchCompletes a = true := by
  unfold Scanner.relaunchCompletes
  rw [he]
  by_cases hc : Scanner.connectionClosed e = true
  · simp [hc, hre hc]
  · simp [hc]

/-- The three shapes of a run: the direct loop falls through with `proxyNeeded` set and
the proxy phase follows; it falls through with `proxyNeeded` unset and the function
raises the joined messages; or it ends the function itself. -/
theorem scanWithRetry_shape {φ : Type} (w : World φ) (u : String) :
    (∃ st rest, Scanner.directLoop w (Scanner.versions u) 0
          { calls := [], errorMsgs := [], proxyNeeded := false } = .next st ∧
        st.proxyNeeded = true ∧
        (Scanner.scanWithRetry w u).1.calls = st.calls ++ Call.proxyLimit :: rest ∧
        Call.proxyLimit ∉ st.calls ∧ attemptsRun rest = 4) ∨
      (∃ st, Scanner.directLoop w (Scanner.versions u) 0
          { calls := [], errorMsgs := [], proxyNeeded := false } = .next st ∧
        st.proxyNeeded = false ∧
        Scanner.scanWithRetry w u = (st, .error (failureMessage st.errorMsgs)) ∧
        Call.proxyLimit ∉ st.calls) ∨
      ((¬ ∃ st, Scanner.directLoop w (Scanner.versions u) 0
          { calls := [], errorMsgs := [], proxyNeeded := false } = .next st) ∧
        Call.proxyLimit ∉ (Scanner.scanWithRetry w u).1.calls) := by
  obtain ⟨e1, d1, d2, _⟩ := directLoop_calls w (Scanner.versions u) 0
    { calls := [], errorMsgs := [], proxyNeeded := false }
  unfold Scanner.scanWithRetry
  cases hf : Scanner.directLoop w (Scanner.versions u) 0
      { calls := [], errorMsgs := [], proxyNeeded := false } with
  | returned st r =>
    rw [hf] at d1
    simp only [Scanner.Flow.state, List.nil_append] at d1
    exact Or.inr (Or.inr ⟨by simp, by simpa [d1] using d2⟩)
  | raised st e =>
    rw [hf] at d1
    simp only [Scanner.Flow.state, List.nil_append] at d1
    exact Or.inr (Or.inr ⟨by simp, by simpa [d1] using d2⟩)
  | next st =>
    rw [hf] at d1
    simp only [Scanner.Flow.state, List.nil_append] at d1
    have hnp : Call.proxyLimit ∉ st.calls := by rw [d1]; exact d2
    by_cases hpn : st.proxyNeeded = true
    · obtain ⟨rest, g1, _, _, g4, _⟩ := proxyLoop_calls w (Scanner.versions u) 0
        { st with calls := st.calls ++ [.proxyLimit] }
      refine Or.inl ⟨st, rest, rfl, hpn, ?_, hnp, g4⟩
      dsimp only
      rw [if_pos hpn, g1]
      simp
    · have hpn' : st.proxyNeeded = false := by simpa using hpn
      refine Or.inr (Or.inl ⟨st, rfl, hpn', ?_, hnp⟩)
      dsimp only
      rw [if_neg hpn]

/-- C12 (as stated, refuted): the first direct attempt is reset by the peer (a
proxy-eligible error, so `proxyNeeded` is set), the next two time out, and the fourth
finds the connection closed while the relaunch raises. All four direct attempts raised
and one was proxy-eligible, yet the proxy phase is not entered: the error of
`launchBrowser()` leaves the function. -/
theorem relaunch_failure_skips_proxy :
    (Sample.fourthRelaunchFails.direct 0).outcome =
        .error "net::ERR_CONNECTION_RESET at http://www.example.com" ∧
      Scanner.proxyEligible "net::ERR_CONNECTION_RESET at http://www.example.com" = true ∧
      (Sample.fourthRelaunchFails.direct 1).outcome =
        .error "Navigation timeout of 120000 ms exceeded" ∧
      (Sample.fourthRelaunchFails.direct 2).outcome =
        .error "Navigation timeout of 120000 ms exceeded" ∧
      (Sample.fourthRelaunchFails.direct 3).outcome =
        .error "Protocol error: Connection closed." ∧
      attemptsRun
        (Scanner.scanWithRetry Sample.fourthRelaunchFails "http://www.example.com").1.calls
        = 4 ∧
      Call.proxyLimit ∉
        (Scanner.scanWithRetry Sample.fourthRelaunchFails "http://www.example.com").1.calls ∧
      (Scanner.scanWithRetry Sample.fourthRelaunchFails "http://www.example.com").2 =
        .error "Failed to launch the browser process!" := by
  refine ⟨by rfl, by decide, by rfl, by rfl, by rfl, by decide, by decide, by rfl⟩

/-- C12 (amended): the proxy phase is entered if and only if all four direct attempts
raised, no relaunch they triggered raised, and the message of at least one of them
matches the proxy table. When all four direct attempts raise, no relaunch raises and
none is proxy-eligible, the task fails with the join of exactly four messages, after
four attempts, none of them a proxy attempt. And whenever the proxy phase is entered,
exactly four attempts were started before `proxyLimit` and four after it. -/
theorem proxy_phase_gate {φ : Type} (w : World φ) (u : String) :
    (Call.proxyLimit ∈ (Scanner.scanWithRetry w u).1.calls ↔
        ((∀ k, k < 4 → ∃ e, (w.direct k).outcome = .error e ∧
            (Scanner.connectionClosed e = true → (w.direct k).launchBrowser = .ok ())) ∧
          ∃ k, k < 4 ∧ ∃ e, (w.direct k).outcome = .error e ∧
            Scanner.proxyEligible e = true)) ∧
      ((∀ k, k < 4 → ∃ e, (w.direct k).outcome = .error e ∧
            (Scanner.connectionClosed e = true → (w.direct k).launchBrowser = .ok ()) ∧
            Scanner.proxyEligible e = false) →
        (Scanner.scanWithRetry w u).2 =
            .error (failureMessage (Scanner.scanWithRetry w u).1.errorMsgs) ∧
          (Scanner.scanWithRetry w u).1.errorMsgs.length = 4 ∧
          attemptsRun (Scanner.scanWithRetry w u).1.calls = 4 ∧
          proxyAttemptsRun (Scanner.scanWithRetry w u).1.calls = 0 ∧
          Call.proxyLimit ∉ (Scanner.scanWithRetry w u).1.calls) ∧
      (Call.proxyLimit ∈ (Scanner.scanWithRetry w u).1.calls →
        attemptsRun ((Scanner.scanWithRetry w u).1.calls.takeWhile (· != Call.proxyLimit)) = 4 ∧
          proxyAttemptsRun (Scanner.scanWithRetry w u).1.calls = 4) := by
  obtain ⟨hiff, hpn⟩ := directLoop_next_iff w (Scanner.versions u) 0
    { calls := [], errorMsgs := [], proxyNeeded := false }
  have hlen : (Scanner.versions u).length = 4 := rfl
  simp only [hlen, Nat.zero_add, Bool.false_eq_true, false_or] at hiff hpn
  have hinv : ∀ st, Scanner.directLoop w (Scanner.versions u) 0
      { calls := [], errorMsgs := [], proxyNeeded := false } = .next st →
      st.errorMsgs.length = 4 ∧ attemptsRun st.calls = 4 := by
    intro st hst
    have hall := hiff.mp ⟨st, hst⟩
    rcases directLoop_inv w (Scanner.versions u) 0
        { calls := [], errorMsgs := [], proxyNeeded := false }
        (by
          intro j hj
          rw [hlen] at hj
          obtain ⟨e, he, hre⟩ := hall j hj
          simpa using relaunchCompletes_of (w.direct j) e he hre) with
      ⟨st1, h1, h2, h3, _⟩ | ⟨st1, r, h1⟩
    · rw [hst] at h1
      cases h1
      exact ⟨by simpa [hlen] using h2, by simpa [hlen, attemptsRun] using h3⟩
    · rw [hst] at h1
      cases h1
  refine ⟨?_, ?_, ?_⟩
  · rcases scanWithRetry_shape w u with
      ⟨st, rest, hst, hp, hc, _, _⟩ | ⟨st, hst, hp, hsw, hnp⟩ | ⟨hno, hnp⟩
    · constructor
      · intro _
        exact ⟨hiff.mp ⟨st, hst⟩, (hpn st hst).mp hp⟩
      · intro _
        rw [hc]; simp
    · constructor
      · intro h
        rw [hsw] at h
        exact absurd h hnp
      · rintro ⟨_, hel⟩
        have := (hpn st hst).mpr hel
        rw [hp] at this
        cases this
    · constructor
      · intro h
        exact absurd h hnp
      · rintro ⟨hall, _⟩
        exact absurd (hiff.mpr hall) hno
  · intro hall
    obtain ⟨st, hst⟩ := hiff.mpr (fun k hk => by
      obtain ⟨e, he, hre, _⟩ := hall k hk
      exact ⟨e, he, hre⟩)
    have hp : st.proxyNeeded = false := by
      by_contra hc
      have hc' : st.proxyNeeded = true := by simpa using hc
      obtain ⟨k, hk, e, he, hel⟩ := (hpn st hst).mp hc'
      obtain ⟨e', he', _, hne⟩ := hall k hk
      rw [he] at he'
      cases he'
      rw [hel] at hne
      cases hne
    obtain ⟨h1, h2⟩ := hinv st hst
    rcases scanWithRetry_shape w u with
      ⟨st', rest, hst', hp', _⟩ | ⟨st', hst', _, hsw, hnp⟩ | ⟨hno, _⟩
    · rw [hst] at hst'
      cases hst'
      rw [hp] at hp'
      cases hp'
    · rw [hst] at hst'
      cases hst'
      rw [hsw]
      exact ⟨rfl, h1, h2, proxyAttemptsRun_of_not_mem _ hnp, hnp⟩
    · exact absurd ⟨st, hst⟩ hno
  · intro h
    rcases scanWithRetry_shape w u with
      ⟨st, rest, hst, _, hc, hnp, hr⟩ | ⟨st, _, _, hsw, hnp⟩ | ⟨_, hnp⟩
    · rw [hc, takeWhile_proxyLimit _ _ hnp]
      refine ⟨(hinv st hst).2, ?_⟩
      unfold proxyAttemptsRun
      rw [dropWhile_proxyLimit _ _ hnp]
      have : attemptsRun (Call.proxyLimit :: rest) = attemptsRun rest := by
        simp [attemptsRun]
      rw [this, hr]
    · rw [hsw] at h
      exact absurd h hnp
    · exact absurd h hnp

/-- C12 (amended) at a task all of whose eight attempts raise. -/
theorem proxy_phase_gate_witness :
    Call.proxyLimit ∈ (Scanner.scanWithRetry Sample.allFail "http://www.example.com").1.calls :=
  (proxy_phase_gate Sample.allFail "http://www.example.com").1.mpr
    ⟨fun _ _ => ⟨"net::ERR_CONNECTION_RESET at http://www.example.com", rfl, fun _ => rfl⟩,
      0, by decide, "net::ERR_CONNECTION_RESET at http://www.example.com", rfl, by decide⟩

/-- When the attempt at position `j` of the direct loop is run, raises a message
reporting a closed connection, and the relaunch raises, the error of the relaunch
leaves the loop. -/
theorem directLoop_relaunch_raises {φ : Type} (w : World φ) :
    ∀ (j : Nat) (vs : List Version) (k0 : Nat) (st : Scanner.TaskState) (e m : String),
      j < vs.length →
      (∀ i, i < j → ∃ e1, (w.direct (k0 + i)).outcome = .error e1 ∧
        (Scanner.connectionClosed e1 = true → (w.direct (k0 + i)).launchBrowser = .ok ())) →
      (w.direct (k0 + j)).outcome = .error e → Scanner.connectionClosed e = true →
      (w.direct (k0 + j)).launchBrowser = .error m →
      ∃ st1, Scanner.directLoop w vs k0 st = .raised st1 m := by
  intro j
  induction j with
  | zero =>
    intro vs k0 st e m hj _ he hc hl
    cases vs with
    | nil => simp at hj
    | cons v0 vs =>
      obtain ⟨st1, h1, _⟩ := directIteration_raised (w.direct k0) v0 w.userAgent st e m
        (by simpa using he) hc (by simpa using hl)
      exact ⟨st1, by simp only [Scanner.directLoop, h1]⟩
  | succ j ih =>
    intro vs k0 st e m hj hfail he hc hl
    cases vs with
    | nil => simp at hj
    | cons v0 vs =>
      obtain ⟨e0, he0, hre0⟩ := hfail 0 (Nat.succ_pos j)
      obtain ⟨st1, h1, _⟩ :=
        directIteration_error (w.direct k0) v0 w.userAgent st e0 (by simpa using he0)
          (by simpa using hre0)
      have shift : ∀ i, k0 + 1 + i = k0 + (i + 1) := fun i => by omega
      obtain ⟨st2, g1⟩ := ih vs (k0 + 1) st1 e m (by simpa using hj)
        (fun i hi => by rw [shift]; exact hfail (i + 1) (Nat.succ_lt_succ hi))
        (by rw [shift]; exact he) hc (by rw [shift]; exact hl)
      exact ⟨st2, by simp only [Scanner.directLoop, h1, g1]⟩

/-- C14 (as stated, refuted): in a batch of two tasks, every direct attempt of
`http://gone.example` finds the connection closed and the browser cannot be launched
again. `scanUrls` does not fail: it returns `results` with a row for each URL, the
row of `http://gone.example` being the Failure row that carries the message of the
launch error, the row of the other task a Success row. -/
theorem relaunch_failure_not_fatal :
    (Scanner.scanUrls
        [ { url := "http://www.example.com", label := .num 0 },
          { url := "http://gone.example", label := .num 1 } ] Sample.mixedBatch).map
      (fun results =>
        (keysOf results, getProp "http://gone.example" results,
          (getProp "http://www.example.com" results).map (hasProp "error"))) =
      .ok (["http://gone.example", "http://www.example.com"],
        some [ ("error", .str "Failed to launch the browser process!"),
               ("finalUrlTried", .str "http://gone.example"), ("label", .num 1) ],
        some false) := by
  rfl

/-- C14 (amended): a relaunch failure ends only the task in which it happens. If a
direct attempt of a task (attempt k, run after k failed attempts) raises a message
containing `Protocol error: Connection closed.` and `launchBrowser()` then raises with
message m, `scanWithRetry` raises m, and the task wrapper records the Failure row
`{error: m, finalUrlTried: url, label}` for the task's URL and the record `{url, m}` in
`errorLog`; `scanUrls` itself returns `results` whenever its first `launchBrowser()` and
`writeResultsToCsv` return, whatever happens inside the tasks. -/
theorem relaunch_failure_is_task_failure (w : World Scanner.Features)
    (t : Scanner.ScanTask) (b : Scanner.Batch) (k : Nat) (e m : String) (hk : k < 4)
    (hfail : ∀ i, i < k → ∃ e1, (w.direct i).outcome = .error e1 ∧
      (Scanner.connectionClosed e1 = true → (w.direct i).launchBrowser = .ok ()))
    (he : (w.direct k).outcome = .error e) (hc : Scanner.connectionClosed e = true)
    (hl : (w.direct k).launchBrowser = .error m) :
    (Scanner.scanWithRetry w t.url).2 = .error m ∧
      Scanner.taskWrapper w t b =
        { results :=
            setProp t.url
              [("error", .str m), ("finalUrlTried", .str t.url), ("label", t.label)] b.results
          errorLog := b.errorLog ++ [(t.url, m)] } ∧
      (∀ (urls : List Scanner.ScanTask) (bw : Scanner.BatchWorld),
        bw.launchBrowser = .ok () → bw.writeResultsToCsv = .ok () →
        Scanner.scanUrls urls bw = .ok (Scanner.runTasks urls bw).results) := by
  obtain ⟨st1, h1⟩ := directLoop_relaunch_raises w k (Scanner.versions t.url) 0
    { calls := [], errorMsgs := [], proxyNeeded := false } e m
    (by simpa [Scanner.versions] using hk) (by simpa using hfail) (by simpa using he) hc
    (by simpa using hl)
  have hsw : (Scanner.scanWithRetry w t.url).2 = .error m := by
    unfold Scanner.scanWithRetry
    rw [h1]
  refine ⟨hsw, ?_, ?_⟩
  · unfold Scanner.taskWrapper
    rw [hsw]
    rfl
  · intro urls bw h1 h2
    simp [Scanner.scanUrls, h1, h2]

/-- C14 (amended) at the task of `http://gone.example`, whose first attempt finds the
connection closed while the browser cannot be launched again. -/
theorem relaunch_failure_is_task_failure_witness :
    (Scanner.scanWithRetry (Sample.mixedBatch.task 1) "http://gone.example").2 =
      .error "Failed to launch the browser process!" :=
  (relaunch_failure_is_task_failure (Sample.mixedBatch.task 1)
    { url := "http://gone.example", label := .num 1 } { results := [], errorLog := [] } 0
    "Protocol error: Connection closed." "Failed to launch the browser process!" (by decide)
    (fun i hi => absurd hi (by omega)) rfl (by decide) rfl).1

/-! ## The direct attempts of `scanWithRetry` in scanner_add.js (C13) -/

/-- A direct attempt of scanner_add.js that raises, with a `catch` block that completes:
the state with which the loop goes on. -/
theorem add_directIteration_error {φ : Type} (count : Bool) (a : AttemptWorld φ)
    (v : Version) (ua : String) (st : ScannerAdd.TaskState φ) (e : String)
    (he : a.outcome = .error e)
    (hre : jsIncludes e "Protocol error: Connection closed." = true →
      a.launchBrowser = .ok ()) :
    ScannerAdd.directIteration count a v ua st =
      .next
        { calls := st.calls ++ attemptCalls a v ua
          errorMsgs :=
            st.errorMsgs ++ [(if v.sslBypass then "SSL Bypass" else "Try") ++ ": " ++ e]
          proxyNeeded :=
            st.proxyNeeded || ScannerAdd.proxyRetryErrors.any (fun x => jsIncludes e x)
          errNameNotResolvedCount :=
            st.errNameNotResolvedCount +
              (if count && jsIncludes e "ERR_NAME_NOT_RESOLVED" then 1 else 0)
          result := st.result } := by
  unfold ScannerAdd.directIteration ScannerAdd.catchBlock attemptCalls
  simp only [tryBlock_outcome, he]
  cases hc : jsIncludes e "Protocol error: Connection closed." with
  | false =>
    cases hn : (count && jsIncludes e "ERR_NAME_NOT_RESOLVED") <;>
      cases hp : ScannerAdd.proxyRetryErrors.any (fun x => jsIncludes e x) <;>
      simp [hn, hp]
  | true =>
    rw [hre hc]
    cases hn : (count && jsIncludes e "ERR_NAME_NOT_RESOLVED") <;>
      cases hp : ScannerAdd.proxyRetryErrors.any (fun x => jsIncludes e x) <;>
      simp [hn, hp]

theorem add_proxyLoop_calls {φ : Type} (w : World φ) :
    ∀ (vs : List Version) (k : Nat) (st : ScannerAdd.TaskState φ),
      ∃ extra : List Call,
        (ScannerAdd.proxyLoop w vs k st).calls = st.calls ++ extra ∧
          attemptsRun extra = vs.length := by
  intro vs
  induction vs with
  | nil => intro k st; exact ⟨[], by simp [ScannerAdd.proxyLoop], rfl⟩
  | cons v0 vs ih =>
    intro k st
    obtain ⟨extra, g1, g2⟩ :=
      ih (k + 1) (ScannerAdd.proxyIteration (w.proxy k) v0 w.userAgent st)
    have hc : (ScannerAdd.proxyIteration (w.proxy k) v0 w.userAgent st).calls =
        st.calls ++
          ((tryBlock (w.proxy k) (ScannerAdd.scraperApiUrl v0.url) false w.userAgent).calls ++
            finallyCalls
              (tryBlock (w.proxy k) (ScannerAdd.scraperApiUrl v0.url) false w.userAgent).page) := by
      unfold ScannerAdd.proxyIteration
      dsimp only
      split <;> simp
    refine ⟨((tryBlock (w.proxy k) (ScannerAdd.scraperApiUrl v0.url) false w.userAgent).calls ++
        finallyCalls
          (tryBlock (w.proxy k) (ScannerAdd.scraperApiUrl v0.url) false w.userAgent).page) ++
        extra, ?_, ?_⟩
    · simp only [ScannerAdd.proxyLoop]
      rw [g1, hc]; simp only [List.append_assoc]
    · rw [attemptsRun_append, attemptsRun_append, tryBlock_attemptsRun,
        finallyCalls_attemptsRun, g2]
      simp only [List.length_cons]; omega

/-- C13 (as stated, refuted): both non-bypass attempts of `http://www.gone.example` fail
with `net::ERR_NAME_NOT_RESOLVED`. The task fails after these two attempts, with their
two messages: no attempt with TLS bypass is run. -/
theorem name_not_resolved_skips_bypass :
    attemptsRun
        (ScannerAdd.scanWithRetry Sample.nameNotResolved "http://www.gone.example").1.calls
        = 2 ∧
      (ScannerAdd.scanWithRetry Sample.nameNotResolved "http://www.gone.example").1.calls =
        [ .newPage, .setRequestInterception,
          .tryScan "http://www.gone.example" false "Mozilla/5.0", .pageClose,
          .newPage, .setRequestInterception,
          .tryScan "http://gone.example" false "Mozilla/5.0", .pageClose ] ∧
      (ScannerAdd.scanWithRetry Sample.nameNotResolved "http://www.gone.example").2 =
        .error (jsJoin "\n"
          [ "- Try: net::ERR_NAME_NOT_RESOLVED at http://www.gone.example",
            "- Try: net::ERR_NAME_NOT_RESOLVED at http://www.gone.example" ]) := by
  refine ⟨by decide, by decide, by rfl⟩

/-- Two direct attempts of scanner_add.js in a row that raise, with `catch` blocks that
complete: the state with which the function goes on after the loop. -/
theorem add_directLoop_two {φ : Type} (count : Bool) (w : World φ) (va vb : Version)
    (k0 : Nat) (st : ScannerAdd.TaskState φ) (ea eb : String)
    (ha : (w.direct k0).outcome = .error ea)
    (hra : jsIncludes ea "Protocol error: Connection closed." = true →
      (w.direct k0).launchBrowser = .ok ())
    (hb : (w.direct (k0 + 1)).outcome = .error eb)
    (hrb : jsIncludes eb "Protocol error: Connection closed." = true →
      (w.direct (k0 + 1)).launchBrowser = .ok ()) :
    ∃ st2 : ScannerAdd.TaskState φ,
      ScannerAdd.directLoop count w [va, vb] k0 st = .next st2 ∧
        st2.calls = st.calls ++ attemptCalls (w.direct k0) va w.userAgent ++
          attemptCalls (w.direct (k0 + 1)) vb w.userAgent ∧
        st2.errorMsgs = st.errorMsgs ++
          [ (if va.sslBypass then "SSL Bypass" else "Try") ++ ": " ++ ea,
            (if vb.sslBypass then "SSL Bypass" else "Try") ++ ": " ++ eb ] ∧
        (st2.proxyNeeded = true ↔ (st.proxyNeeded = true ∨
          ScannerAdd.proxyRetryErrors.any (fun x => jsIncludes ea x) = true ∨
          ScannerAdd.proxyRetryErrors.any (fun x => jsIncludes eb x) = true)) ∧
        st2.errNameNotResolvedCount = st.errNameNotResolvedCount +
          (if count && jsIncludes ea "ERR_NAME_NOT_RESOLVED" then 1 else 0) +
          (if count && jsIncludes eb "ERR_NAME_NOT_RESOLVED" then 1 else 0) ∧
        st2.result = st.result := by
  have h1 := add_directIteration_error count (w.direct k0) va w.userAgent st ea ha hra
  have h2 := fun s => add_directIteration_error count (w.direct (k0 + 1)) vb w.userAgent s eb
    hb hrb
  refine ⟨
    { calls := st.calls ++ attemptCalls (w.direct k0) va w.userAgent ++
        attemptCalls (w.direct (k0 + 1)) vb w.userAgent
      errorMsgs := st.errorMsgs ++
        [(if va.sslBypass then "SSL Bypass" else "Try") ++ ": " ++ ea] ++
        [(if vb.sslBypass then "SSL Bypass" else "Try") ++ ": " ++ eb]
      proxyNeeded := (st.proxyNeeded ||
        ScannerAdd.proxyRetryErrors.any (fun x => jsIncludes ea x)) ||
        ScannerAdd.proxyRetryErrors.any (fun x => jsIncludes eb x)
      errNameNotResolvedCount := st.errNameNotResolvedCount +
        (if count && jsIncludes ea "ERR_NAME_NOT_RESOLVED" then 1 else 0) +
        (if count && jsIncludes eb "ERR_NAME_NOT_RESOLVED" then 1 else 0)
      result := st.result },
    by simp only [ScannerAdd.directLoop, h1, h2], rfl, by simp, ?_, rfl, rfl⟩
  simp only [Bool.or_eq_true, or_assoc]

/-- C13 (amended): in a task of scanner_add.js in which all four direct attempts would
raise (messages e 0 .. e 3) and no relaunch raises, the two attempts without TLS bypass
(original URL, then stripped URL) are run first, in this order. If both of their
messages contain `ERR_NAME_NOT_RESOLVED`, the task fails right there with these two
messages: no attempt with TLS bypass and no proxy phase is run. Otherwise the two
attempts with TLS bypass (original URL, then stripped URL) are run next, in this order,
and after the four the proxy phase is run (`proxyLimit`, then four proxy attempts) if
one of the four messages matches the proxy table, and the task fails with the four
messages if none does. -/
theorem add_direct_attempts_order {φ : Type} (w : World φ) (u : String) (e : Nat → String)
    (hfail : ∀ k, k < 4 → (w.direct k).outcome = .error (e k) ∧
      (jsIncludes (e k) "Protocol error: Connection closed." = true →
        (w.direct k).launchBrowser = .ok ())) :
    ((jsIncludes (e 0) "ERR_NAME_NOT_RESOLVED" = true ∧
          jsIncludes (e 1) "ERR_NAME_NOT_RESOLVED" = true) →
        (ScannerAdd.scanWithRetry w u).1.calls =
            attemptCalls (w.direct 0) { url := u, sslBypass := false } w.userAgent ++
              attemptCalls (w.direct 1)
                { url := ScannerAdd.baseUrl u, sslBypass := false } w.userAgent ∧
          (ScannerAdd.scanWithRetry w u).2 =
            .error (failureMessage ["Try: " ++ e 0, "Try: " ++ e 1])) ∧
      (¬ (jsIncludes (e 0) "ERR_NAME_NOT_RESOLVED" = true ∧
          jsIncludes (e 1) "ERR_NAME_NOT_RESOLVED" = true) →
        ∃ rest : List Call,
          (ScannerAdd.scanWithRetry w u).1.calls =
              attemptCalls (w.direct 0) { url := u, sslBypass := false } w.userAgent ++
                attemptCalls (w.direct 1)
                  { url := ScannerAdd.baseUrl u, sslBypass := false } w.userAgent ++
                attemptCalls (w.direct 2) { url := u, sslBypass := true } w.userAgent ++
                attemptCalls (w.direct 3)
                  { url := ScannerAdd.baseUrl u, sslBypass := true } w.userAgent ++
                rest ∧
            ((∃ k, k < 4 ∧
                ScannerAdd.proxyRetryErrors.any (fun x => jsIncludes (e k) x) = true) →
              ∃ r, rest = Call.proxyLimit :: r ∧ attemptsRun r = 4) ∧
            ((¬ ∃ k, k < 4 ∧
                ScannerAdd.proxyRetryErrors.any (fun x => jsIncludes (e k) x) = true) →
              rest = [] ∧
                (ScannerAdd.scanWithRetry w u).2 =
                  .error (failureMessage
                    [ "Try: " ++ e 0, "Try: " ++ e 1, "SSL Bypass: " ++ e 2,
                      "SSL Bypass: " ++ e 3 ]))) := by
  obtain ⟨he0, hre0⟩ := hfail 0 (by decide)
  obtain ⟨he1, hre1⟩ := hfail 1 (by decide)
  obtain ⟨he2, hre2⟩ := hfail 2 (by decide)
  obtain ⟨he3, hre3⟩ := hfail 3 (by decide)
  have t1 : ("Try" : String) ++ ": " = "Try: " := by decide
  have t2 : ("SSL Bypass" : String) ++ ": " = "SSL Bypass: " := by decide
  have hnb : (ScannerAdd.versions u).filter (fun v => !v.sslBypass) =
      [{ url := u, sslBypass := false }, { url := ScannerAdd.baseUrl u, sslBypass := false }] :=
    rfl
  have hby : (ScannerAdd.versions u).filter (fun v => v.sslBypass) =
      [{ url := u, sslBypass := true }, { url := ScannerAdd.baseUrl u, sslBypass := true }] :=
    rfl
  obtain ⟨S2, hL1, c2, m2, p2, n2, _⟩ := add_directLoop_two true w
    { url := u, sslBypass := false } { url := ScannerAdd.baseUrl u, sslBypass := false } 0
    { calls := [], errorMsgs := [], proxyNeeded := false, errNameNotResolvedCount := 0,
      result := none } (e 0) (e 1) he0 hre0 he1 hre1
  obtain ⟨S4, hL2, c4, m4, p4, _, r4⟩ := add_directLoop_two false w
    { url := u, sslBypass := true } { url := ScannerAdd.baseUrl u, sslBypass := true } 2
    S2 (e 2) (e 3) he2 hre2 he3 hre3
  simp only [List.nil_append, Bool.false_eq_true, if_false, false_or, t1, Bool.true_and,
    Nat.zero_add] at c2 m2 p2 n2
  simp only [if_true, t2] at m4
  have hlen : ([{ url := u, sslBypass := false },
      { url := ScannerAdd.baseUrl u, sslBypass := false }] : List Version).length = 2 := rfl
  constructor
  · rintro ⟨n0, n1⟩
    have hc : S2.errNameNotResolvedCount = 2 := by rw [n2]; simp [n0, n1]
    unfold ScannerAdd.scanWithRetry
    simp only [hnb, hby, hlen]
    rw [hL1]
    dsimp only
    rw [if_pos hc]
    exact ⟨c2, by rw [m2]⟩
  · intro hnot
    have hc : ¬ S2.errNameNotResolvedCount = 2 := by
      rw [n2]
      cases h0 : jsIncludes (e 0) "ERR_NAME_NOT_RESOLVED" <;>
        cases h1 : jsIncludes (e 1) "ERR_NAME_NOT_RESOLVED" <;> simp_all
    have hS4 : S4.proxyNeeded = true ↔
        ∃ k, k < 4 ∧ ScannerAdd.proxyRetryErrors.any (fun x => jsIncludes (e k) x) = true := by
      rw [p4, p2]
      constructor
      · rintro ((h | h) | h | h)
        · exact ⟨0, by decide, h⟩
        · exact ⟨1, by decide, h⟩
        · exact ⟨2, by decide, h⟩
        · exact ⟨3, by decide, h⟩
      · rintro ⟨k, hk, h⟩
        have : k = 0 ∨ k = 1 ∨ k = 2 ∨ k = 3 := by omega
        rcases this with rfl | rfl | rfl | rfl
        · exact Or.inl (Or.inl h)
        · exact Or.inl (Or.inr h)
        · exact Or.inr (Or.inl h)
        · exact Or.inr (Or.inr h)
    unfold ScannerAdd.scanWithRetry
    simp only [hnb, hby, hlen]
    rw [hL1]
    dsimp only
    rw [if_neg hc, hL2]
    dsimp only
    by_cases hpn : S4.proxyNeeded = true
    · obtain ⟨r, g1, g2⟩ := add_proxyLoop_calls w (ScannerAdd.versions u) 0
        { S4 with calls := S4.calls ++ [.proxyLimit] }
      rw [if_pos hpn]
      refine ⟨Call.proxyLimit :: r, ?_, fun _ => ⟨r, rfl, g2⟩, fun h => absurd (hS4.mp hpn) h⟩
      have hcalls : ∀ x : ScannerAdd.TaskState φ × Except String (ScanResult φ),
          x.1 = ScannerAdd.proxyLoop w (ScannerAdd.versions u) 0
            { S4 with calls := S4.calls ++ [.proxyLimit] } →
          x.1.calls = attemptCalls (w.direct 0) { url := u, sslBypass := false } w.userAgent ++
            attemptCalls (w.direct 1) { url := ScannerAdd.baseUrl u, sslBypass := false }
              w.userAgent ++
            attemptCalls (w.direct 2) { url := u, sslBypass := true } w.userAgent ++
            attemptCalls (w.direct 3) { url := ScannerAdd.baseUrl u, sslBypass := true }
              w.userAgent ++ Call.proxyLimit :: r := by
        intro x hx
        rw [hx, g1, c4, c2]
        simp
      apply hcalls
      split <;> rfl
    · rw [if_neg hpn]
      have hr : S4.result = none := by rw [r4]; assumption
      refine ⟨[], ?_, fun h => absurd (hS4.mpr h) hpn, fun _ => ⟨rfl, ?_⟩⟩
      · rw [hr]
        simp [c4, c2]
      · rw [hr]
        simp [m4, m2]

/-- C13 (amended) at a task whose four direct attempts are reset by the peer. -/
theorem add_direct_attempts_order_witness :
    ∃ rest : List Call,
      (ScannerAdd.scanWithRetry (Sample.proxyWorks 7) "http://www.example.com").1.calls =
        attemptCalls ((Sample.proxyWorks 7).direct 0)
            { url := "http://www.example.com", sslBypass := false } "Mozilla/5.0" ++
          attemptCalls ((Sample.proxyWorks 7).direct 1)
            { url := "http://example.com", sslBypass := false } "Mozilla/5.0" ++
          attemptCalls ((Sample.proxyWorks 7).direct 2)
            { url := "http://www.example.com", sslBypass := true } "Mozilla/5.0" ++
          attemptCalls ((Sample.proxyWorks 7).direct 3)
            { url := "http://example.com", sslBypass := true } "Mozilla/5.0" ++ rest := by
  obtain ⟨rest, h, _⟩ :=
    (add_direct_attempts_order (Sample.proxyWorks 7) "http://www.example.com"
      (fun _ => "net::ERR_CONNECTION_RESET at http://www.example.com")
      (fun _ _ => ⟨rfl, fun _ => rfl⟩)).2 (by decide)
  exact ⟨rest, h⟩

/-! ## The user agent of a task in scanner.js (C22) -/

/-- The object the direct loop returns carries the user agent of the task. -/
theorem directLoop_returned_userAgent {φ : Type} (w : World φ) :
    ∀ (vs : List Version) (k0 : Nat) (st st1 : Scanner.TaskState) (r : ScanResult φ),
      Scanner.directLoop w vs k0 st = .returned st1 r → r.userAgent = w.userAgent := by
  intro vs
  induction vs with
  | nil => intro k0 st st1 r h; simp [Scanner.directLoop] at h
  | cons v0 vs ih =>
    intro k0 st st1 r h
    simp only [Scanner.directLoop] at h
    cases ho : (w.direct k0).outcome with
    | ok f =>
      obtain ⟨st2, h1, _⟩ := directIteration_ok (w.direct k0) v0 w.userAgent st f ho
      rw [h1] at h
      cases h
      rfl
    | error e =>
      rcases directIteration_error_cases (w.direct k0) v0 w.userAgent st e ho with
        ⟨st2, h1⟩ | ⟨st2, m, h1⟩
      · rw [h1] at h; exact ih (k0 + 1) st2 st1 r h
      · rw [h1] at h; cases h

/-- The `page.setUserAgent` calls of `getDomFeatures` carry the string it was given. -/
theorem getDomFeatures_setUserAgent (p : Scanner.PageWorld) (url ua c : String)
    (h : Scanner.PageCall.setUserAgent c ∈ (Scanner.getDomFeatures p url ua).1) : c = ua := by
  revert h
  unfold Scanner.getDomFeatures Scanner.prepare Scanner.navigate Scanner.extractCalls
  cases p.isClosed <;> cases p.setViewport <;> cases p.setExtraHTTPHeaders <;>
    cases p.setJavaScriptEnabled <;> cases p.gotoPrimary <;> cases p.gotoFallback <;>
    simp

/-- C22: in scanner.js one user agent is used for the whole task. Every `tryScan` call
a run of `scanWithRetry` makes, in the direct loop and in the proxy phase alike, is
given the string `new UserAgent().toString()` yielded at line 289; the object a
successful run returns has that string as `userAgent`; and inside `tryScan` the only
user agent ever set on the page is the one passed in. -/
theorem one_user_agent_per_task {φ : Type} (w : World φ) (u : String) :
    (∀ (url : String) (b : Bool) (ua : String),
        Call.tryScan url b ua ∈ (Scanner.scanWithRetry w u).1.calls → ua = w.userAgent) ∧
      (∀ r : ScanResult φ, (Scanner.scanWithRetry w u).2 = .ok r →
        r.userAgent = w.userAgent) ∧
      (∀ (p : Scanner.PageWorld) (url : String) (b : Bool) (ua c : String),
        Scanner.PageCall.setUserAgent c ∈ (Scanner.tryScan p url b ua).1 → c = ua) := by
  refine ⟨?_, ?_, ?_⟩
  · intro url b ua h
    obtain ⟨extra, h1, _, h3⟩ := scanWithRetry_calls w u
    obtain ⟨e1, d1, _, d3⟩ := directLoop_calls w (Scanner.versions u) 0
      { calls := [], errorMsgs := [], proxyNeeded := false }
    rw [h1, d1] at h
    simp only [List.nil_append, List.mem_append] at h
    rcases h with h | h
    · exact (d3 url b ua h).2
    · rcases h3 with h3 | ⟨rest, h3, _, _, h4⟩
      · rw [h3] at h; simp at h
      · rw [h3] at h
        simp only [List.mem_cons] at h
        rcases h with h | h
        · cases h
        · exact (h4 url b ua h).2.1
  · intro r h
    unfold Scanner.scanWithRetry at h
    cases hx : Scanner.directLoop w (Scanner.versions u) 0
        { calls := [], errorMsgs := [], proxyNeeded := false } with
    | next st1 => rw [hx] at h; simp at h
    | returned st1 r1 =>
      rw [hx] at h
      simp only [Except.ok.injEq] at h
      subst h
      exact directLoop_returned_userAgent w _ _ _ _ _ hx
    | raised st1 e => rw [hx] at h; simp at h
  · intro p url b ua c h
    revert h
    unfold Scanner.tryScan
    cases p.createCDPSession with
    | error e => simp
    | ok _ =>
      by_cases hb : (b && jsStartsWith url "https://") = true
      · simp only [hb, if_true]
        cases p.setIgnoreCertificateErrors with
        | error e => simp
        | ok _ =>
          intro h
          simp only [List.mem_append, List.mem_cons, List.mem_singleton, reduceCtorEq,
            false_or, List.not_mem_nil] at h
          exact getDomFeatures_setUserAgent p url ua c h
      · simp only [hb]
        intro h
        simp only [Bool.false_eq_true, if_false, List.mem_append, List.mem_singleton,
          reduceCtorEq, false_or] at h
        exact getDomFeatures_setUserAgent p url ua c h

/-! ## The proxy attempts of scanner.js (C24) -/

theorem proxyIteration_calls_eq {φ : Type} (a : AttemptWorld φ) (v : Version) (ua : String)
    (st : Scanner.TaskState) :
    (Scanner.proxyIteration a v ua st).calls = st.calls ++ Scanner.proxyAttemptCalls a v ua := by
  simp [Scanner.proxyIteration, Scanner.proxyAttemptCalls, List.append_assoc]

theorem proxyAttemptCalls_tryScan {φ : Type} (a : AttemptWorld φ) (v : Version)
    (ua : String) :
    (∀ (url : String) (b : Bool) (x : String),
        Call.tryScan url b x ∈ Scanner.proxyAttemptCalls a v ua →
          url = Scanner.scraperApiUrl v.url ∧ b = false ∧ x = ua) ∧
      (a.newPage = .ok () → a.setRequestInterception = .ok () →
        Call.tryScan (Scanner.scraperApiUrl v.url) false ua ∈
          Scanner.proxyAttemptCalls a v ua) := by
  constructor
  · intro url b x h
    unfold Scanner.proxyAttemptCalls at h
    rcases List.mem_append.mp h with h | h
    · exact tryBlock_tryScan_mem a _ _ _ _ _ _ h
    · cases finallyCalls_mem _ _ h
  · intro h1 h2
    unfold Scanner.proxyAttemptCalls tryBlock
    rw [h1, h2]
    cases a.tryScan <;> cases a.pageClose <;> simp

/-- C24: the proxy attempts of `scanWithRetry` in scanner.js. The `versions` array has
four entries; when the proxy phase is entered (the `proxyLimit` callback is called),
what follows is one attempt per entry, in the order of the array and nothing else;
each such attempt opens one page, and its `tryScan` call, made when the page was opened
and the filter installed, has the bypass flag `false`, the user agent of the task, and
the address `http://api.scraperapi.com/?api_key=` + key + `&url=` +
`encodeURIComponent(url of the entry)`. The addresses and flags depend on the original
URL alone. -/
theorem proxy_plan {φ : Type} (w : World φ) (u : String)
    (h : Call.proxyLimit ∈ (Scanner.scanWithRetry w u).1.calls) :
    (Scanner.versions u).length = 4 ∧
      (∃ pre : List Call, Call.proxyLimit ∉ pre ∧
        (Scanner.scanWithRetry w u).1.calls =
          pre ++ [.proxyLimit] ++
            Scanner.proxyAttemptCalls (w.proxy 0)
              { url := u, sslBypass := false } w.userAgent ++
            Scanner.proxyAttemptCalls (w.proxy 1)
              { url := Scanner.baseUrl u, sslBypass := false } w.userAgent ++
            Scanner.proxyAttemptCalls (w.proxy 2)
              { url := u, sslBypass := true } w.userAgent ++
            Scanner.proxyAttemptCalls (w.proxy 3)
              { url := Scanner.baseUrl u, sslBypass := true } w.userAgent) ∧
      (∀ (a : AttemptWorld φ) (v : Version) (ua : String),
        attemptsRun (Scanner.proxyAttemptCalls a v ua) = 1 ∧
        (∀ (url : String) (b : Bool) (x : String),
          Call.tryScan url b x ∈ Scanner.proxyAttemptCalls a v ua →
            url = "http://api.scraperapi.com/?api_key=" ++ Scanner.SCRAPER_API_PROXY_PASS ++
              "&url=" ++ encodeURIComponent v.url ∧ b = false ∧ x = ua) ∧
        (a.newPage = .ok () → a.setRequestInterception = .ok () →
          Call.tryScan
            ("http://api.scraperapi.com/?api_key=" ++ Scanner.SCRAPER_API_PROXY_PASS ++
              "&url=" ++ encodeURIComponent v.url) false ua ∈
            Scanner.proxyAttemptCalls a v ua)) := by
  refine ⟨rfl, ?_, ?_⟩
  · obtain ⟨e1, d1, d2, _⟩ := directLoop_calls w (Scanner.versions u) 0
      { calls := [], errorMsgs := [], proxyNeeded := false }
    unfold Scanner.scanWithRetry at h ⊢
    cases hf : Scanner.directLoop w (Scanner.versions u) 0
        { calls := [], errorMsgs := [], proxyNeeded := false } with
    | returned st r =>
      rw [hf] at h d1
      simp only [Scanner.Flow.state, List.nil_append] at d1
      simp only at h
      rw [d1] at h
      exact absurd h d2
    | raised st e =>
      rw [hf] at h d1
      simp only [Scanner.Flow.state, List.nil_append] at d1
      simp only at h
      rw [d1] at h
      exact absurd h d2
    | next st =>
      rw [hf] at h d1
      simp only [Scanner.Flow.state, List.nil_append] at d1
      have hnp : Call.proxyLimit ∉ st.calls := by rw [d1]; exact d2
      by_cases hpn : st.proxyNeeded = true
      · refine ⟨st.calls, hnp, ?_⟩
        simp only [hpn, if_true, Scanner.versions, Scanner.proxyLoop,
          proxyIteration_calls_eq, List.append_assoc]
      · simp only [hpn] at h
        exact absurd h hnp
  · intro a v ua
    refine ⟨?_, proxyAttemptCalls_tryScan a v ua⟩
    simp [Scanner.proxyAttemptCalls, attemptsRun_append, tryBlock_attemptsRun,
      finallyCalls_attemptsRun]

/-- C24 at a task whose direct attempts are reset by the peer: the proxy phase is
entered and makes the four calls of the plan. -/
theorem proxy_plan_witness :
    ∃ pre : List Call, Call.proxyLimit ∉ pre ∧
      (Scanner.scanWithRetry Sample.allFail "http://www.example.com").1.calls =
        pre ++ [.proxyLimit] ++
          Scanner.proxyAttemptCalls (Sample.allFail.proxy 0)
            { url := "http://www.example.com", sslBypass := false } "Mozilla/5.0" ++
          Scanner.proxyAttemptCalls (Sample.allFail.proxy 1)
            { url := Scanner.baseUrl "http://www.example.com", sslBypass := false }
            "Mozilla/5.0" ++
          Scanner.proxyAttemptCalls (Sample.allFail.proxy 2)
            { url := "http://www.example.com", sslBypass := true } "Mozilla/5.0" ++
          Scanner.proxyAttemptCalls (Sample.allFail.proxy 3)
            { url := Scanner.baseUrl "http://www.example.com", sslBypass := true }
            "Mozilla/5.0" :=
  (proxy_plan Sample.allFail "http://www.example.com" (by decide)).2.1

/-- C22 at a task all of whose attempts fail: the fourth direct attempt is given the
user agent of the task. -/
theorem one_user_agent_per_task_witness :
    Call.tryScan "http://example.com" true "Mozilla/5.0" ∈
        (Scanner.scanWithRetry Sample.allFail "http://www.example.com").1.calls ∧
      "Mozilla/5.0" = Sample.allFail.userAgent :=
  ⟨by decide,
    (one_user_agent_per_task Sample.allFail "http://www.example.com").1
      "http://example.com" true "Mozilla/5.0" (by decide)⟩

/-! ## Release of the page in scanner.js (C25) -/

theorem pagesReleased_append :
    ∀ (xs ys : List Call) (pending : Bool), pagesReleased pending xs = true →
      pagesReleased false ys = true → pagesReleased pending (xs ++ ys) = true := by
  intro xs
  induction xs with
  | nil =>
    intro ys pending h1 h2
    cases pending
    · simpa using h2
    · simp [pagesReleased] at h1
  | cons c cs ih =>
    intro ys pending h1 h2
    cases c <;> simp only [pagesReleased, List.cons_append, Bool.and_eq_true] at h1 ⊢
    · exact ⟨h1.1, ih ys false h1.2 h2⟩
    · exact ih ys true h1 h2
    · exact ih ys pending h1 h2
    · exact ih ys false h1 h2
    · exact ih ys pending h1 h2
    · exact ih ys pending h1 h2

theorem tryBlock_page_iff {φ : Type} (a : AttemptWorld φ) (url : String) (bypass : Bool)
    (ua : String) : (tryBlock a url bypass ua).page = true ↔ a.newPage = .ok () := by
  unfold tryBlock
  cases a.newPage <;> cases a.setRequestInterception <;> cases a.tryScan <;>
    cases a.pageClose <;> simp

/-- The calls of one attempt, with or without a relaunch between the `try` block and
the `finally` block: they begin with the one `newPage` of the attempt, they release the
page, and when `newPage` returned a page the last call is its `page.close()`. -/
theorem attempt_segment_released {φ : Type} (a : AttemptWorld φ) (url : String)
    (bypass : Bool) (ua : String) (mid : List Call)
    (hmid : mid = [] ∨ mid = [.launchBrowser]) :
    pagesReleased false
        ((tryBlock a url bypass ua).calls ++ mid ++
          finallyCalls (tryBlock a url bypass ua).page) = true ∧
      ((tryBlock a url bypass ua).calls ++ mid ++
          finallyCalls (tryBlock a url bypass ua).page).head? = some .newPage ∧
      (a.newPage = .ok () →
        ((tryBlock a url bypass ua).calls ++ mid ++
          finallyCalls (tryBlock a url bypass ua).page).getLast? = some .pageClose) := by
  unfold tryBlock
  rcases hmid with rfl | rfl <;>
    cases a.newPage <;> cases a.setRequestInterception <;> cases a.tryScan <;>
    cases a.pageClose <;> simp [pagesReleased, finallyCalls]

theorem directLoop_released {φ : Type} (w : World φ) :
    ∀ (vs : List Version) (k : Nat) (st : Scanner.TaskState),
      ∃ extra : List Call,
        (Scanner.directLoop w vs k st).state.calls = st.calls ++ extra ∧
          pagesReleased false extra = true := by
  intro vs
  induction vs with
  | nil =>
    intro k st
    exact ⟨[], by simp [Scanner.directLoop, Scanner.Flow.state], rfl⟩
  | cons v0 vs ih =>
    intro k st
    obtain ⟨mid, hcalls, hmid, _⟩ := directIteration_calls (w.direct k) v0 w.userAgent st
    have hrel := (attempt_segment_released (w.direct k) v0.url v0.sslBypass w.userAgent
      mid hmid).1
    obtain ⟨e1, he1⟩ : ∃ e1, e1 =
        (tryBlock (w.direct k) v0.url v0.sslBypass w.userAgent).calls ++ mid ++
          finallyCalls (tryBlock (w.direct k) v0.url v0.sslBypass w.userAgent).page := ⟨_, rfl⟩
    rw [← he1] at hrel
    have hcalls1 : (Scanner.directIteration (w.direct k) v0 w.userAgent st).state.calls =
        st.calls ++ e1 := by
      rw [hcalls, he1]; simp only [List.append_assoc]
    simp only [Scanner.directLoop]
    cases hf : Scanner.directIteration (w.direct k) v0 w.userAgent st with
    | next st1 =>
      rw [hf] at hcalls1
      simp only [Scanner.Flow.state] at hcalls1
      obtain ⟨extra, g1, g2⟩ := ih (k + 1) st1
      refine ⟨e1 ++ extra, ?_, pagesReleased_append e1 extra false hrel g2⟩
      rw [g1, hcalls1]; simp only [List.append_assoc]
    | returned st1 r =>
      rw [hf] at hcalls1
      simp only [Scanner.Flow.state] at hcalls1 ⊢
      exact ⟨e1, hcalls1, hrel⟩
    | raised st1 e =>
      rw [hf] at hcalls1
      simp only [Scanner.Flow.state] at hcalls1 ⊢
      exact ⟨e1, hcalls1, hrel⟩

theorem proxyAttemptCalls_released {φ : Type} (a : AttemptWorld φ) (v : Version)
    (ua : String) :
    pagesReleased false (Scanner.proxyAttemptCalls a v ua) = true ∧
      (Scanner.proxyAttemptCalls a v ua).head? = some .newPage ∧
      (a.newPage = .ok () →
        (Scanner.proxyAttemptCalls a v ua).getLast? = some .pageClose) := by
  have h := attempt_segment_released a (Scanner.scraperApiUrl v.url) false ua [] (Or.inl rfl)
  simpa [Scanner.proxyAttemptCalls] using h

theorem proxyLoop_released {φ : Type} (w : World φ) :
    ∀ (vs : List Version) (k : Nat) (st : Scanner.TaskState),
      ∃ extra : List Call,
        (Scanner.proxyLoop w vs k st).calls = st.calls ++ extra ∧
          pagesReleased false extra = true := by
  intro vs
  induction vs with
  | nil => intro k st; exact ⟨[], by simp [Scanner.proxyLoop], rfl⟩
  | cons v0 vs ih =>
    intro k st
    obtain ⟨extra, g1, g2⟩ :=
      ih (k + 1) (Scanner.proxyIteration (w.proxy k) v0 w.userAgent st)
    refine ⟨Scanner.proxyAttemptCalls (w.proxy k) v0 w.userAgent ++ extra, ?_,
      pagesReleased_append _ _ false (proxyAttemptCalls_released _ _ _).1 g2⟩
    simp only [Scanner.proxyLoop]
    rw [g1, proxyIteration_calls_eq]; simp only [List.append_assoc]

/-- C25: in scanner.js the page of an attempt is released on every exit path. In the
calls of a whole run of `scanWithRetry` every page that was opened is closed before the
next page is opened and before the run ends. Each iteration of the direct loop, however
it ends (return, next iteration, or the error of a failed relaunch), and each iteration
of the proxy loop adds calls that begin with the one `newPage` of the attempt and, when
`newPage` returned a page, end with `page.close()`. The closing statement of the
`finally` block completes normally whether its `page.close()` returns or raises, so it
never replaces the outcome of the attempt. -/
theorem page_released_on_every_path {φ : Type} (w : World φ) (u : String) :
    pagesReleased false (Scanner.scanWithRetry w u).1.calls = true ∧
      (∀ (a : AttemptWorld φ) (v : Version) (ua : String) (st : Scanner.TaskState),
        ∃ seg : List Call,
          (Scanner.directIteration a v ua st).state.calls = st.calls ++ seg ∧
            seg.head? = some .newPage ∧ attemptsRun seg = 1 ∧
            (a.newPage = .ok () → seg.getLast? = some .pageClose)) ∧
      (∀ (a : AttemptWorld φ) (v : Version) (ua : String) (st : Scanner.TaskState),
        ∃ seg : List Call,
          (Scanner.proxyIteration a v ua st).calls = st.calls ++ seg ∧
            seg.head? = some .newPage ∧ attemptsRun seg = 1 ∧
            (a.newPage = .ok () → seg.getLast? = some .pageClose)) ∧
      (∀ (page : Bool) (pageClose : Except String Unit),
        finallyBlock page pageClose = (finallyCalls page, .ok ())) := by
  refine ⟨?_, ?_, ?_, ?_⟩
  · obtain ⟨e1, d1, d2⟩ := directLoop_released w (Scanner.versions u) 0
      { calls := [], errorMsgs := [], proxyNeeded := false }
    unfold Scanner.scanWithRetry
    cases hf : Scanner.directLoop w (Scanner.versions u) 0
        { calls := [], errorMsgs := [], proxyNeeded := false } with
    | returned st r =>
      rw [hf] at d1
      simp only [Scanner.Flow.state, List.nil_append] at d1
      simp only [d1, d2]
    | raised st e =>
      rw [hf] at d1
      simp only [Scanner.Flow.state, List.nil_append] at d1
      simp only [d1, d2]
    | next st =>
      rw [hf] at d1
      simp only [Scanner.Flow.state, List.nil_append] at d1
      by_cases hpn : st.proxyNeeded = true
      · obtain ⟨e2, p1, p2⟩ := proxyLoop_released w (Scanner.versions u) 0
          { st with calls := st.calls ++ [.proxyLimit] }
        dsimp only
        rw [if_pos hpn, p1]
        dsimp only
        rw [d1, List.append_assoc]
        refine pagesReleased_append e1 _ false d2 ?_
        simpa [pagesReleased] using p2
      · dsimp only
        rw [if_neg hpn, d1]
        exact d2
  · intro a v ua st
    obtain ⟨mid, hcalls, hmid, _⟩ := directIteration_calls a v ua st
    obtain ⟨_, h2, h3⟩ := attempt_segment_released a v.url v.sslBypass ua mid hmid
    refine ⟨(tryBlock a v.url v.sslBypass ua).calls ++ mid ++
      finallyCalls (tryBlock a v.url v.sslBypass ua).page, ?_, h2, ?_, h3⟩
    · rw [hcalls]; simp only [List.append_assoc]
    · rw [attemptsRun_append, attemptsRun_append, tryBlock_attemptsRun,
        finallyCalls_attemptsRun]
      rcases hmid with rfl | rfl <;> simp [attemptsRun]
  · intro a v ua st
    obtain ⟨_, h2, h3⟩ := proxyAttemptCalls_released a v ua
    refine ⟨Scanner.proxyAttemptCalls a v ua, proxyIteration_calls_eq a v ua st, h2, ?_, h3⟩
    simp [Scanner.proxyAttemptCalls, attemptsRun_append, tryBlock_attemptsRun,
      finallyCalls_attemptsRun]
  · intro page pageClose
    cases page <;> cases pageClose <;> rfl

/-- C25 at a direct attempt that finds the connection closed while the browser cannot
be launched again: the error of the relaunch leaves the loop, and the last call made is
still the `page.close()` of the `finally` block. -/
theorem page_released_on_every_path_witness :
    ∃ seg : List Call,
      (Scanner.directIteration
          (Sample.failingRelaunch "Protocol error: Connection closed."
            "Failed to launch the browser process!" : AttemptWorld Nat)
          { url := "http://www.example.com", sslBypass := false } "Mozilla/5.0"
          { calls := [], errorMsgs := [], proxyNeeded := false }).state.calls = [] ++ seg ∧
        seg.getLast? = some .pageClose := by
  obtain ⟨seg, h1, _, _, h4⟩ :=
    (page_released_on_every_path Sample.relaunchFails "http://www.example.com").2.1
      (Sample.failingRelaunch "Protocol error: Connection closed."
        "Failed to launch the browser process!")
      { url := "http://www.example.com", sslBypass := false } "Mozilla/5.0"
      { calls := [], errorMsgs := [], proxyNeeded := false }
  exact ⟨seg, h1, h4 rfl⟩

/-! ## The rows `scanUrls` stores in scanner.js (C23) -/

/-- The object the direct loop returns is the one of the first attempt that succeeded:
its features, the URL and the flag of the version that attempt was run on. -/
theorem directLoop_returned_spec {φ : Type} (w : World φ) :
    ∀ (vs : List Version) (k0 : Nat) (st st1 : Scanner.TaskState) (r : ScanResult φ),
      Scanner.directLoop w vs k0 st = .returned st1 r →
      ∃ (i : Nat) (v : Version), vs[i]? = some v ∧
        (w.direct (k0 + i)).outcome = .ok r.features ∧ r.finalUrl = v.url ∧
        r.sslBypassUsed = (if v.sslBypass then 1 else 0) ∧ r.usedProxy = false := by
  intro vs
  induction vs with
  | nil => intro k0 st st1 r h; simp [Scanner.directLoop] at h
  | cons v0 vs ih =>
    intro k0 st st1 r h
    simp only [Scanner.directLoop] at h
    cases ho : (w.direct k0).outcome with
    | ok f =>
      obtain ⟨st2, h1, _⟩ := directIteration_ok (w.direct k0) v0 w.userAgent st f ho
      rw [h1] at h
      cases h
      exact ⟨0, v0, by simp, ho, rfl, rfl, rfl⟩
    | error e =>
      rcases directIteration_error_cases (w.direct k0) v0 w.userAgent st e ho with
        ⟨st2, h1⟩ | ⟨st2, m, h1⟩
      · rw [h1] at h
        obtain ⟨i, v, g1, g2, g3⟩ := ih (k0 + 1) st2 st1 r h
        refine ⟨i + 1, v, by simpa using g1, ?_, g3⟩
        rw [← g2]
        congr 2
        omega
      · rw [h1] at h; cases h

/-- C23: the rows `scanUrls` of scanner.js stores. When `scanWithRetry` returns, the
wrapper stores under the task's URL the feature object with four more properties:
`sslBypassUsed` (the number 0 or 1, 1 exactly when the succeeding attempt had the bypass
flag), `usedProxy` (a number, here always 0), `finalUrlTried` (the URL of the version the
succeeding attempt was run on) and `label` (the label of the task). In that object
literal the four properties win over a feature of the same name and every other
property is the feature's. When `scanWithRetry` raises, the row stored is exactly
`{error: message, finalUrlTried: url, label}` with the original URL of the task. -/
theorem stored_rows (w : World Scanner.Features) (t : Scanner.ScanTask)
    (b : Scanner.Batch) :
    (∀ r : ScanResult Scanner.Features, (Scanner.scanWithRetry w t.url).2 = .ok r →
        getProp t.url (Scanner.taskWrapper w t b).results =
            some (Scanner.successRecord r.features.toRecord r.sslBypassUsed r.usedProxy
              r.finalUrl t.label) ∧
          ∃ (i : Nat) (v : Version), (Scanner.versions t.url)[i]? = some v ∧
            (w.direct i).outcome = .ok r.features ∧ r.finalUrl = v.url ∧
            r.sslBypassUsed = (if v.sslBypass then 1 else 0) ∧ r.usedProxy = false) ∧
      (∀ e : String, (Scanner.scanWithRetry w t.url).2 = .error e →
        getProp t.url (Scanner.taskWrapper w t b).results =
          some [("error", .str e), ("finalUrlTried", .str t.url), ("label", t.label)]) ∧
      (∀ (features : Record) (sslBypassUsed : Nat) (usedProxy : Bool) (finalUrl : String)
          (label : Value),
        getProp "sslBypassUsed"
            (Scanner.successRecord features sslBypassUsed usedProxy finalUrl label) =
            some (.num sslBypassUsed) ∧
          (getProp "usedProxy"
              (Scanner.successRecord features sslBypassUsed usedProxy finalUrl label) =
              some (.num 0) ∨
            getProp "usedProxy"
              (Scanner.successRecord features sslBypassUsed usedProxy finalUrl label) =
              some (.num 1)) ∧
          getProp "finalUrlTried"
            (Scanner.successRecord features sslBypassUsed usedProxy finalUrl label) =
            some (.str finalUrl) ∧
          getProp "label"
            (Scanner.successRecord features sslBypassUsed usedProxy finalUrl label) =
            some label ∧
          ∀ key : String, key ≠ "sslBypassUsed" → key ≠ "usedProxy" →
            key ≠ "finalUrlTried" → key ≠ "label" →
            getProp key
              (Scanner.successRecord features sslBypassUsed usedProxy finalUrl label) =
              getProp key features) := by
  refine ⟨?_, ?_, ?_⟩
  · intro r h
    constructor
    · unfold Scanner.taskWrapper Scanner.recordOutcome
      rw [h]
      exact getProp_setProp_self _ _ _
    · unfold Scanner.scanWithRetry at h
      cases hx : Scanner.directLoop w (Scanner.versions t.url) 0
          { calls := [], errorMsgs := [], proxyNeeded := false } with
      | next st1 => rw [hx] at h; simp at h
      | raised st1 e => rw [hx] at h; simp at h
      | returned st1 r1 =>
        rw [hx] at h
        simp only [Except.ok.injEq] at h
        subst h
        obtain ⟨i, v, g1, g2, g3⟩ := directLoop_returned_spec w _ _ _ _ _ hx
        exact ⟨i, v, g1, by simpa using g2, g3⟩
  · intro e h
    unfold Scanner.taskWrapper Scanner.recordOutcome
    rw [h]
    exact getProp_setProp_self _ _ _
  · intro features s u f l
    unfold Scanner.successRecord
    refine ⟨?_, ?_, ?_, ?_, ?_⟩
    · rw [getProp_setProp_ne _ _ _ _ (by decide), getProp_setProp_ne _ _ _ _ (by decide),
        getProp_setProp_ne _ _ _ _ (by decide), getProp_setProp_self]
    · rw [getProp_setProp_ne _ _ _ _ (by decide), getProp_setProp_ne _ _ _ _ (by decide),
        getProp_setProp_self]
      cases u <;> simp
    · rw [getProp_setProp_ne _ _ _ _ (by decide), getProp_setProp_self]
    · rw [getProp_setProp_self]
    · intro key h1 h2 h3 h4
      rw [getProp_setProp_ne _ _ _ _ h4, getProp_setProp_ne _ _ _ _ h3,
        getProp_setProp_ne _ _ _ _ h2, getProp_setProp_ne _ _ _ _ h1]

/-- C23 at a task whose fourth direct attempt succeeds: the row stored has
`sslBypassUsed` 1 and the stripped URL as `finalUrlTried`. -/
theorem stored_rows_witness :
    (Scanner.scanWithRetry
        { userAgent := "Mozilla/5.0"
          direct := fun k =>
            if k < 3 then Sample.failing "net::ERR_CONNECTION_RESET at http://www.example.com"
            else Sample.succeeding Sample.features
          proxy := fun _ => Sample.failing "net::ERR_TIMED_OUT" }
        "http://www.example.com").2 =
        .ok { features := Sample.features, finalUrl := "http://example.com",
              sslBypassUsed := 1, usedProxy := false, userAgent := "Mozilla/5.0" } ∧
      getProp "http://www.example.com"
          (Scanner.taskWrapper
            { userAgent := "Mozilla/5.0"
              direct := fun k =>
                if k < 3 then
                  Sample.failing "net::ERR_CONNECTION_RESET at http://www.example.com"
                else Sample.succeeding Sample.features
              proxy := fun _ => Sample.failing "net::ERR_TIMED_OUT" }
            { url := "http://www.example.com", label := .num 1 }
            { results := [], errorLog := [] }).results =
        some (Scanner.successRecord Sample.features.toRecord 1 false "http://example.com"
          (.num 1)) :=
  ⟨by rfl,
    ((stored_rows _ { url := "http://www.example.com", label := .num 1 }
      { results := [], errorLog := [] }).1 _ (by rfl)).1⟩

/-! ## The request filter of scanner_add.js (C21) -/

/-- C21: the request filter of scanner_add.js. On a new page on which
`setupRequestInterception` has completed, interception is on and every request gets
exactly one call from the listener, `req.abort()` or `req.continue()`, never both and
never none. It is `req.abort()` exactly when the resource type is `image`, `stylesheet`
or `font`, or the lower-cased URL ends with one of the twelve blocked extensions, and
`req.continue()` exactly otherwise. -/
theorem request_filter_decides_once (req : ScannerAdd.Request) :
    ScannerAdd.blockedExtensions =
        [".zip", ".rar", ".pdf", ".exe", ".doc", ".xls", ".msi", ".dmg", ".iso", ".7z",
          ".tar", ".gz"] ∧
      ScannerAdd.blockedExtensions.length = 12 ∧
      ∃ page : ScannerAdd.Page,
        ScannerAdd.setupRequestInterception (.ok ()) ScannerAdd.newPage = .ok page ∧
        page.requestInterception = true ∧
        (ScannerAdd.emitRequest page req = [.abort] ∨
          ScannerAdd.emitRequest page req = [.resume]) ∧
        (ScannerAdd.emitRequest page req = [.abort] ↔
          (req.resourceType = "image" ∨ req.resourceType = "stylesheet" ∨
            req.resourceType = "font" ∨
            ∃ ext ∈ ScannerAdd.blockedExtensions,
              ScannerAdd.endsWith (ScannerAdd.toLowerCase req.url) ext = true)) ∧
        (ScannerAdd.emitRequest page req = [.resume] ↔
          ¬ (req.resourceType = "image" ∨ req.resourceType = "stylesheet" ∨
            req.resourceType = "font" ∨
            ∃ ext ∈ ScannerAdd.blockedExtensions,
              ScannerAdd.endsWith (ScannerAdd.toLowerCase req.url) ext = true)) := by
  refine ⟨rfl, rfl, _, rfl, rfl, ?_⟩
  have hemit : ScannerAdd.emitRequest
      { requestInterception := true,
        listeners := ScannerAdd.newPage.listeners ++ [ScannerAdd.requestListener] } req =
      ScannerAdd.requestListener req := by
    simp [ScannerAdd.emitRequest, ScannerAdd.newPage]
  rw [hemit]
  have hcond : ((["image", "stylesheet", "font"].contains req.resourceType ||
        ScannerAdd.blockedExtensions.any
          (fun ext => ScannerAdd.endsWith (ScannerAdd.toLowerCase req.url) ext)) = true) ↔
      (req.resourceType = "image" ∨ req.resourceType = "stylesheet" ∨
        req.resourceType = "font" ∨
        ∃ ext ∈ ScannerAdd.blockedExtensions,
          ScannerAdd.endsWith (ScannerAdd.toLowerCase req.url) ext = true) := by
    simp only [Bool.or_eq_true, List.any_eq_true, List.contains_iff_exists_mem_beq,
      List.mem_cons, List.mem_singleton, beq_iff_eq, List.not_mem_nil, or_false]
    constructor
    · rintro (⟨a, (rfl | rfl | rfl), h⟩ | h)
      · exact Or.inl h
      · exact Or.inr (Or.inl h)
      · exact Or.inr (Or.inr (Or.inl h))
      · exact Or.inr (Or.inr (Or.inr h))
    · rintro (h | h | h | h)
      · exact Or.inl ⟨_, Or.inl rfl, h⟩
      · exact Or.inl ⟨_, Or.inr (Or.inl rfl), h⟩
      · exact Or.inl ⟨_, Or.inr (Or.inr rfl), h⟩
      · exact Or.inr h
  unfold ScannerAdd.requestListener
  simp only []
  by_cases hc : (["image", "stylesheet", "font"].contains req.resourceType ||
        ScannerAdd.blockedExtensions.any
          (fun ext => ScannerAdd.endsWith (ScannerAdd.toLowerCase req.url) ext)) = true
  · rw [if_pos hc]
    have := hcond.mp hc
    simp [this]
  · rw [if_neg hc]
    have : ¬ _ := fun h => hc (hcond.mpr h)
    simp [this]

/-- C21 at a document request for an archive: it is aborted. -/
theorem request_filter_decides_once_witness :
    ScannerAdd.endsWith
        (ScannerAdd.toLowerCase "https://example.com/files/Setup.ZIP") ".zip" = true ∧
      ∃ page : ScannerAdd.Page,
        ScannerAdd.setupRequestInterception (.ok ()) ScannerAdd.newPage = .ok page ∧
        ScannerAdd.emitRequest page
          { url := "https://example.com/files/Setup.ZIP", resourceType := "document" } =
          [.abort] := by
  obtain ⟨_, _, page, h1, _, _, h2, _⟩ :=
    request_filter_decides_once
      { url := "https://example.com/files/Setup.ZIP", resourceType := "document" }
  exact ⟨by decide, page, h1,
    h2.mpr (Or.inr (Or.inr (Or.inr ⟨".zip", by decide, by decide⟩)))⟩

/-! ## The retry after a closed connection in old-version-noproxy.js (C27) -/

/-- With `retried` set, the `for` loop of old-version-noproxy.js never relaunches: it
returns, or it ends with `retried` still set. -/
theorem old_forLoop_retried {φ : Type} (w : Nat → AttemptWorld φ) :
    ∀ (vs : List Version) (k : Nat) (msgs : List String)
      (calls : List OldVersionNoProxy.Call),
      (∃ calls1 r, OldVersionNoProxy.forLoop w vs k true msgs calls = .returned calls1 r) ∨
        (∃ calls1 msgs1 k1,
          OldVersionNoProxy.forLoop w vs k true msgs calls = .ended calls1 msgs1 true k1) := by
  intro vs
  induction vs with
  | nil => intro k msgs calls; exact Or.inr ⟨_, _, _, rfl⟩
  | cons v vs ih =>
    intro k msgs calls
    unfold OldVersionNoProxy.forLoop
    rcases OldVersionNoProxy.tryBlock (w k) v.url v.sslBypass with ⟨tcalls, page, f | e⟩
    · simpa using ih (k + 1) _ _
    · exact Or.inl ⟨_, _, rfl⟩

/-- `scanWithRetry` of old-version-noproxy.js ends within two passes, whatever the
attempts do. -/
theorem old_scanWithRetry_total {φ : Type} (w : Nat → AttemptWorld φ) (u : String) :
    (OldVersionNoProxy.scanWithRetry w u).isSome = true := by
  unfold OldVersionNoProxy.scanWithRetry OldVersionNoProxy.whileLoop
  cases h1 : OldVersionNoProxy.forLoop w (OldVersionNoProxy.versions u) 0 false [] [] with
  | returned c r => rfl
  | raised c e => rfl
  | ended c msgs retried k =>
    cases retried with
    | true => rfl
    | false =>
      simp only [Bool.false_eq_true, if_false]
      unfold OldVersionNoProxy.whileLoop
      rcases old_forLoop_retried w (OldVersionNoProxy.versions u) k [] c with
        ⟨c1, r, h2⟩ | ⟨c1, m1, k1, h2⟩
      · rw [h2]; rfl
      · rw [h2]; rfl

/-- C27 (the code at the failing input): the first attempt for `http://www.example.com`
finds the connection closed, the browser launches again, and every later attempt would
succeed. `scanWithRetry` of old-version-noproxy.js relaunches and then raises with the
one message of the first attempt: `retried` was set before the `break`, so the check
after the `for` loop throws instead of starting the second pass. One attempt is run, not
the four more of a second pass. When instead all four attempts are refused, the second
pass is made: eight attempts are run. -/
theorem closed_connection_no_second_pass :
    OldVersionNoProxy.scanWithRetry Sample.closedThenFine "http://www.example.com" =
        some ([.newPage, .setRequestInterception, .tryScan "http://www.example.com" false,
            .launchBrowser, .pageClose],
          .error "Try: Protocol error: Connection closed. at http://www.example.com") ∧
      (OldVersionNoProxy.scanWithRetry Sample.closedThenFine "http://www.example.com").map
          (fun out => OldVersionNoProxy.attemptsRun out.1) = some 1 ∧
      (OldVersionNoProxy.scanWithRetry Sample.allRefused "http://www.example.com").map
          (fun out => OldVersionNoProxy.attemptsRun out.1) = some 8 := by
  refine ⟨by rfl, by rfl, by rfl⟩

/-! ## The retry after a network change in trial-oldver/isolate.js (C28) -/

/-- C28 (the code at the failing input): the first attempt for `http://www.example.com`
raises `net::ERR_NETWORK_CHANGED` and no retry has been used yet. The loop of
isolate.js counts the retry and executes `continue`, which moves on to the next element
of `versions`: the very next attempt is on `http://example.com`, the first variant is
never tried a second time (each of the four variants is tried once), and the message
of the first attempt is not recorded. The loop of trial.js, which has no branch for a
network change, does the same with the variants and records the message. -/
theorem network_change_moves_to_next_variant :
    Isolate.scanned
        (Isolate.forLoop Sample.networkChanged "Mozilla/5.0"
          (Isolate.versions "http://www.example.com") 0
          { calls := [], result := none, errorMsgs := [], networkChangedRetries := 0 }).calls =
        [("http://www.example.com", false), ("http://example.com", false),
          ("http://www.example.com", true), ("http://example.com", true)] ∧
      (Isolate.forLoop Sample.networkChanged "Mozilla/5.0"
          (Isolate.versions "http://www.example.com") 0
          { calls := [], result := none, errorMsgs := [], networkChangedRetries := 0 }).errorMsgs =
        [ "- http://example.com : Navigation timeout of 45000 ms exceeded",
          "- http://www.example.com (bypass): Navigation timeout of 45000 ms exceeded",
          "- http://example.com (bypass): Navigation timeout of 45000 ms exceeded" ] ∧
      (Isolate.forLoop Sample.networkChanged "Mozilla/5.0"
          (Isolate.versions "http://www.example.com") 0
          { calls := [], result := none, errorMsgs := [], networkChangedRetries := 0
            }).networkChangedRetries = 1 ∧
      Sample.scanned
        (Trial.directLoop Sample.networkChangedDirect (Trial.versions "http://www.example.com")
          0 { calls := [], errorMsgs := [], proxyNeeded := false }).state.calls =
        [("http://www.example.com", false), ("http://example.com", false),
          ("http://www.example.com", true), ("http://example.com", true)] := by
  refine ⟨by rfl, by rfl, by rfl, by rfl⟩

/-! ## `extractJsFeatures` of scanner_add.js (C30) -/

theorem countContent_spec (w : ScannerAdd.JsWorld) (content : String)
    (acc : ScannerAdd.JsCounts) :
    (ScannerAdd.countContent w content acc).js_len =
        acc.js_len + ScannerAdd.jsLength content ∧
      (ScannerAdd.countContent w content acc).js_external_count = acc.js_external_count ∧
      (acc.js_obf_len ≤ acc.js_len →
        (ScannerAdd.countContent w content acc).js_obf_len ≤
          (ScannerAdd.countContent w content acc).js_len) := by
  unfold ScannerAdd.countContent
  by_cases h0 : ScannerAdd.jsLength content = 0
  · simp [h0]
  · dsimp only
    rw [if_neg h0]
    refine ⟨rfl, rfl, ?_⟩
    intro h
    cases w.entropyAbove content <;> simp <;> omega

theorem scriptStep_spec (w : ScannerAdd.JsWorld) (origin : String) (i : Nat)
    (script : ScannerAdd.Script) (acc : ScannerAdd.JsCounts) :
    (ScannerAdd.scriptStep w origin i script acc).js_len =
        acc.js_len +
          (if (!ScannerAdd.skippedCrossOrigin w origin script &&
              !ScannerAdd.skippedUnparsable w script) = true
            then ScannerAdd.jsLength (ScannerAdd.contentOf w origin i script) else 0) ∧
      (ScannerAdd.scriptStep w origin i script acc).js_external_count =
        acc.js_external_count +
          (if ScannerAdd.skippedCrossOrigin w origin script = true then 1 else 0) ∧
      (acc.js_obf_len ≤ acc.js_len →
        (ScannerAdd.scriptStep w origin i script acc).js_obf_len ≤
          (ScannerAdd.scriptStep w origin i script acc).js_len) := by
  unfold ScannerAdd.scriptStep ScannerAdd.skippedCrossOrigin ScannerAdd.skippedUnparsable
    ScannerAdd.contentOf
  by_cases hs : script.src = ""
  · have := countContent_spec w script.content acc
    simpa [hs] using this
  · cases ho : w.scriptOrigin script.src with
    | error e => simp [hs]
    | ok o =>
      by_cases heq : o = origin
      · have := countContent_spec w (ScannerAdd.safeEval (w.fetched i) "") acc
        simpa [hs, heq] using this
      · simp [hs, heq]

theorem scanScripts_spec (w : ScannerAdd.JsWorld) (origin : String) :
    ∀ (scripts : List ScannerAdd.Script) (i : Nat) (acc : ScannerAdd.JsCounts),
      (ScannerAdd.scanScripts w origin i scripts acc).js_len =
          acc.js_len +
            ScannerAdd.summedLength w origin
              (fun s => !ScannerAdd.skippedCrossOrigin w origin s &&
                !ScannerAdd.skippedUnparsable w s) i scripts ∧
        (ScannerAdd.scanScripts w origin i scripts acc).js_external_count =
          acc.js_external_count +
            (scripts.filter (ScannerAdd.skippedCrossOrigin w origin)).length ∧
        (acc.js_obf_len ≤ acc.js_len →
          (ScannerAdd.scanScripts w origin i scripts acc).js_obf_len ≤
            (ScannerAdd.scanScripts w origin i scripts acc).js_len) := by
  intro scripts
  induction scripts with
  | nil => intro i acc; simp [ScannerAdd.scanScripts, ScannerAdd.summedLength]
  | cons s rest ih =>
    intro i acc
    obtain ⟨h1, h2, h3⟩ := scriptStep_spec w origin i s acc
    obtain ⟨g1, g2, g3⟩ := ih (i + 1) (ScannerAdd.scriptStep w origin i s acc)
    simp only [ScannerAdd.scanScripts, ScannerAdd.summedLength]
    refine ⟨?_, ?_, fun h => g3 (h3 h)⟩
    · rw [g1, h1]; omega
    · rw [g2, h2, List.filter_cons]
      by_cases hc : ScannerAdd.skippedCrossOrigin w origin s = true
      · simp [hc]; omega
      · simp [hc]

/-- C30 (counterexample): on a page at `https://example.com` whose only script is
`<script src="http://">abc</script>`, the URL of the `src` cannot be built and the loop
skips the script by the `continue` of its inner `catch`. The script is neither
cross-origin nor empty, and its content has length 3, yet `extractJsFeatures` returns
`js_len` 0. -/
theorem unparsable_src_not_counted :
    ScannerAdd.extractJsFeatures Sample.unparsableSrc =
        { js_len := 0, js_obf_len := 0, js_external_count := 0 } ∧
      ScannerAdd.summedLength Sample.unparsableSrc "https://example.com"
          (fun s => !ScannerAdd.skippedCrossOrigin Sample.unparsableSrc "https://example.com" s)
          0 [{ src := "http://", content := "abc" }] = 3 ∧
      (ScannerAdd.extractJsFeatures Sample.unparsableSrc).js_len ≠
        ScannerAdd.summedLength Sample.unparsableSrc "https://example.com"
          (fun s => !ScannerAdd.skippedCrossOrigin Sample.unparsableSrc "https://example.com" s)
          0 [{ src := "http://", content := "abc" }] := by
  refine ⟨by decide, by decide, by decide⟩

/-- C30 (amended): `extractJsFeatures` of scanner_add.js returns the three sentinels
-1 exactly when `new URL(pageUrl)` raises, and otherwise three non-negative integers
with `js_obf_len ≤ js_len`, where `js_len` is the sum of the content lengths of the
scripts skipped neither as cross-origin nor because the URL of their `src` cannot be
built (an empty content adds nothing), and `js_external_count` is the number of scripts
skipped as cross-origin; this for every list of scripts, every outcome of the in-page
evaluations and every outcome of the entropy test. -/
theorem js_features_invariant (w : ScannerAdd.JsWorld) :
    ((∃ e, w.pageOrigin = .error e) ∧
        ScannerAdd.extractJsFeatures w =
          { js_len := -1, js_obf_len := -1, js_external_count := -1 }) ∨
      (∃ origin, w.pageOrigin = .ok origin ∧
        0 ≤ (ScannerAdd.extractJsFeatures w).js_len ∧
        0 ≤ (ScannerAdd.extractJsFeatures w).js_obf_len ∧
        0 ≤ (ScannerAdd.extractJsFeatures w).js_external_count ∧
        (ScannerAdd.extractJsFeatures w).js_obf_len ≤
          (ScannerAdd.extractJsFeatures w).js_len ∧
        (ScannerAdd.extractJsFeatures w).js_len =
          ScannerAdd.summedLength w origin
            (fun s => !ScannerAdd.skippedCrossOrigin w origin s &&
              !ScannerAdd.skippedUnparsable w s) 0 (ScannerAdd.safeEval w.scripts []) ∧
        (ScannerAdd.extractJsFeatures w).js_external_count =
          ((ScannerAdd.safeEval w.scripts []).filter
            (ScannerAdd.skippedCrossOrigin w origin)).length) := by
  unfold ScannerAdd.extractJsFeatures
  cases hp : w.pageOrigin with
  | error e => exact Or.inl ⟨⟨e, rfl⟩, rfl⟩
  | ok origin =>
    obtain ⟨h1, h2, h3⟩ := scanScripts_spec w origin (ScannerAdd.safeEval w.scripts []) 0
      { js_len := 0, js_obf_len := 0, js_external_count := 0 }
    refine Or.inr ⟨origin, rfl, ?_, ?_, ?_, ?_, ?_, ?_⟩
    · simp
    · simp
    · simp
    · simpa using h3 (Nat.le_refl 0)
    · simp only [h1]; simp
    · simp only [h2]; simp

/-- C30 (amended) at a page with an inline script, a script of another origin and a
script of the page's own origin. -/
theorem js_features_invariant_witness :
    ScannerAdd.extractJsFeatures Sample.threeScripts =
        { js_len := 14, js_obf_len := 8, js_external_count := 1 } ∧
      (ScannerAdd.extractJsFeatures Sample.threeScripts).js_obf_len ≤
        (ScannerAdd.extractJsFeatures Sample.threeScripts).js_len := by
  refine ⟨by decide, ?_⟩
  rcases js_features_invariant Sample.threeScripts with ⟨⟨e, he⟩, _⟩ | ⟨_, _, _, _, _, h, _⟩
  · simp [Sample.threeScripts] at he
  · exact h

/-! ## Termination of `scanWithRetry` in new-version-proxy.js (C29) -/

theorem nvp_resets_append (xs ys : List NewVersionProxy.Call) :
    NewVersionProxy.resets (xs ++ ys) =
      NewVersionProxy.resets xs + NewVersionProxy.resets ys := by
  simp [NewVersionProxy.resets]

theorem nvp_resets_finally (b : Bool) :
    NewVersionProxy.resets (NewVersionProxy.finallyCalls b) = 0 := by
  cases b <;> rfl

theorem nvp_resets_tryBlock {φ : Type} (a : NewVersionProxy.Attempt φ) (v : Version)
    (usedProxy : Bool) :
    NewVersionProxy.resets (NewVersionProxy.tryBlock a v usedProxy).1 = 0 := by
  unfold NewVersionProxy.tryBlock
  cases usedProxy <;> cases a.launchProxyBrowser <;> cases a.tryScan <;>
    cases a.closeLocalBrowser <;> rfl

/-- What one iteration of the loop of new-version-proxy.js does to the variables: it is
one more iteration and at most one more message; when control goes back to the loop
condition, either `attemptCount` went up by one with `usedProxy` unchanged, or
`attemptCount` was reset to 0 while `usedProxy` went from false to true. -/
theorem nvp_iteration_spec {φ : Type} (a : NewVersionProxy.Attempt φ) (v : Version)
    (st : NewVersionProxy.State) :
    (∀ st1, NewVersionProxy.iteration a v st = .next st1 →
        st1.iterations = st.iterations + 1 ∧
        st1.errorMsgs.length = st.errorMsgs.length + 1 ∧
        ((st1.attemptCount = st.attemptCount + 1 ∧ st1.usedProxy = st.usedProxy ∧
            NewVersionProxy.resets st1.calls = NewVersionProxy.resets st.calls) ∨
          (st1.attemptCount = 0 ∧ st.usedProxy = false ∧ st1.usedProxy = true ∧
            NewVersionProxy.resets st1.calls = NewVersionProxy.resets st.calls + 1))) ∧
      (∀ st1 r, NewVersionProxy.iteration a v st = .returned st1 r →
        st1.iterations = st.iterations + 1 ∧ st1.errorMsgs = st.errorMsgs ∧
        NewVersionProxy.resets st1.calls = NewVersionProxy.resets st.calls) ∧
      (∀ st1 e, NewVersionProxy.iteration a v st = .raised st1 e →
        st1.iterations = st.iterations + 1 ∧
        st1.errorMsgs.length = st.errorMsgs.length + 1 ∧
        NewVersionProxy.resets st1.calls = NewVersionProxy.resets st.calls) := by
  have ht := nvp_resets_tryBlock a v st.usedProxy
  have hw : ∀ xs : List NewVersionProxy.Call,
      NewVersionProxy.resets (.warnRelaunch v.url :: .launchDefaultBrowser :: xs) =
        NewVersionProxy.resets xs := fun _ => rfl
  have hp : ∀ xs : List NewVersionProxy.Call,
      NewVersionProxy.resets (.warnProxy v.url :: xs) = NewVersionProxy.resets xs + 1 :=
    fun _ => rfl
  unfold NewVersionProxy.iteration
  rcases htb : NewVersionProxy.tryBlock a v st.usedProxy with ⟨tcalls, localBrowser, f | e⟩
  · rw [htb] at ht
    simp only at ht
    dsimp only
    by_cases h1 : (!st.retried && jsIncludes f "Protocol error: Connection closed.") = true
    · rw [if_pos h1]
      cases a.launchDefaultBrowser with
      | error e =>
        dsimp only
        refine ⟨?_, ?_, ?_⟩
        · intro st1 h; cases h
        · intro st1 r h; cases h
        · intro st1 e1 h
          cases h
          simp [nvp_resets_append, nvp_resets_finally, ht, hw]
      | ok _ =>
        dsimp only
        refine ⟨?_, ?_, ?_⟩
        · intro st1 h
          cases h
          simp [nvp_resets_append, nvp_resets_finally, ht, hw]
        · intro st1 r h; cases h
        · intro st1 e1 h; cases h
    · rw [if_neg h1]
      by_cases h2 : (!st.usedProxy &&
          NewVersionProxy.proxyRetryErrors.any (fun msg => jsIncludes f msg)) = true
      · rw [if_pos h2]
        have hu : st.usedProxy = false := by
          cases hup : st.usedProxy
          · rfl
          · rw [hup] at h2; simp at h2
        refine ⟨?_, ?_, ?_⟩
        · intro st1 h
          cases h
          simp [nvp_resets_append, nvp_resets_finally, ht, hp, hu]
        · intro st1 r h; cases h
        · intro st1 e1 h; cases h
      · rw [if_neg h2]
        refine ⟨?_, ?_, ?_⟩
        · intro st1 h
          cases h
          simp [nvp_resets_append, nvp_resets_finally, ht]
        · intro st1 r h; cases h
        · intro st1 e1 h; cases h
  · rw [htb] at ht
    simp only at ht
    dsimp only
    refine ⟨?_, ?_, ?_⟩
    · intro st1 h; cases h
    · intro st1 r h
      cases h
      simp [nvp_resets_append, nvp_resets_finally, ht]
    · intro st1 e1 h; cases h

/-- The loop of new-version-proxy.js ends: from any state, once the fuel exceeds the
bound on the iterations still to come the result no longer depends on it, and the run
adds at most that many iterations and messages, and at most one reset, none once the
proxy has been switched to. -/
theorem nvp_whileLoop_terminates {φ : Type} (w : Nat → NewVersionProxy.Attempt φ)
    (vs : List Version) :
    ∀ (n : Nat) (st : NewVersionProxy.State), NewVersionProxy.remaining vs st ≤ n →
      ∃ out : NewVersionProxy.State × Except String (ScanResult φ),
        (∀ fuel, n < fuel → NewVersionProxy.whileLoop w vs fuel st = some out) ∧
        out.1.iterations ≤ st.iterations + NewVersionProxy.remaining vs st ∧
        out.1.errorMsgs.length ≤ st.errorMsgs.length + NewVersionProxy.remaining vs st ∧
        NewVersionProxy.resets out.1.calls ≤
          NewVersionProxy.resets st.calls + (if st.usedProxy then 0 else 1) := by
  intro n
  induction n with
  | zero =>
    intro st hrem
    have hnone : vs[st.attemptCount]? = none := by
      rw [List.getElem?_eq_none_iff]
      unfold NewVersionProxy.remaining at hrem
      omega
    refine ⟨(st, .error (jsJoin " | " st.errorMsgs)), ?_, by simp, by simp, by simp⟩
    intro fuel hf
    obtain ⟨f, rfl⟩ : ∃ f, fuel = f + 1 := ⟨fuel - 1, by omega⟩
    simp only [NewVersionProxy.whileLoop, hnone]
  | succ n ih =>
    intro st hrem
    cases hv : vs[st.attemptCount]? with
    | none =>
      refine ⟨(st, .error (jsJoin " | " st.errorMsgs)), ?_, by simp, by simp, by simp⟩
      intro fuel hf
      obtain ⟨f, rfl⟩ : ∃ f, fuel = f + 1 := ⟨fuel - 1, by omega⟩
      simp only [NewVersionProxy.whileLoop, hv]
    | some v =>
      have hlt : st.attemptCount < vs.length := by
        by_contra hcon
        have : vs[st.attemptCount]? = none := by
          rw [List.getElem?_eq_none_iff]; omega
        rw [this] at hv
        cases hv
      have hpos : 1 ≤ NewVersionProxy.remaining vs st := by
        unfold NewVersionProxy.remaining; omega
      obtain ⟨s1, s2, s3⟩ := nvp_iteration_spec (w st.iterations) v st
      cases hit : NewVersionProxy.iteration (w st.iterations) v st with
      | returned st1 r =>
        obtain ⟨g1, g2, g3⟩ := s2 st1 r hit
        refine ⟨(st1, .ok r), ?_, by simp only; omega, by simp only; rw [g2]; omega,
          by simp only; omega⟩
        intro fuel hf
        obtain ⟨f, rfl⟩ : ∃ f, fuel = f + 1 := ⟨fuel - 1, by omega⟩
        simp only [NewVersionProxy.whileLoop, hv, hit]
      | raised st1 e =>
        obtain ⟨g1, g2, g3⟩ := s3 st1 e hit
        refine ⟨(st1, .error e), ?_, by simp only; omega, by simp only; omega,
          by simp only; omega⟩
        intro fuel hf
        obtain ⟨f, rfl⟩ : ∃ f, fuel = f + 1 := ⟨fuel - 1, by omega⟩
        simp only [NewVersionProxy.whileLoop, hv, hit]
      | next st1 =>
        obtain ⟨g1, g2, g3⟩ := s1 st1 hit
        have hrem1 : NewVersionProxy.remaining vs st1 + 1 ≤ NewVersionProxy.remaining vs st ∧
            NewVersionProxy.resets st1.calls + (if st1.usedProxy then 0 else 1) ≤
              NewVersionProxy.resets st.calls + (if st.usedProxy then 0 else 1) := by
          unfold NewVersionProxy.remaining
          rcases g3 with ⟨a1, a2, a3⟩ | ⟨a1, a2, a3, a4⟩
          · rw [a1, a2, a3]
            constructor
            · omega
            · exact Nat.le_refl _
          · rw [a1, a2, a3, a4]
            simp
            omega
        obtain ⟨out, o1, o2, o3, o4⟩ := ih st1 (by omega)
        refine ⟨out, ?_, by omega, by omega, by omega⟩
        intro fuel hf
        obtain ⟨f, rfl⟩ : ∃ f, fuel = f + 1 := ⟨fuel - 1, by omega⟩
        simp only [NewVersionProxy.whileLoop, hv, hit]
        exact o1 f (by omega)

/-- C29: `scanWithRetry` of new-version-proxy.js terminates whatever the attempts do.
The run ends with a returned object or a raised error, and with any fuel of nine or more
the result is the same. It makes at most eight iterations of the loop (attempts) and
accumulates at most eight messages. `attemptCount` is reset to 0 at most once, and an
iteration that resets it is one that found `usedProxy` false and left it true; every
other iteration that goes back to the loop condition raises `attemptCount` by one. -/
theorem new_version_proxy_terminates {φ : Type} (w : Nat → NewVersionProxy.Attempt φ)
    (u : String) :
    (∃ (st : NewVersionProxy.State) (res : Except String (ScanResult φ)),
        NewVersionProxy.scanWithRetry w u = some (st, res) ∧
        (∀ fuel, 9 ≤ fuel →
          NewVersionProxy.whileLoop w (NewVersionProxy.versions u) fuel
            NewVersionProxy.initial = some (st, res)) ∧
        st.iterations ≤ 8 ∧ st.errorMsgs.length ≤ 8 ∧
        NewVersionProxy.resets st.calls ≤ 1) ∧
      (∀ (a : NewVersionProxy.Attempt φ) (v : Version) (st st1 : NewVersionProxy.State),
        NewVersionProxy.iteration a v st = .next st1 →
          (st1.attemptCount = st.attemptCount + 1 ∧ st1.usedProxy = st.usedProxy ∧
              NewVersionProxy.resets st1.calls = NewVersionProxy.resets st.calls) ∨
            (st1.attemptCount = 0 ∧ st.usedProxy = false ∧ st1.usedProxy = true ∧
              NewVersionProxy.resets st1.calls = NewVersionProxy.resets st.calls + 1)) := by
  constructor
  · obtain ⟨out, o1, o2, o3, o4⟩ :=
      nvp_whileLoop_terminates w (NewVersionProxy.versions u) 8 NewVersionProxy.initial
        (le_of_eq rfl)
    have hr : NewVersionProxy.remaining (NewVersionProxy.versions u)
        NewVersionProxy.initial = 8 := rfl
    rw [hr] at o2 o3
    refine ⟨out.1, out.2, o1 9 (by omega), fun fuel hf => o1 fuel (by omega), ?_, ?_, ?_⟩
    · simpa [NewVersionProxy.initial] using o2
    · simpa [NewVersionProxy.initial] using o3
    · simpa [NewVersionProxy.initial, NewVersionProxy.resets] using o4
  · intro a v st st1 h
    exact ((nvp_iteration_spec a v st).1 st1 h).2.2

/-- C29 at a task whose fourth attempt switches to the proxy: eight attempts are run,
eight messages are accumulated, and the counter is reset once. -/
theorem new_version_proxy_terminates_witness :
    (NewVersionProxy.scanWithRetry Sample.resetAtFourth "http://www.example.com").map
        (fun out => (out.1.iterations, out.1.errorMsgs.length,
          NewVersionProxy.resets out.1.calls)) = some (8, 8, 1) ∧
      ∃ (st : NewVersionProxy.State) (res : Except String (ScanResult Nat)),
        NewVersionProxy.scanWithRetry Sample.resetAtFourth "http://www.example.com" =
          some (st, res) ∧ st.iterations ≤ 8 := by
  refine ⟨by rfl, ?_⟩
  obtain ⟨st, res, h1, _, h3, _⟩ :=
    (new_version_proxy_terminates Sample.resetAtFourth "http://www.example.com").1
  exact ⟨st, res, h1, h3⟩

end DevScan
